import Mathlib

/-!
# AAI: strategic brain and sector grid

A shallow embedding of parts of `AAIBrain.cpp`, `AAISector.cpp`, `AAISector.h` and
`AAIHelperFunctions.cpp`, followed by theorems about them.

Modelling conventions

* C++ `float` values are modelled as exact rationals (`ℚ`); the literals `0.3f`, `0.95f`, ...
  are the decimal fractions they denote.  Rounding is not modelled.
* C++ `int` / `size_t` counters are `Int` / `Nat`; none of the modelled code can overflow for
  grids of realistic size.
* The `ai` back pointer of a sector or brain is replaced by explicit arguments carrying the
  parts of the environment a function reads.
-/

namespace AAI

/-! ## Target types -/

/-- Modelled from the spec: the enumeration `ETargetType` of `AAIUnitTypes.h`, which is not
part of the available sources.  The closed set of target types of the data model, plus the
value `UNKNOWN` used by `DetermineHighestThreat` for "no target type". -/
inductive ETargetType where
  | SURFACE
  | AIR
  | FLOATER
  | SUBMERGED
  | STATIC
  | UNKNOWN
  deriving DecidableEq, Repr

/-- Modelled from the spec: the table `AAITargetType::m_mobileTargetTypes`, which is not part of
the available sources.  The mobile target types, in the order in which the data model lists
them; this is the iteration order of every `for(targetType : m_mobileTargetTypes)` loop. -/
def m_mobileTargetTypes : List ETargetType :=
  [ETargetType.SURFACE, ETargetType.AIR, ETargetType.FLOATER, ETargetType.SUBMERGED]

/-- The class `MobileTargetTypeValues`: one value per mobile target type. -/
structure MobileTargetTypeValues where
  surface : ℚ
  air : ℚ
  floater : ℚ
  submerged : ℚ
  deriving DecidableEq, Repr

namespace MobileTargetTypeValues

/-- The default constructed vector (all entries zero). -/
def zero : MobileTargetTypeValues := ⟨0, 0, 0, 0⟩

/-- Read access `values[targetType]`.  Only mobile target types are valid indices; the entries
for the other two are never read by the modelled code and are given as `0`. -/
def get (v : MobileTargetTypeValues) : ETargetType → ℚ
  | ETargetType.SURFACE => v.surface
  | ETargetType.AIR => v.air
  | ETargetType.FLOATER => v.floater
  | ETargetType.SUBMERGED => v.submerged
  | _ => 0

/-- Write access `values[targetType] = x`. -/
def set (v : MobileTargetTypeValues) (t : ETargetType) (x : ℚ) : MobileTargetTypeValues :=
  match t with
  | ETargetType.SURFACE => { v with surface := x }
  | ETargetType.AIR => { v with air := x }
  | ETargetType.FLOATER => { v with floater := x }
  | ETargetType.SUBMERGED => { v with submerged := x }
  | _ => v

end MobileTargetTypeValues

/-- The class `TargetTypeValues`: one value per target type (`UNKNOWN` excluded). -/
structure TargetTypeValues where
  surface : ℚ
  air : ℚ
  floater : ℚ
  submerged : ℚ
  static : ℚ
  deriving DecidableEq, Repr

namespace TargetTypeValues

/-- The constructor `TargetTypeValues(initialValue)`. -/
def fill (x : ℚ) : TargetTypeValues := ⟨x, x, x, x, x⟩

/-- Read access `values[targetType]`. -/
def get (v : TargetTypeValues) : ETargetType → ℚ
  | ETargetType.SURFACE => v.surface
  | ETargetType.AIR => v.air
  | ETargetType.FLOATER => v.floater
  | ETargetType.SUBMERGED => v.submerged
  | ETargetType.STATIC => v.static
  | ETargetType.UNKNOWN => 0

/-- Write access `values[targetType] = x`. -/
def set (v : TargetTypeValues) (t : ETargetType) (x : ℚ) : TargetTypeValues :=
  match t with
  | ETargetType.SURFACE => { v with surface := x }
  | ETargetType.AIR => { v with air := x }
  | ETargetType.FLOATER => { v with floater := x }
  | ETargetType.SUBMERGED => { v with submerged := x }
  | ETargetType.STATIC => { v with static := x }
  | ETargetType.UNKNOWN => v

end TargetTypeValues

/-- The class `ThreatByTargetType`: a threat value with the target type it belongs to. -/
structure ThreatByTargetType where
  Threat : ℚ
  TargetType : ETargetType
  deriving DecidableEq, Repr

/-! ## Movement types (AAITypes.h) -/

/-- The enumeration `EMovementType` (AAITypes.h:31-43). -/
inductive EMovementType where
  | MOVEMENT_TYPE_UNKNOWN
  | MOVEMENT_TYPE_GROUND
  | MOVEMENT_TYPE_AMPHIBIOUS
  | MOVEMENT_TYPE_HOVER
  | MOVEMENT_TYPE_SEA_FLOATER
  | MOVEMENT_TYPE_SEA_SUBMERGED
  | MOVEMENT_TYPE_AIR
  | MOVEMENT_TYPE_STATIC_LAND
  | MOVEMENT_TYPE_STATIC_SEA_FLOATER
  | MOVEMENT_TYPE_STATIC_SEA_SUBMERGED
  deriving DecidableEq, Repr

/-- The `uint32_t` value of a member of `EMovementType`, `static_cast<uint32_t>(moveType)`. -/
def EMovementType.toUInt32 : EMovementType → Nat
  | MOVEMENT_TYPE_UNKNOWN => 0x0000
  | MOVEMENT_TYPE_GROUND => 0x0001
  | MOVEMENT_TYPE_AMPHIBIOUS => 0x0002
  | MOVEMENT_TYPE_HOVER => 0x0004
  | MOVEMENT_TYPE_SEA_FLOATER => 0x0008
  | MOVEMENT_TYPE_SEA_SUBMERGED => 0x0010
  | MOVEMENT_TYPE_AIR => 0x0020
  | MOVEMENT_TYPE_STATIC_LAND => 0x0040
  | MOVEMENT_TYPE_STATIC_SEA_FLOATER => 0x0080
  | MOVEMENT_TYPE_STATIC_SEA_SUBMERGED => 0x0100

/-- All members of `EMovementType`. -/
def EMovementType.all : List EMovementType :=
  [MOVEMENT_TYPE_UNKNOWN, MOVEMENT_TYPE_GROUND, MOVEMENT_TYPE_AMPHIBIOUS, MOVEMENT_TYPE_HOVER,
    MOVEMENT_TYPE_SEA_FLOATER, MOVEMENT_TYPE_SEA_SUBMERGED, MOVEMENT_TYPE_AIR,
    MOVEMENT_TYPE_STATIC_LAND, MOVEMENT_TYPE_STATIC_SEA_FLOATER,
    MOVEMENT_TYPE_STATIC_SEA_SUBMERGED]

/-- The class `AAIMovementType` (AAITypes.h:46-132).  The member `m_movementType` is a value
of the enumeration type with underlying type `uint32_t`; it is modelled by that value, which
can be any bitmask below `2^32`. -/
structure AAIMovementType where
  m_movementType : Nat
  deriving DecidableEq, Repr

namespace AAIMovementType

/-- The constructor `AAIMovementType()` (AAITypes.h:49). -/
def unknown : AAIMovementType :=
  ⟨EMovementType.MOVEMENT_TYPE_UNKNOWN.toUInt32⟩

/-- Function `AAIMovementType::setMovementType` (AAITypes.h:52). -/
def setMovementType (_m : AAIMovementType) (moveType : EMovementType) : AAIMovementType :=
  ⟨moveType.toUInt32⟩

/-- The method `AddMovementType` called in `AAIBrain.cpp`; AAITypes.h of the available sources
does not declare it.  It adds the elementary movement type to the bitmask. -/
def AddMovementType (m : AAIMovementType) (moveType : EMovementType) : AAIMovementType :=
  ⟨m.m_movementType ||| moveType.toUInt32⟩

/-- Function `AAIMovementType::cannotMoveToOtherContinents` (AAITypes.h:59-66). -/
def cannotMoveToOtherContinents (m : AAIMovementType) : Bool :=
  let continentBitMask : Nat :=
    EMovementType.MOVEMENT_TYPE_GROUND.toUInt32 + EMovementType.MOVEMENT_TYPE_SEA_FLOATER.toUInt32
      + EMovementType.MOVEMENT_TYPE_SEA_SUBMERGED.toUInt32
  (m.m_movementType &&& continentBitMask) != 0

/-- Function `AAIMovementType::canMoveOnLand` (AAITypes.h:69-76). -/
def canMoveOnLand (m : AAIMovementType) : Bool :=
  let canMoveLandBitmask : Nat :=
    EMovementType.MOVEMENT_TYPE_GROUND.toUInt32 + EMovementType.MOVEMENT_TYPE_AMPHIBIOUS.toUInt32
      + EMovementType.MOVEMENT_TYPE_HOVER.toUInt32
  (m.m_movementType &&& canMoveLandBitmask) != 0

/-- Function `AAIMovementType::canMoveOnSea` (AAITypes.h:79-87). -/
def canMoveOnSea (m : AAIMovementType) : Bool :=
  let canMoveSeaBitmask : Nat :=
    EMovementType.MOVEMENT_TYPE_SEA_FLOATER.toUInt32
      + EMovementType.MOVEMENT_TYPE_SEA_SUBMERGED.toUInt32
      + EMovementType.MOVEMENT_TYPE_AMPHIBIOUS.toUInt32
      + EMovementType.MOVEMENT_TYPE_HOVER.toUInt32
  (m.m_movementType &&& canMoveSeaBitmask) != 0

/-- Function `AAIMovementType::isStatic` (AAITypes.h:90-97). -/
def isStatic (m : AAIMovementType) : Bool :=
  let staticBitmask : Nat :=
    EMovementType.MOVEMENT_TYPE_STATIC_LAND.toUInt32
      + EMovementType.MOVEMENT_TYPE_STATIC_SEA_FLOATER.toUInt32
      + EMovementType.MOVEMENT_TYPE_STATIC_SEA_SUBMERGED.toUInt32
  (m.m_movementType &&& staticBitmask) != 0

/-- Function `AAIMovementType::isAir` (AAITypes.h:114). -/
def isAir (m : AAIMovementType) : Bool :=
  m.m_movementType == EMovementType.MOVEMENT_TYPE_AIR.toUInt32

/-- Function `AAIMovementType::isSeaUnit` (AAITypes.h:119-124). -/
def isSeaUnit (m : AAIMovementType) : Bool :=
  let seaUnitBitmask : Nat :=
    EMovementType.MOVEMENT_TYPE_SEA_FLOATER.toUInt32
      + EMovementType.MOVEMENT_TYPE_SEA_SUBMERGED.toUInt32
  (m.m_movementType &&& seaUnitBitmask) != 0

/-- Function `AAIMovementType::isIncludedIn` (AAITypes.h:127). -/
def isIncludedIn (m : AAIMovementType) (moveTypesBitmask : Nat) : Bool :=
  (m.m_movementType &&& moveTypesBitmask) != 0

end AAIMovementType

/-! ## AAIHelperFunctions -/

/-- Function `AAIHelperFunctions::DetermineHighestThreat` (AAIHelperFunctions.cpp:14-28). -/
def DetermineHighestThreat (threatByTargetType : MobileTargetTypeValues) : ThreatByTargetType :=
  m_mobileTargetTypes.foldl
    (fun highestThreat targetType =>
      if threatByTargetType.get targetType > highestThreat.Threat then
        { Threat := threatByTargetType.get targetType, TargetType := targetType }
      else highestThreat)
    { Threat := 0, TargetType := ETargetType.UNKNOWN }

/-! ## Sectors (AAISector.h, AAISector.cpp) -/

/-- The engine type `float3`. -/
structure float3 where
  x : ℚ
  y : ℚ
  z : ℚ
  deriving DecidableEq, Repr

/-- Modelled from the spec: the class `AAIMetalSpot`, which is not part of the available
sources.  A metal spot has a position, an occupied flag and an optional extractor reference
(`-1` when there is none). -/
structure AAIMetalSpot where
  pos : float3
  occupied : Bool
  extractor : Int
  extractor_def : Int
  deriving DecidableEq, Repr

/-- The data members of `AAISector` (AAISector.h:157-263), in the order of their declaration.
The `ai` pointer is left out. -/
structure AAISector where
  x : Int
  y : Int
  flat_ratio : ℚ
  water_ratio : ℚ
  continent : Int
  left : ℚ
  right : ℚ
  top : ℚ
  bottom : ℚ
  metalSpots : List AAIMetalSpot
  freeMetalSpots : Bool
  distance_to_base : Int
  interior : Bool
  m_suitableMovementTypes : Nat
  enemy_structures : ℚ
  allied_structures : ℚ
  rally_points : Int
  failed_defences : Int
  last_scout : ℚ
  importance_this_game : ℚ
  importance_learned : ℚ
  attacked_by_this_game : List ℚ
  attacked_by_learned : List ℚ
  combats_this_game : List ℚ
  combats_learned : List ℚ
  enemies_on_radar : Int
  my_stat_combat_power : List ℚ
  my_mobile_combat_power : List ℚ
  enemy_stat_combat_power : List ℚ
  enemy_mobile_combat_power : List ℚ
  m_minSectorDistanceToMapEdge : Int
  m_ownBuildingsOfCategory : List Int
  m_enemyCombatUnits : List ℚ
  m_lostUnits : ℚ
  m_lostAirUnits : ℚ


/-- The statement `values[index] += increment` on a `std::vector<float>`.  An index outside
the vector is undefined behaviour in the source; here it leaves the vector as it is. -/
def addAt : List ℚ → Nat → ℚ → List ℚ
  | [], _, _ => []
  | v :: vs, 0, increment => (v + increment) :: vs
  | v :: vs, index + 1, increment => v :: addAt vs index increment

/-- The observations `AAISector::UpdateThreatValues` makes of a unit definition through
`ai->s_buildTree` (`GetUnitCategory(id).isBuilding()`, `GetUnitCategory(id).isCombatUnit()`,
`AAICombatUnitCategory(GetUnitCategory(id)).GetArrayIndex()` and
`GetMovementType(id).IsAir()`).  The build tree is an external collaborator; what it answers
for a unit definition id is a parameter of the model. -/
structure UnitTypeProperties where
  isBuilding : Bool
  isCombatUnit : Bool
  combatCategoryArrayIndex : Nat
  isAir : Bool
  deriving DecidableEq, Repr

/-- The enumeration `ECombatUnitCategory` of the combat unit categories; its declaration is
not part of the available sources.  The members are the five categories named in the comments
on the per-category vectors of a sector (AAISector.h:209-214, 257). -/
inductive ECombatUnitCategory where
  | GROUND_COMBAT
  | AIR_COMBAT
  | HOVER_COMBAT
  | SEA_COMBAT
  | SUBMARINE_COMBAT
  deriving DecidableEq, Repr

/-- The array index of a combat unit category as the comments on the per-category vectors of
a sector give it (AAISector.h:257): `0 ground, 1 air, 2 hover, 3 sea, 4 submarine`. -/
def combatCategoryArrayIndex : ECombatUnitCategory → Nat
  | ECombatUnitCategory.GROUND_COMBAT => 0
  | ECombatUnitCategory.AIR_COMBAT => 1
  | ECombatUnitCategory.HOVER_COMBAT => 2
  | ECombatUnitCategory.SEA_COMBAT => 3
  | ECombatUnitCategory.SUBMARINE_COMBAT => 4

namespace AAISector

/-- Function `AAISector::GetTotalEnemyCombatUnits` (AAISector.h:70). -/
def GetTotalEnemyCombatUnits (s : AAISector) : ℚ :=
  s.m_enemyCombatUnits.foldl (fun sum value => sum + value) 0

/-- Function `AAISector::IsOccupiedByEnemies` (AAISector.h:73). -/
def IsOccupiedByEnemies (s : AAISector) : Bool :=
  decide (s.GetTotalEnemyCombatUnits > 1 / 10) || decide (s.enemy_structures > 1 / 100)
    || decide (s.enemies_on_radar > 0)

/-- The accessor `GetDistanceToBase()` used by `AAIBrain.cpp`; it reads `distance_to_base`. -/
def GetDistanceToBase (s : AAISector) : Int :=
  s.distance_to_base

/-- Function `AAISector::Update` (AAISector.cpp:157-164). -/
def Update (s : AAISector) : AAISector :=
  { s with
    m_lostUnits := s.m_lostUnits * (95 / 100)
    m_lostAirUnits := s.m_lostAirUnits * (95 / 100) }

/-- Function `AAISector::GetLostUnits` (AAISector.h:120). -/
def GetLostUnits (s : AAISector) : ℚ :=
  s.m_lostUnits + s.m_lostAirUnits

/-- Function `AAISector::GetLostAirUnits` (AAISector.h:123). -/
def GetLostAirUnits (s : AAISector) : ℚ :=
  s.m_lostAirUnits

/-- Function `AAISector::UpdateThreatValues` (AAISector.cpp:644-672).  `buildTree` stands for the lookups
in `ai->s_buildTree`. -/
def UpdateThreatValues (buildTree : Int → UnitTypeProperties) (s : AAISector)
    (destroyedDefId attackerDefId : Int) : AAISector :=
  let destroyedCategory := buildTree destroyedDefId
  let attackerCategory := buildTree attackerDefId
  if destroyedCategory.isBuilding = true then
    if attackerCategory.isCombatUnit = true then
      let increment : ℚ := if s.interior then 3 / 10 else 1
      { s with
        attacked_by_this_game :=
          addAt s.attacked_by_this_game attackerCategory.combatCategoryArrayIndex increment }
    else s
  else
    let s1 : AAISector :=
      if attackerCategory.isCombatUnit = true then
        { s with
          combats_this_game :=
            addAt s.combats_this_game attackerCategory.combatCategoryArrayIndex 1 }
      else s
    if (buildTree destroyedDefId).isAir then
      { s1 with m_lostAirUnits := s1.m_lostAirUnits + 1 }
    else
      { s1 with m_lostUnits := s1.m_lostUnits + 1 }

/-- Function `AAISector::GetTotalAttacksInThisGame` (AAISector.h:126-131).
`GetArrayIndex category` is `AAICombatUnitCategory(category).GetArrayIndex()`, whose class is
not part of the available sources. -/
def GetTotalAttacksInThisGame (GetArrayIndex : ECombatUnitCategory → Nat) (s : AAISector) : ℚ :=
  s.attacked_by_this_game.getD (GetArrayIndex ECombatUnitCategory.GROUND_COMBAT) 0
    + s.attacked_by_this_game.getD (GetArrayIndex ECombatUnitCategory.HOVER_COMBAT) 0
    + s.attacked_by_this_game.getD (GetArrayIndex ECombatUnitCategory.SEA_COMBAT) 0

/-- Function `AAISector::ResetLocalCombatPower` (AAISector.cpp:150-155). -/
def ResetLocalCombatPower (s : AAISector) : AAISector :=
  { s with
    allied_structures := 0
    my_mobile_combat_power := s.my_mobile_combat_power.map fun _ => 0
    my_stat_combat_power := s.my_stat_combat_power.map fun _ => 0 }

/-- Function `AAISector::ResetSpottedEnemiesData` (AAISector.h:67). -/
def ResetSpottedEnemiesData (s : AAISector) : AAISector :=
  { s with m_enemyCombatUnits := s.m_enemyCombatUnits.map fun _ => 0 }

/-- Function `AAISector::AddEnemyCombatUnit` (AAISector.h:75).  `categoryIndex` is
`category.GetArrayIndex()`. -/
def AddEnemyCombatUnit (s : AAISector) (categoryIndex : Nat) (value : ℚ) : AAISector :=
  { s with m_enemyCombatUnits := addAt s.m_enemyCombatUnits categoryIndex value }

/-- The loop of `AAISector::GetFreeMetalSpot` over the remaining metal spots. -/
def firstFreeMetalSpot : List AAIMetalSpot → Option AAIMetalSpot
  | [] => none
  | spot :: rest => if !spot.occupied then some spot else firstFreeMetalSpot rest

/-- Function `AAISector::GetFreeMetalSpot` (AAISector.cpp:166-178).  The returned pointer is
modelled by the spot it points to; the null pointer is `none`. -/
def GetFreeMetalSpot (s : AAISector) : Option AAIMetalSpot :=
  firstFreeMetalSpot s.metalSpots

end AAISector

/-- The type `SectorMap`: the grid of sectors, `sectors[x][y]`. -/
abbrev SectorMap := List (List AAISector)

/-! ## The map as seen from a sector -/

/-- The members of `AAIMap` that the modelled functions read or write through
`ai->Getmap()`: the grid dimensions, the size of a sector in map cells, the sector grid
`sector[x][y]` and the table `team_sector_map[x][y]` shared by all teams. -/
structure AAIMap where
  xSectors : Int
  ySectors : Int
  xSectorSizeMap : Int
  ySectorSizeMap : Int
  sector : SectorMap
  team_sector_map : List (List Int)

/-- The entry `grid[x][y]` of a two-dimensional vector indexed by `int`s, if it exists. -/
def cellAt {α : Type} (grid : List (List α)) (x y : Int) : Option α :=
  if 0 ≤ x ∧ 0 ≤ y then (grid[x.toNat]?).bind fun column => column[y.toNat]? else none

/-- The assignment `grid[x][y] = value`.  An index outside the vector is undefined behaviour
in the source; here it leaves the vector as it is. -/
def setCell {α : Type} (grid : List (List α)) (x y : Int) (value : α) : List (List α) :=
  if 0 ≤ x ∧ 0 ≤ y then
    match grid[x.toNat]? with
    | some column => grid.set x.toNat (column.set y.toNat value)
    | none => grid
  else grid

/-- The expression `ai->Getmap()->sector[x][y].enemy_mobile_combat_power[combat_category]`.
Reading outside the grid or the vector is undefined behaviour in the source; here it gives
`0`. -/
def AAIMap.enemyMobileCombatPowerAt (map : AAIMap) (x y : Int) (combat_category : Nat) : ℚ :=
  match cellAt map.sector x y with
  | some s => s.enemy_mobile_combat_power.getD combat_category 0
  | none => 0

/-- The expression `ai->Getmap()->sector[x][y].distance_to_base`; outside the grid it is given
as `-1`. -/
def AAIMap.distanceToBaseAt (map : AAIMap) (x y : Int) : Int :=
  match cellAt map.sector x y with
  | some s => s.distance_to_base
  | none => -1

/-- The constant `ZeroVector`. -/
def ZeroVector : float3 := ⟨0, 0, 0⟩

/-- The result of `AAISector::SetBase`: the returned flag, the sector itself, the shared
`team_sector_map` and the flag `m_freeMetalSpotsInBase` of the brain. -/
structure SetBaseResult where
  successful : Bool
  sector : AAISector
  team_sector_map : List (List Int)
  m_freeMetalSpotsInBase : Bool

/-- The external map and build-table queries behind the buildsite functions of a sector:
`ai->Getbt()->GetUnitDef(id)` and the searches of `AAIMap` in a rectangle
`(xStart, xEnd, yStart, yEnd)`.  They are parameters of the model; `UnitDef` is the engine's
unit definition type.  A query that draws random numbers is given with its outcome. -/
structure BuildsiteQueries (UnitDef : Type) where
  GetUnitDef : Int → UnitDef
  GetBuildSiteInRect : UnitDef → Int × Int × Int × Int → Bool → float3
  GetCenterBuildsite : UnitDef → Int × Int × Int × Int → Bool → float3
  GetRadarArtyBuildsite : UnitDef → Int × Int × Int × Int → ℚ → Bool → float3
  GetHighestBuildsite : UnitDef → Int × Int × Int × Int → float3
  GetRandomBuildsite : UnitDef → Int × Int × Int × Int → Int → Bool → float3

namespace AAISector

/-- Function `AAISector::GetEnemyAreaCombatPowerVs` (AAISector.cpp:588-606). -/
def GetEnemyAreaCombatPowerVs (map : AAIMap) (s : AAISector) (combat_category : Nat)
    (neighbour_importance : ℚ) : ℚ :=
  let result : ℚ := s.enemy_mobile_combat_power.getD combat_category 0
  let result : ℚ :=
    if s.x > 0 then
      result + neighbour_importance * map.enemyMobileCombatPowerAt (s.x - 1) s.y combat_category
    else result
  let result : ℚ :=
    if s.x < map.xSectors - 1 then
      result + neighbour_importance * map.enemyMobileCombatPowerAt (s.x + 1) s.y combat_category
    else result
  let result : ℚ :=
    if s.y > 0 then
      result + neighbour_importance * map.enemyMobileCombatPowerAt s.x (s.y - 1) combat_category
    else result
  let result : ℚ :=
    if s.y < map.ySectors - 1 then
      result + neighbour_importance * map.enemyMobileCombatPowerAt s.x (s.y + 1) combat_category
    else result
  result

/-- Function `AAISector::SetBase` (AAISector.cpp:107-148).  `myTeam` is
`ai->GetAICallback()->GetMyTeam()` and `MAX_SECTOR_IMPORTANCE` the value of
`cfg->MAX_SECTOR_IMPORTANCE`.  The state the function can change is passed in and returned:
the sector, `team_sector_map` and the brain's `m_freeMetalSpotsInBase`. -/
def SetBase (myTeam : Int) (MAX_SECTOR_IMPORTANCE : ℚ) (s : AAISector)
    (team_sector_map : List (List Int)) (m_freeMetalSpotsInBase : Bool) (base : Bool) :
    SetBaseResult :=
  if base then
    if (cellAt team_sector_map s.x s.y).getD (-1) ≥ 0 then
      { successful := false, sector := s, team_sector_map := team_sector_map,
        m_freeMetalSpotsInBase := m_freeMetalSpotsInBase }
    else
      { successful := true
        sector :=
          { s with
            distance_to_base := 0
            importance_this_game :=
              if s.importance_this_game + 1 > MAX_SECTOR_IMPORTANCE then MAX_SECTOR_IMPORTANCE
              else s.importance_this_game + 1 }
        team_sector_map := setCell team_sector_map s.x s.y myTeam
        m_freeMetalSpotsInBase :=
          if s.metalSpots.any fun spot => !spot.occupied then true
          else m_freeMetalSpotsInBase }
  else
    { successful := true
      sector := { s with distance_to_base := 1 }
      team_sector_map := setCell team_sector_map s.x s.y (-1)
      m_freeMetalSpotsInBase := m_freeMetalSpotsInBase }

/-- Function `AAISector::DetermineBuildsiteRectangle` (AAISector.cpp:402-428): the rectangle
`(xStart, xEnd, yStart, yEnd)`. -/
def DetermineBuildsiteRectangle (map : AAIMap) (s : AAISector) : Int × Int × Int × Int :=
  let xStart : Int := s.x * map.xSectorSizeMap
  let xEnd : Int := xStart + map.xSectorSizeMap
  let xStart : Int := if xStart = 0 then 8 else xStart
  let yStart : Int := s.y * map.ySectorSizeMap
  let yEnd : Int := yStart + map.ySectorSizeMap
  let yStart : Int := if yStart = 0 then 8 else yStart
  let xStart : Int :=
    if s.x > 0 ∧ map.distanceToBaseAt (s.x - 1) s.y > 0 then
      xStart + Int.tdiv map.xSectorSizeMap 8
    else xStart
  let xEnd : Int :=
    if s.x < map.xSectors - 1 ∧ map.distanceToBaseAt (s.x + 1) s.y > 0 then
      xEnd - Int.tdiv map.xSectorSizeMap 8
    else xEnd
  let yStart : Int :=
    if s.y > 0 ∧ map.distanceToBaseAt s.x (s.y - 1) > 0 then
      yStart + Int.tdiv map.ySectorSizeMap 8
    else yStart
  let yEnd : Int :=
    if s.y < map.ySectors - 1 ∧ map.distanceToBaseAt s.x (s.y + 1) > 0 then
      yEnd - Int.tdiv map.ySectorSizeMap 8
    else yEnd
  (xStart, xEnd, yStart, yEnd)

/-- Function `AAISector::FindBuildsite` (AAISector.cpp:250-257). -/
def FindBuildsite {UnitDef : Type} (q : BuildsiteQueries UnitDef) (map : AAIMap)
    (s : AAISector) (building : Int) (water : Bool) : float3 :=
  q.GetBuildSiteInRect (q.GetUnitDef building) (s.DetermineBuildsiteRectangle map) water

/-- Function `AAISector::GetCenterBuildsite` (AAISector.cpp:354-361). -/
def GetCenterBuildsite {UnitDef : Type} (q : BuildsiteQueries UnitDef) (map : AAIMap)
    (s : AAISector) (building : Int) (water : Bool) : float3 :=
  q.GetCenterBuildsite (q.GetUnitDef building) (s.DetermineBuildsiteRectangle map) water

/-- Function `AAISector::GetRadarArtyBuildsite` (AAISector.cpp:363-370). -/
def GetRadarArtyBuildsite {UnitDef : Type} (q : BuildsiteQueries UnitDef) (map : AAIMap)
    (s : AAISector) (building : Int) (range : ℚ) (water : Bool) : float3 :=
  q.GetRadarArtyBuildsite (q.GetUnitDef building) (s.DetermineBuildsiteRectangle map) range
    water

/-- Function `AAISector::GetHighestBuildsite` (AAISector.cpp:372-385). -/
def GetHighestBuildsite {UnitDef : Type} (q : BuildsiteQueries UnitDef) (map : AAIMap)
    (s : AAISector) (building : Int) : float3 :=
  if building < 1 then ZeroVector
  else q.GetHighestBuildsite (q.GetUnitDef building) (s.DetermineBuildsiteRectangle map)

/-- Function `AAISector::GetRandomBuildsite` (AAISector.cpp:387-400). -/
def GetRandomBuildsite {UnitDef : Type} (q : BuildsiteQueries UnitDef) (map : AAIMap)
    (s : AAISector) (building : Int) (tries : Int) (water : Bool) : float3 :=
  if building < 1 then ZeroVector
  else
    q.GetRandomBuildsite (q.GetUnitDef building) (s.DetermineBuildsiteRectangle map) tries
      water

end AAISector

/-! ## Statistics -/

/-- Modelled from the spec: the method `StatisticalData::GetDeviationFromZero`, whose class is
not part of the available sources.  The deviation transform
`deviation = |value − reference| / (spread + ε)` with the zero reference: the reference is `0`
and the spread is the largest of the samples (and at least `0`).  `samples` are the values
added to the statistics object, `ε` is the small additive constant. -/
def StatisticalData.GetDeviationFromZero (ε : ℚ) (samples : List ℚ) (value : ℚ) : ℚ :=
  |value - 0| / (samples.foldr max 0 + ε)

/-! ## The brain (AAIBrain.cpp) -/

/-- Function `IsRandomNumberBelow` (AAIBrain.cpp:451-456).  `randomDraw` is the value returned
by `std::rand()`. -/
def IsRandomNumberBelow (randomDraw : Nat) (threshold : ℚ) : Bool :=
  let randomValue : ℚ := 1 / 100 * ((randomDraw % 101 : Nat) : ℚ)
  decide (randomValue < threshold)

/-- The data members of `AAIBrain` read or written by the modelled functions, together with
the two static members `s_attackedByRates` and `s_enemyThreatByMap`.

* `m_sectorsInDistToBase[d]` holds sector pointers; a pointer is modelled by the grid index
  `(x, y)` of the sector it points to.
* `m_metalIncome` is the value of `m_metalIncome.GetAverageValue()`; the sample buffer itself
  is not modelled.  The same holds for `m_metalAvailable`, `m_energyAvailable`,
  `m_energyIncome`, `m_metalSurplus` and `m_energySurplus`.
* `s_attackedByRates gamePhase targetType` is
  `s_attackedByRates.GetAttackedByRate(gamePhase, targetType)`, with the game phase given by
  its index.
* `m_centerOfBase` is the pair `(x, y)` of the map position. -/
structure AAIBrain where
  m_sectorsInDistToBase : List (List (Int × Int))
  m_freeMetalSpotsInBase : Bool
  m_baseFlatLandRatio : ℚ
  m_baseWaterRatio : ℚ
  m_centerOfBase : Int × Int
  m_recentlyAttackedByRates : MobileTargetTypeValues
  m_maxSpottedCombatUnitsOfTargetType : MobileTargetTypeValues
  m_totalMobileCombatPower : MobileTargetTypeValues
  m_metalAvailable : ℚ
  m_energyAvailable : ℚ
  m_metalIncome : ℚ
  m_energyIncome : ℚ
  m_metalSurplus : ℚ
  m_energySurplus : ℚ
  m_estimatedPressureByEnemies : ℚ
  s_attackedByRates : Nat → MobileTargetTypeValues
  s_enemyThreatByMap : MobileTargetTypeValues

namespace AAIBrain

/-- Function `AAIBrain::GetAttacksBy` (AAIBrain.cpp:702-706). -/
def GetAttacksBy (b : AAIBrain) (targetType : ETargetType) (gamePhase : Nat) : ℚ :=
  3 / 10 * (b.s_attackedByRates gamePhase).get targetType
    + 7 / 10 * b.m_recentlyAttackedByRates.get targetType

/-- The statistics object after the loop of `DetermineThreatByTargetType` has added one value
per mobile target type and `Finalize()` has been called: it is determined by the values added,
in the order they were added. -/
def addedValues (value : ETargetType → ℚ) : List ℚ :=
  m_mobileTargetTypes.map value

/-- Function `AAIBrain::DetermineThreatByTargetType` (AAIBrain.cpp:502-549).

The class `StatisticalData` is not part of the available sources.  Its method
`GetDeviationFromZero` is the parameter `GetDeviationFromZero samples value`, where `samples`
are the values given to `AddValue` before `Finalize`.  `gamePhase` is the game phase of the
current frame. -/
def DetermineThreatByTargetType (GetDeviationFromZero : List ℚ → ℚ → ℚ) (b : AAIBrain)
    (gamePhase : Nat) : MobileTargetTypeValues :=
  let attackedByCategory : MobileTargetTypeValues :=
    m_mobileTargetTypes.foldl
      (fun values targetType => values.set targetType (b.GetAttacksBy targetType gamePhase))
      MobileTargetTypeValues.zero
  let attackedByCatStatistics := addedValues attackedByCategory.get
  let unitsSpottedStatistics := addedValues b.m_maxSpottedCombatUnitsOfTargetType.get
  let defenceStatistics := addedValues b.m_totalMobileCombatPower.get
  m_mobileTargetTypes.foldl
    (fun threatByTargetType targetType =>
      let sum : ℚ := b.s_enemyThreatByMap.get targetType
        + 11 / 10 * GetDeviationFromZero attackedByCatStatistics (attackedByCategory.get targetType)
        + 11 / 10 * GetDeviationFromZero unitsSpottedStatistics
            (b.m_maxSpottedCombatUnitsOfTargetType.get targetType)
      let threat : ℚ := sum
        / (1 / 10 + GetDeviationFromZero defenceStatistics (b.m_totalMobileCombatPower.get targetType))
      threatByTargetType.set targetType threat)
    MobileTargetTypeValues.zero

/-- Function `AAIBrain::DetermineCombatPowerVsTargetType` (AAIBrain.cpp:551-596). -/
def DetermineCombatPowerVsTargetType (GetDeviationFromZero : List ℚ → ℚ → ℚ) (b : AAIBrain)
    (gamePhase : Nat) : TargetTypeValues :=
  let threatByTargetType := DetermineThreatByTargetType GetDeviationFromZero b gamePhase
  let highestEnemyThreat := DetermineHighestThreat threatByTargetType
  let combatPowerVsTargetType : TargetTypeValues := TargetTypeValues.fill 0
  let combatPowerVsTargetType : TargetTypeValues :=
    match highestEnemyThreat.TargetType with
    | ETargetType.SURFACE =>
        combatPowerVsTargetType.set ETargetType.SURFACE (threatByTargetType.get ETargetType.SURFACE)
    | ETargetType.AIR =>
        combatPowerVsTargetType.set ETargetType.AIR (threatByTargetType.get ETargetType.AIR)
    | ETargetType.FLOATER =>
        (combatPowerVsTargetType.set ETargetType.FLOATER
            (threatByTargetType.get ETargetType.FLOATER)).set
          ETargetType.SUBMERGED (threatByTargetType.get ETargetType.SUBMERGED)
    | ETargetType.SUBMERGED =>
        (combatPowerVsTargetType.set ETargetType.FLOATER
            (threatByTargetType.get ETargetType.FLOATER)).set
          ETargetType.SUBMERGED (threatByTargetType.get ETargetType.SUBMERGED)
    | _ => combatPowerVsTargetType
  combatPowerVsTargetType.set ETargetType.STATIC
    ((combatPowerVsTargetType.get ETargetType.SURFACE
        + combatPowerVsTargetType.get ETargetType.FLOATER)
      * (1 - b.m_estimatedPressureByEnemies))

/-- The local `incomeFactor` of the selection-criteria functions
(AAIBrain.cpp:645, 928, 947): `1.0f / (0.01f * metalIncome*metalIncome + 1.0f)`. -/
def incomeFactor (metalIncome : ℚ) : ℚ :=
  1 / (1 / 100 * metalIncome * metalIncome + 1)

/-- The class `ExtractorSelectionCriteria`, as constructed by
`ExtractorSelectionCriteria(cost, extractedMetal, armed)`. -/
structure ExtractorSelectionCriteria where
  cost : ℚ
  extractedMetal : ℚ
  armed : ℚ
  deriving DecidableEq, Repr

/-- Function `AAIBrain::DetermineExtractorSelectionCriteria` (AAIBrain.cpp:924-935). -/
def DetermineExtractorSelectionCriteria (b : AAIBrain) : ExtractorSelectionCriteria :=
  let metalIncome := b.m_metalIncome
  let incomeFactor := incomeFactor metalIncome
  let cost : ℚ := 1 / 2 + 3 / 2 * incomeFactor
  let extractedMetal : ℚ := 1 / 5 + 9 / 5 * (1 - incomeFactor)
  { cost := cost, extractedMetal := extractedMetal, armed := 0 }

/-- The struct `UnitSelectionCriteria` (AAIBuildTable.h:88-95), with the member
`factoryUtilization` that `DetermineCombatUnitSelectionCriteria` assigns. -/
structure UnitSelectionCriteria where
  power : ℚ
  efficiency : ℚ
  cost : ℚ
  speed : ℚ
  range : ℚ
  factoryUtilization : ℚ
  deriving DecidableEq, Repr

/-- The outcomes of the random draws of `DetermineCombatUnitSelectionCriteria`:
`IsRandomNumberBelow(cfg->FAST_UNITS_RATIO)`, the value of `rand()` for the speed,
`IsRandomNumberBelow(cfg->HIGH_RANGE_UNITS_RATIO)` and the value of `rand()` for the range. -/
structure CombatUnitRandomDraws where
  fastUnits : Bool
  speedDraw : Nat
  highRangeUnits : Bool
  rangeDraw : Nat
  deriving DecidableEq, Repr

/-- Function `AAIBrain::DetermineCombatUnitSelectionCriteria` (AAIBrain.cpp:639-695).
`isStartingPhase` is `GamePhase(currentFrame).IsStartingPhase()`. -/
def DetermineCombatUnitSelectionCriteria (b : AAIBrain) (isStartingPhase : Bool)
    (draws : CombatUnitRandomDraws) : UnitSelectionCriteria :=
  let metalIncome := b.m_metalIncome
  let incomeFactor := incomeFactor metalIncome
  let cost : ℚ := 1 / 2 + 2 * incomeFactor
  let power : ℚ := 1 + 1 * (1 - incomeFactor) + 1 / 2 * b.m_estimatedPressureByEnemies
  let efficiency : ℚ := 1 / 4 + 1 / 2 * b.m_estimatedPressureByEnemies + 3 / 4 * incomeFactor
  let factoryUtilization : ℚ := 3 / 2
  if isStartingPhase then
    { power := power, efficiency := efficiency, cost := cost, speed := 35 / 100,
      range := 1 / 4, factoryUtilization := factoryUtilization }
  else
    let speed : ℚ :=
      if draws.fastUnits then 1 / 2 + 1 / 5 * ((draws.speedDraw % 6 : Nat) : ℚ)
      else 1 / 10 + 1 / 10 * ((draws.speedDraw % 5 : Nat) : ℚ)
    let range : ℚ :=
      if draws.highRangeUnits then 1 / 2 + 1 / 5 * ((draws.rangeDraw % 6 : Nat) : ℚ)
      else 1 / 10 + 1 / 10 * ((draws.rangeDraw % 5 : Nat) : ℚ)
    { power := power, efficiency := efficiency, cost := cost, speed := speed,
      range := range, factoryUtilization := factoryUtilization }

/-- The class `StaticDefenceSelectionCriteria`, as constructed by
`StaticDefenceSelectionCriteria(targetType, combatPower, range, cost, buildtime, terrain,
randomness)`. -/
structure StaticDefenceSelectionCriteria where
  targetType : ETargetType
  combatPower : ℚ
  range : ℚ
  cost : ℚ
  buildtime : ℚ
  terrain : ℚ
  randomness : Int
  deriving DecidableEq, Repr

/-- Function `AAIBrain::DetermineStaticDefenceSelectionCriteria` (AAIBrain.cpp:937-980).

* `exp` is the library function `exp`; it is a parameter of the model.
* `HIGH_RANGE_UNITS_RATIO` is `cfg->HIGH_RANGE_UNITS_RATIO`.
* `friendlyStaticDefencePower` is `sector->GetFriendlyStaticDefencePower(targetType)` and
  `numberOfStaticDefences` is `sector->GetNumberOfBuildings(EUnitCategory::STATIC_DEFENCE)`.
* `randomDraw` and `rangeDraw` are the values of `std::rand()` in `IsRandomNumberBelow` and
  in the computation of the range. -/
def DetermineStaticDefenceSelectionCriteria (exp : ℚ → ℚ) ( HIGH_RANGE_UNITS_RATIO : ℚ)
    (b : AAIBrain) (sector : AAISector) (friendlyStaticDefencePower : ℚ)
    (numberOfStaticDefences : Int) (targetType : ETargetType) (randomDraw rangeDraw : Nat) :
    StaticDefenceSelectionCriteria :=
  let defenceFactor : ℚ := exp (-friendlyStaticDefencePower / 6)
  let numberOfDefencesFactor : ℚ := exp (-(numberOfStaticDefences : ℚ) / 3)
  let metalIncome := b.m_metalIncome
  let incomeFactor := incomeFactor metalIncome
  let cost : ℚ := 1 / 2 + 11 / 4 * incomeFactor + 3 / 4 * defenceFactor
  let combatPower : ℚ := 3 / 2 + 1 / 4 * (1 - incomeFactor) + 3 / 4 * (1 - numberOfDefencesFactor)
    + 1 / 2 * b.m_estimatedPressureByEnemies
  let buildtime : ℚ := 1 / 4 + 1 / 4 * b.m_estimatedPressureByEnemies + 3 / 2 * defenceFactor
  let range : ℚ :=
    if IsRandomNumberBelow randomDraw HIGH_RANGE_UNITS_RATIO = true ∧ numberOfStaticDefences > 1
    then 1 / 2 + 1 / 5 * ((rangeDraw % 6 : Nat) : ℚ)
    else 1 / 10 + 1 / 10 * ((rangeDraw % 5 : Nat) : ℚ)
  let terrain : ℚ := 1 / 10 + 5 / 4 * range
  let terrain : ℚ := if sector.GetDistanceToBase > 1 then terrain + 1 else terrain
  { targetType := targetType, combatPower := combatPower, range := range, cost := cost,
    buildtime := buildtime, terrain := terrain, randomness := 3 }

/-- Function `AAIBrain::DetermineMovementTypeForCombatUnitConstruction`
(AAIBrain.cpp:598-637).

* `AIRCRAFT_RATIO` is `cfg->AIRCRAFT_RATIO`, `numberOfBombTargets` is
  `ai->AirForceMgr()->GetNumberOfBombTargets()`, `s_waterTilesRatio` is
  `AAIMap::s_waterTilesRatio`.
* `enemyBuildingsOnLand` and `enemyBuildingsOnSea` are the two values written by
  `ai->Map()->DetermineSpottedEnemyBuildingsOnContinentType`.
* `isStartingPhase` is `gamePhase.IsStartingPhase()`.
* `airDraw`, `waterDraw` and `groundDraw` are the values of `std::rand()` in the three calls
  of `IsRandomNumberBelow`, in the order of the calls. -/
def DetermineMovementTypeForCombatUnitConstruction ( AIRCRAFT_RATIO numberOfBombTargets : ℚ)
    (enemyBuildingsOnLand enemyBuildingsOnSea : Int) (s_waterTilesRatio : ℚ)
    (isStartingPhase : Bool) (airDraw waterDraw groundDraw : Nat) : AAIMovementType :=
  let moveType : AAIMovementType := AAIMovementType.unknown
  let dynamicAirCraftRatio : ℚ := AIRCRAFT_RATIO * (3 / 4 * (1 + numberOfBombTargets))
  if IsRandomNumberBelow airDraw dynamicAirCraftRatio && !isStartingPhase then
    moveType.setMovementType EMovementType.MOVEMENT_TYPE_AIR
  else
    let moveType := moveType.AddMovementType EMovementType.MOVEMENT_TYPE_HOVER
    let totalBuildings : ℚ := ((enemyBuildingsOnLand + enemyBuildingsOnSea : Int) : ℚ)
    let offshoreBuildingRatio : ℚ :=
      if totalBuildings > 0 then (enemyBuildingsOnSea : ℚ) / totalBuildings else 1 / 2
    let waterUnitRatio : ℚ := 2 / 5 * s_waterTilesRatio + 3 / 5 * offshoreBuildingRatio
    if IsRandomNumberBelow waterDraw waterUnitRatio then
      let moveType := moveType.AddMovementType EMovementType.MOVEMENT_TYPE_SEA_FLOATER
      moveType.AddMovementType EMovementType.MOVEMENT_TYPE_SEA_SUBMERGED
    else
      let moveType := moveType.AddMovementType EMovementType.MOVEMENT_TYPE_AMPHIBIOUS
      if IsRandomNumberBelow groundDraw (1 - waterUnitRatio) then
        moveType.AddMovementType EMovementType.MOVEMENT_TYPE_GROUND
      else
        moveType

/-- The struct `SectorForBaseExpansion` (AAIBrain.cpp:190-198).  The sector pointer is
modelled by the sector it points to. -/
structure SectorForBaseExpansion where
  sector : AAISector
  distance : ℚ
  totalAttacks : ℚ

/-- The value `sectorDistance` of a candidate sector in `AAIBrain::ExpandBase`
(AAIBrain.cpp:239-247): the sum over the base sectors of the squared distance between the
sector indices.  `baseSectors` are the indices of the sectors in `m_sectorsInDistToBase[0]`. -/
def sectorDistance (baseSectors : List (Int × Int)) (index : Int × Int) : ℚ :=
  baseSectors.foldl
    (fun sectorDistance indexBaseSector =>
      let deltaX : Int := index.1 - indexBaseSector.1
      let deltaY : Int := index.2 - indexBaseSector.2
      sectorDistance + ((deltaX * deltaX + deltaY * deltaY : Int) : ℚ))
    0

/-- The rating of one candidate in the selection loop of `AAIBrain::ExpandBase`
(AAIBrain.cpp:270-296).

* The statement of line 271 ends after the number of metal spots; line 272,
  `+ 4.0f * sectorDistances.GetDeviationFromMax(candidate->distance);`, is an expression
  statement of its own whose value is discarded.
* `GetDeviationFromMax samples value` is `StatisticalData::GetDeviationFromMax(value)` on the
  statistics object that holds `samples`; the class is not part of the available sources.
* `sectorTypeIsLand` and `sectorTypeIsWater` are `sectorType.IsLand()` and
  `sectorType.IsWater()`; `ConnectedToOcean` is `AAISector::ConnectedToOcean`, which reads the
  continent data of the map.
* `GetFlatTilesRatio()` and `GetWaterTilesRatio()` read `flat_ratio` and `water_ratio`. -/
def expansionRating (GetDeviationFromMax : List ℚ → ℚ → ℚ) (ConnectedToOcean : AAISector → Bool)
    (sectorTypeIsLand sectorTypeIsWater preferSafeSector : Bool)
    (sectorDistances sectorAttacks : List ℚ) (candidate : SectorForBaseExpansion) : ℚ :=
  let rating : ℚ := (candidate.sector.metalSpots.length : ℚ)
  let _discarded : ℚ := 4 * GetDeviationFromMax sectorDistances candidate.distance
  let rating : ℚ :=
    if preferSafeSector then
      let rating := rating + 4 * GetDeviationFromMax sectorAttacks candidate.totalAttacks
      rating + 4 / ((candidate.sector.m_minSectorDistanceToMapEdge + 1 : Int) : ℚ)
    else
      rating + min ((candidate.sector.m_minSectorDistanceToMapEdge : Int) : ℚ) 4
  if sectorTypeIsLand then
    rating + 3 * candidate.sector.flat_ratio
  else if sectorTypeIsWater then
    if ConnectedToOcean candidate.sector then rating + 3 * candidate.sector.water_ratio
    else rating
  else
    rating + 3 * (candidate.sector.flat_ratio + candidate.sector.water_ratio)

/-- The selection loop of `AAIBrain::ExpandBase` (AAIBrain.cpp:265-303) over the list
`expansionCandidateList`: the pair of `selectedSector` (`none` for `nullptr`) and
`highestRating` after the loop.  The statistics objects `sectorDistances` and `sectorAttacks`
hold the distance and the total attacks of every candidate (AAIBrain.cpp:249-252). -/
def selectSectorForBaseExpansion (GetDeviationFromMax : List ℚ → ℚ → ℚ)
    (ConnectedToOcean : AAISector → Bool)
    (sectorTypeIsLand sectorTypeIsWater preferSafeSector : Bool)
    (expansionCandidateList : List SectorForBaseExpansion) : Option AAISector × ℚ :=
  let sectorDistances := expansionCandidateList.map fun candidate => candidate.distance
  let sectorAttacks := expansionCandidateList.map fun candidate => candidate.totalAttacks
  expansionCandidateList.foldl
    (fun (state : Option AAISector × ℚ) candidate =>
      let rating := expansionRating GetDeviationFromMax ConnectedToOcean sectorTypeIsLand
        sectorTypeIsWater preferSafeSector sectorDistances sectorAttacks candidate
      if rating > state.2 then (some candidate.sector, rating) else state)
    (none, 0)

/-- The two loops of `AAIBrain::UpdatePressureByEnemy` (AAIBrain.cpp:710-725): the pair
`(sectorsOccupiedByEnemies, sectorsNearBaseOccupiedByEnemies)`. -/
def countSectorsOccupiedByEnemies (sectors : SectorMap) : Int × Int :=
  sectors.foldl
    (fun counters column =>
      column.foldl
        (fun counters sector =>
          if sector.IsOccupiedByEnemies then
            (counters.1 + 1,
              if sector.GetDistanceToBase < 2 then counters.2 + 1 else counters.2)
          else counters)
        counters)
    (0, 0)

/-- The size of `m_sectorsInDistToBase[d]`.  The source indexes the vector without a check;
here an entry that does not exist has size zero. -/
def sectorsInDistToBaseSize (b : AAIBrain) (d : Nat) : Nat :=
  (b.m_sectorsInDistToBase.getD d []).length

/-- Function `AAIBrain::UpdatePressureByEnemy` (AAIBrain.cpp:708-736).  `xSectors` and `ySectors` are
the static members `AAIMap::xSectors` and `AAIMap::ySectors`. -/
def UpdatePressureByEnemy (xSectors ySectors : Int) (b : AAIBrain) (sectors : SectorMap) :
    AAIBrain :=
  let counters := countSectorsOccupiedByEnemies sectors
  let sectorsWithEnemiesRatio : ℚ := (counters.1 : ℚ) / ((xSectors * ySectors : Int) : ℚ)
  let sectorsNearBaseWithEnemiesRatio : ℚ :=
    (counters.2 : ℚ) / ((b.sectorsInDistToBaseSize 0 + b.sectorsInDistToBaseSize 1 : Nat) : ℚ)
  let pressure : ℚ := 2 * sectorsWithEnemiesRatio + 2 * sectorsNearBaseWithEnemiesRatio
  { b with m_estimatedPressureByEnemies := if pressure > 1 then 1 else pressure }

/-- Function `AAIBrain::IsCommanderAllowedForConstructionInSector` (AAIBrain.cpp:175-188).
The first test, on `IsOccupiedByEnemies`, stands under the source comment
`commander is always allowed in base` and before the test of the distance to the base. -/
def IsCommanderAllowedForConstructionInSector (b : AAIBrain) (sector : AAISector) : Bool :=
  if sector.IsOccupiedByEnemies then false
  else if sector.GetDistanceToBase ≤ 0 then true
  else if b.sectorsInDistToBaseSize 0 < 3 ∧ sector.GetDistanceToBase ≤ 1 then true
  else false

/-- Function `AAIBrain::UpdateCenterOfBase` (AAIBrain.cpp:150-173).  `xSectorSizeMap` and
`ySectorSizeMap` are the static members of `AAIMap`; the index of a sector in the base list
is the grid index that models the pointer to it.  The coordinates are non-negative, so the
division by the `size_t` length of the list is the truncating division. -/
def UpdateCenterOfBase (xSectorSizeMap ySectorSizeMap : Int) (b : AAIBrain) : AAIBrain :=
  let baseSectors := b.m_sectorsInDistToBase.getD 0 []
  if baseSectors.length > 0 then
    let x : Int := baseSectors.foldl (fun sum index => sum + index.1) 0
    let y : Int := baseSectors.foldl (fun sum index => sum + index.2) 0
    let x : Int := x * xSectorSizeMap
    let y : Int := y * ySectorSizeMap
    let x : Int := Int.tdiv x baseSectors.length
    let y : Int := Int.tdiv y baseSectors.length
    { b with
      m_centerOfBase := (x + Int.tdiv xSectorSizeMap 2, y + Int.tdiv ySectorSizeMap 2) }
  else
    { b with m_centerOfBase := (0, 0) }

/-- Function `AAIBrain::AssignSectorToBase` (AAIBrain.cpp:91-123).  The sector pointer is the
grid index of the sector in `map.sector`; `sector->AddToBase(addToBase)` is
`AAISector::SetBase`, and `GetFlatTilesRatio()` / `GetWaterTilesRatio()` read `flat_ratio` /
`water_ratio`.  `UpdateNeighbouringSectors` is the method of `AAIMap` of that name, which is
not part of the available sources; it is a parameter that may change the map and the lists of
sectors by distance to base. -/
def AssignSectorToBase (myTeam : Int) (MAX_SECTOR_IMPORTANCE : ℚ)
    (UpdateNeighbouringSectors :
      AAIMap → List (List (Int × Int)) → AAIMap × List (List (Int × Int)))
    (b : AAIBrain) (map : AAIMap) (sector : Int × Int) (addToBase : Bool) :
    AAIBrain × AAIMap :=
  match cellAt map.sector sector.1 sector.2 with
  | none => (b, map)
  | some s =>
    let r := s.SetBase myTeam MAX_SECTOR_IMPORTANCE map.team_sector_map
      b.m_freeMetalSpotsInBase addToBase
    let map : AAIMap :=
      { map with
        sector := setCell map.sector sector.1 sector.2 r.sector
        team_sector_map := r.team_sector_map }
    let baseSectors := b.m_sectorsInDistToBase.getD 0 []
    let baseSectors :=
      if r.successful then
        if addToBase then baseSectors ++ [sector]
        else baseSectors.filter fun other => decide (other ≠ sector)
      else baseSectors
    let sectorsInDistToBase := b.m_sectorsInDistToBase.set 0 baseSectors
    let flatLandRatio : ℚ :=
      if baseSectors.length > 0 then
        baseSectors.foldl
            (fun sum index =>
              sum + ((cellAt map.sector index.1 index.2).map fun t => t.flat_ratio).getD 0)
            0
          / (baseSectors.length : ℚ)
      else 0
    let waterRatio : ℚ :=
      if baseSectors.length > 0 then
        baseSectors.foldl
            (fun sum index =>
              sum + ((cellAt map.sector index.1 index.2).map fun t => t.water_ratio).getD 0)
            0
          / (baseSectors.length : ℚ)
      else 0
    let updated := UpdateNeighbouringSectors map sectorsInDistToBase
    (UpdateCenterOfBase map.xSectorSizeMap map.ySectorSizeMap
        { b with
          m_sectorsInDistToBase := updated.2
          m_freeMetalSpotsInBase := r.m_freeMetalSpotsInBase
          m_baseFlatLandRatio := flatLandRatio
          m_baseWaterRatio := waterRatio },
      updated.1)

end AAIBrain

/-- The values the urgency functions of the brain read from outside the brain: the engine
callback (`GetMetalIncome()`, `GetMetal()`, `GetMetalStorage()`, `GetEnergyStorage()`), the
minimum of the generated-power statistics of the power plants, the unit table (numbers of
active metal extractors, active and future storages, active factories), the configuration
(`MAX_STORAGE`, `MIN_FACTORIES_FOR_STORAGE`) and the constant
`AAIConstants::powerSurplusToStopPowerPlantConstructionThreshold`. -/
structure BrainEnvironment where
  GetMetalIncome : ℚ
  GetMetal : ℚ
  GetMetalStorage : ℚ
  GetEnergyStorage : ℚ
  generatedPowerMinValue : ℚ
  activeMetalExtractors : Int
  activeStorages : Int
  futureStorages : Int
  activeFactories : Int
  MAX_STORAGE : Int
  MIN_FACTORIES_FOR_STORAGE : Int
  powerSurplusToStopPowerPlantConstructionThreshold : ℚ

namespace AAIBrain

/-- Function `AAIBrain::Affordable` (AAIBrain.cpp:446-449). -/
def Affordable (env : BrainEnvironment) : ℚ :=
  25 / (env.GetMetalIncome + 5)

/-- Function `AAIBrain::GetAveragePowerSurplus` (AAIBrain.cpp:738-744). -/
def GetAveragePowerSurplus (b : AAIBrain) (env : BrainEnvironment) : ℚ :=
  max 1 (b.m_energySurplus + 3 / 100 * b.m_energyAvailable - 2 * env.generatedPowerMinValue)

/-- Function `AAIBrain::GetEnergyUrgency` (AAIBrain.cpp:746-757). -/
def GetEnergyUrgency (b : AAIBrain) (env : BrainEnvironment) : ℚ :=
  let avgPowerSurplus := b.GetAveragePowerSurplus env
  if avgPowerSurplus > env.powerSurplusToStopPowerPlantConstructionThreshold then 0
  else (4 / 100 * b.m_energyIncome + 5) / avgPowerSurplus

/-- Function `AAIBrain::GetMetalUrgency` (AAIBrain.cpp:759-765). -/
def GetMetalUrgency (b : AAIBrain) (env : BrainEnvironment) : ℚ :=
  if env.activeMetalExtractors > 0 then 4 / (2 * b.m_metalSurplus + 1 / 2)
  else 8

/-- Function `AAIBrain::GetEnergyStorageUrgency` (AAIBrain.cpp:767-780). -/
def GetEnergyStorageUrgency (b : AAIBrain) (env : BrainEnvironment) : ℚ :=
  if env.activeStorages < env.MAX_STORAGE ∧ env.futureStorages ≤ 0
      ∧ env.activeFactories ≥ env.MIN_FACTORIES_FOR_STORAGE then
    let energyStorage := max env.GetEnergyStorage 1
    3 / 10 * b.m_energyAvailable / energyStorage
  else 0

/-- Function `AAIBrain::GetMetalStorageUrgency` (AAIBrain.cpp:782-797). -/
def GetMetalStorageUrgency (b : AAIBrain) (env : BrainEnvironment) : ℚ :=
  if env.activeStorages < env.MAX_STORAGE ∧ env.futureStorages ≤ 0
      ∧ env.activeFactories ≥ env.MIN_FACTORIES_FOR_STORAGE then
    let metalStorage := max env.GetMetalStorage 1
    b.m_metalAvailable / metalStorage
  else 0

end AAIBrain

/-! ## The build table (AAIBuildTable.h) -/

/-- Function `AAIBuildTable::IsValidUnitDefID` (AAIBuildTable.h:340) for a `unitList` of
`unitListSize` entries.  The comparison with `unitList.size()` is made after `i >= 0`, so the
conversion of `i` to `size_t` does not change its value. -/
def IsValidUnitDefID (unitListSize : Nat) (i : Int) : Bool :=
  decide (i ≥ 0) && decide (i ≤ (unitListSize : Int))

/-- Function `AAIBuildTable::GetUnitDef` (AAIBuildTable.h:339): the entry `unitList[i]`, if
there is one.  The `assert` is compiled out of a release build; reading outside the vector is
undefined behaviour in the source and `none` here. -/
def GetUnitDef {UnitDef : Type} (unitList : List UnitDef) (i : Int) : Option UnitDef :=
  if 0 ≤ i then unitList[i.toNat]? else none

/-! ## Attacks (AAIAttack.h) -/

/-- The data members of `AAIAttack` (AAIAttack.h:53-65).  A group pointer is modelled by a
handle, the destination pointer by the grid index of the sector (`none` for the null
pointer). -/
structure AAIAttack where
  m_attackDestination : Option (Int × Int)
  m_lastAttackOrderInFrame : Int
  m_combatUnitGroups : Finset Nat
  m_antiAirUnitGroups : Finset Nat

/-- Modelled from the spec: the method `AAIAttack::RemoveGroup`, which is declared in
AAIAttack.h:30 and defined in AAIAttack.cpp, a file that is not part of the available sources.
It removes the group from either the combat or the anti-air set; removing a group that is in
neither set is a no-op. -/
def AAIAttack.RemoveGroup (a : AAIAttack) (group : Nat) : AAIAttack :=
  { a with
    m_combatUnitGroups := a.m_combatUnitGroups.erase group
    m_antiAirUnitGroups := a.m_antiAirUnitGroups.erase group }

/-! ## Neighbouring cells -/

/-- The four grid-adjacent cells `(x-1,y)`, `(x+1,y)`, `(x,y-1)`, `(x,y+1)` of the cell
`(x, y)`. -/
def adjacentCells (x y : Int) : List (Int × Int) :=
  [(x - 1, y), (x + 1, y), (x, y - 1), (x, y + 1)]

/-- Those of the four grid-adjacent cells of `(x, y)` that lie inside a grid of
`xSectors` by `ySectors` cells. -/
def adjacentCellsInGrid (xSectors ySectors x y : Int) : List (Int × Int) :=
  (adjacentCells x y).filter fun cell =>
    decide (0 ≤ cell.1 ∧ cell.1 < xSectors ∧ 0 ≤ cell.2 ∧ cell.2 < ySectors)

/-! ## One grid cell seen by several teams -/

/-- The state of one grid cell across the teams: every team (numbered from `0`) has its own
`AAISector` object for the cell, and all teams share `team_sector_map`. -/
structure CellClaims where
  sectors : Nat → AAISector
  team_sector_map : List (List Int)

/-- A call `SetBase(base)` made by team `team` on its sector for the cell. -/
structure SetBaseCall where
  team : Nat
  base : Bool
  deriving DecidableEq, Repr

/-- The state of the cell after team `call.team` has called `SetBase(call.base)` on its
sector.  The flag of the team's brain does not influence the sector or the shared table and
is left out. -/
def applySetBaseCall (MAX_SECTOR_IMPORTANCE : ℚ) (w : CellClaims) (call : SetBaseCall) :
    CellClaims :=
  { sectors := fun team =>
      if team = call.team then
        ((w.sectors call.team).SetBase (call.team : Int) MAX_SECTOR_IMPORTANCE
          w.team_sector_map false call.base).sector
      else w.sectors team
    team_sector_map :=
      ((w.sectors call.team).SetBase (call.team : Int) MAX_SECTOR_IMPORTANCE
        w.team_sector_map false call.base).team_sector_map }

/-- Every `SetBase(false)` call of the sequence is made by a team whose sector for the cell
has `distance_to_base = 0` at the time of the call. -/
def removalsByHolder (MAX_SECTOR_IMPORTANCE : ℚ) : CellClaims → List SetBaseCall → Prop
  | _, [] => True
  | w, call :: calls =>
      (call.base = false → (w.sectors call.team).distance_to_base = 0)
      ∧ removalsByHolder MAX_SECTOR_IMPORTANCE (applySetBaseCall MAX_SECTOR_IMPORTANCE w call)
          calls

/-- The shared table names the holder: whenever a team's sector for the cell `(x, y)` has
`distance_to_base = 0`, `team_sector_map[x][y]` is that team's id. -/
def CellClaims.ownerConsistent (w : CellClaims) (x y : Int) : Prop :=
  ∀ team, (w.sectors team).distance_to_base = 0 →
    cellAt w.team_sector_map x y = some (team : Int)

/-- All sectors of the state are sectors for the cell `(x, y)`, and the cell is inside the
shared table. -/
def CellClaims.forCell (w : CellClaims) (x y : Int) : Prop :=
  (∀ team, (w.sectors team).x = x ∧ (w.sectors team).y = y)
  ∧ ∃ owner, cellAt w.team_sector_map x y = some owner

/-! ## Events on a sector without a sighting -/

/-- The calls on a sector that carry no new sighting and no structure or radar signal:
`Update()`, `ResetLocalCombatPower()` and `UpdateThreatValues(destroyedDefId, attackerDefId)`. -/
inductive QuietEvent where
  | Update
  | ResetLocalCombatPower
  | UpdateThreatValues (destroyedDefId attackerDefId : Int)
  deriving DecidableEq, Repr

/-- The sector after one call of a `QuietEvent`. -/
def AAISector.applyQuietEvent (buildTree : Int → UnitTypeProperties) (s : AAISector) :
    QuietEvent → AAISector
  | QuietEvent.Update => s.Update
  | QuietEvent.ResetLocalCombatPower => s.ResetLocalCombatPower
  | QuietEvent.UpdateThreatValues destroyedDefId attackerDefId =>
      s.UpdateThreatValues buildTree destroyedDefId attackerDefId

/-! ## Well-formed inputs -/

/-- The property of a deviation-from-zero transform the threat computation relies on: on a
batch of non-negative samples, the deviation of one of the samples is non-negative. -/
def DeviationNonNegative (GetDeviationFromZero : List ℚ → ℚ → ℚ) : Prop :=
  ∀ samples value, value ∈ samples → (∀ s ∈ samples, 0 ≤ s) →
    0 ≤ GetDeviationFromZero samples value

/-- The data-model invariant "target-type vectors are non-negative" for the vectors a brain
reads in `DetermineThreatByTargetType` during game phase `gamePhase`: the map-derived threat,
the learned and the recent attacked-by rates, the peak spotted counts and the own mobile
combat power. -/
def AAIBrain.NonNegative (b : AAIBrain) (gamePhase : Nat) : Prop :=
  ∀ t ∈ m_mobileTargetTypes,
    0 ≤ b.s_enemyThreatByMap.get t ∧ 0 ≤ (b.s_attackedByRates gamePhase).get t
    ∧ 0 ≤ b.m_recentlyAttackedByRates.get t ∧ 0 ≤ b.m_maxSpottedCombatUnitsOfTargetType.get t
    ∧ 0 ≤ b.m_totalMobileCombatPower.get t

/-! ## Example states -/

/-- A brain that has seen nothing yet on a map without map-derived threat. -/
def quietBrain : AAIBrain where
  m_sectorsInDistToBase := [[(0, 0)], [(0, 1), (1, 0)]]
  m_freeMetalSpotsInBase := false
  m_baseFlatLandRatio := 1
  m_baseWaterRatio := 0
  m_centerOfBase := (0, 0)
  m_recentlyAttackedByRates := ⟨0, 0, 0, 0⟩
  m_maxSpottedCombatUnitsOfTargetType := ⟨0, 0, 0, 0⟩
  m_totalMobileCombatPower := ⟨0, 0, 0, 0⟩
  m_metalAvailable := 500
  m_energyAvailable := 1000
  m_metalIncome := 10
  m_energyIncome := 100
  m_metalSurplus := 2
  m_energySurplus := 20
  m_estimatedPressureByEnemies := 0
  s_attackedByRates := fun _ => ⟨0, 0, 0, 0⟩
  s_enemyThreatByMap := ⟨0, 0, 0, 0⟩

/-- A brain on a land map that is attacked by surface and air units. -/
def landBrain : AAIBrain where
  m_sectorsInDistToBase := [[(0, 0)], [(0, 1), (1, 0)]]
  m_freeMetalSpotsInBase := false
  m_baseFlatLandRatio := 1
  m_baseWaterRatio := 0
  m_centerOfBase := (0, 0)
  m_recentlyAttackedByRates := ⟨0, 2, 0, 0⟩
  m_maxSpottedCombatUnitsOfTargetType := ⟨4, 1, 0, 0⟩
  m_totalMobileCombatPower := ⟨3, 0, 0, 0⟩
  m_metalAvailable := 500
  m_energyAvailable := 1000
  m_metalIncome := 10
  m_energyIncome := 100
  m_metalSurplus := 2
  m_energySurplus := 20
  m_estimatedPressureByEnemies := 1 / 2
  s_attackedByRates := fun _ => ⟨10, 0, 0, 0⟩
  s_enemyThreatByMap := ⟨1 / 2, 1 / 4, 0, 0⟩

/-- A brain that has seen nothing yet, on a map with the given map-derived threat and with
the given estimated enemy pressure. -/
def mapBrain (threatByMap : MobileTargetTypeValues) (pressure : ℚ) : AAIBrain where
  m_sectorsInDistToBase := [[(0, 0)], [(0, 1), (1, 0)]]
  m_freeMetalSpotsInBase := false
  m_baseFlatLandRatio := 1
  m_baseWaterRatio := 0
  m_centerOfBase := (0, 0)
  m_recentlyAttackedByRates := ⟨0, 0, 0, 0⟩
  m_maxSpottedCombatUnitsOfTargetType := ⟨0, 0, 0, 0⟩
  m_totalMobileCombatPower := ⟨0, 0, 0, 0⟩
  m_metalAvailable := 0
  m_energyAvailable := 0
  m_metalIncome := 0
  m_energyIncome := 0
  m_metalSurplus := 0
  m_energySurplus := 0
  m_estimatedPressureByEnemies := pressure
  s_attackedByRates := fun _ => ⟨0, 0, 0, 0⟩
  s_enemyThreatByMap := threatByMap

/-- The sector at grid cell `(x, y)` as `AAISector::Init` leaves it, for five combat
categories and no metal spots (importance `1`, lost-unit tallies `0`). -/
def initialSector (x y : Int) : AAISector where
  x := x
  y := y
  flat_ratio := 1
  water_ratio := 0
  continent := 0
  left := 0
  right := 0
  top := 0
  bottom := 0
  metalSpots := []
  freeMetalSpots := false
  distance_to_base := -1
  interior := false
  m_suitableMovementTypes := 0
  enemy_structures := 0
  allied_structures := 0
  rally_points := 0
  failed_defences := 0
  last_scout := 1
  importance_this_game := 1
  importance_learned := 0
  attacked_by_this_game := [0, 0, 0, 0, 0]
  attacked_by_learned := [0, 0, 0, 0, 0]
  combats_this_game := [0, 0, 0, 0, 0]
  combats_learned := [0, 0, 0, 0, 0]
  enemies_on_radar := 0
  my_stat_combat_power := [0, 0, 0, 0, 0]
  my_mobile_combat_power := [0, 0, 0, 0, 0, 0]
  enemy_stat_combat_power := [0, 0, 0, 0, 0]
  enemy_mobile_combat_power := [0, 0, 0, 0, 0, 0]
  m_minSectorDistanceToMapEdge := 0
  m_ownBuildingsOfCategory := []
  m_enemyCombatUnits := [0, 0, 0, 0, 0]
  m_lostUnits := 0
  m_lostAirUnits := 0

/-- A build tree with three unit definitions: `1` is a building, `2` is a combat unit with
combat category index `1`, and every other id is a unit that is neither. -/
def exampleBuildTree : Int → UnitTypeProperties := fun id =>
  if id = 1 then ⟨true, false, 0, false⟩
  else if id = 2 then ⟨false, true, 1, false⟩
  else ⟨false, false, 0, false⟩

/-- A 2x2 grid in which every sector has an enemy on radar; the sector `(0,0)` is the base and
its two neighbours are at distance `1`. -/
def occupiedGrid : SectorMap :=
  [[{ initialSector 0 0 with enemies_on_radar := 1, distance_to_base := 0 },
    { initialSector 0 1 with enemies_on_radar := 1, distance_to_base := 1 }],
   [{ initialSector 1 0 with enemies_on_radar := 1, distance_to_base := 1 },
    { initialSector 1 1 with enemies_on_radar := 1, distance_to_base := 2 }]]

/-- The sector at grid cell `(x, y)` with enemy mobile combat power `power` against the first
combat category and none against the others. -/
def powerSector (x y : Int) (power : ℚ) : AAISector :=
  { initialSector x y with enemy_mobile_combat_power := [power, 0, 0, 0, 0, 0] }

/-- A map of 3x3 sectors of 16x16 map cells with enemy mobile combat power `1` to `9` in the
cells, column by column, and no cell claimed by a team. -/
def exampleMap : AAIMap where
  xSectors := 3
  ySectors := 3
  xSectorSizeMap := 16
  ySectorSizeMap := 16
  sector :=
    [[powerSector 0 0 1, powerSector 0 1 2, powerSector 0 2 3],
     [powerSector 1 0 4, powerSector 1 1 5, powerSector 1 2 6],
     [powerSector 2 0 7, powerSector 2 1 8, powerSector 2 2 9]]
  team_sector_map := [[-1, -1, -1], [-1, -1, -1], [-1, -1, -1]]

/-- The map `exampleMap` after team `0` has claimed the centre cell `(1,1)`. -/
def claimedMap : AAIMap :=
  { exampleMap with team_sector_map := [[-1, -1, -1], [-1, 0, -1], [-1, -1, -1]] }

/-- An update of the neighbouring sectors that changes nothing. -/
def keepNeighbouringSectors (map : AAIMap) (sectorsInDistToBase : List (List (Int × Int))) :
    AAIMap × List (List (Int × Int)) :=
  (map, sectorsInDistToBase)

/-- The centre cell `(1,1)` of `exampleMap` before any team has claimed it: every team's
sector is as `Init` leaves it. -/
def freshClaims : CellClaims where
  sectors := fun _ => initialSector 1 1
  team_sector_map := exampleMap.team_sector_map

/-- A sector with two metal spots, the first occupied by extractor `7` and the second free. -/
def metalSector : AAISector :=
  { initialSector 0 0 with
    metalSpots := [⟨⟨10, 0, 10⟩, true, 7, 3⟩, ⟨⟨20, 0, 20⟩, false, -1, -1⟩]
    freeMetalSpots := true }

/-- Buildsite queries over unit definitions that are just their ids: every search answers with
the position `(id + 1, 0, 0)`, so that the id that reached the build table can be read off
the result. -/
def exampleQueries : BuildsiteQueries Int where
  GetUnitDef := fun id => id
  GetBuildSiteInRect := fun unitDef _ _ => ⟨(unitDef : ℚ) + 1, 0, 0⟩
  GetCenterBuildsite := fun unitDef _ _ => ⟨(unitDef : ℚ) + 1, 0, 0⟩
  GetRadarArtyBuildsite := fun unitDef _ _ _ => ⟨(unitDef : ℚ) + 1, 0, 0⟩
  GetHighestBuildsite := fun unitDef _ => ⟨(unitDef : ℚ) + 1, 0, 0⟩
  GetRandomBuildsite := fun unitDef _ _ _ => ⟨(unitDef : ℚ) + 1, 0, 0⟩

/-- An environment in the middle of a game: metal income `10`, `300` of `1000` metal and
`2000` energy storage, three extractors, one storage, two factories. -/
def exampleEnvironment : BrainEnvironment where
  GetMetalIncome := 10
  GetMetal := 300
  GetMetalStorage := 1000
  GetEnergyStorage := 2000
  generatedPowerMinValue := 20
  activeMetalExtractors := 3
  activeStorages := 1
  futureStorages := 0
  activeFactories := 2
  MAX_STORAGE := 3
  MIN_FACTORIES_FOR_STORAGE := 1
  powerSurplusToStopPowerPlantConstructionThreshold := 2000

/-- An attack on the centre sector with combat groups `1`, `2`, `3` and anti-air group
`7`. -/
def exampleAttack : AAIAttack where
  m_attackDestination := some (1, 1)
  m_lastAttackOrderInFrame := 900
  m_combatUnitGroups := {1, 2, 3}
  m_antiAirUnitGroups := {7}

/-- A sector that has been attacked once by aircraft and five times by ships in this game. -/
def attackedSector : AAISector :=
  { initialSector 0 0 with attacked_by_this_game := [0, 1, 0, 5, 0] }

/-- A grid of one column with the base sector, its neighbour at distance `1` and three
enemy-occupied sectors that are not near the base (distance `-1`, as `Init` leaves it). -/
def farOccupiedGrid : SectorMap :=
  [[{ initialSector 0 0 with distance_to_base := 0 },
    { initialSector 0 1 with distance_to_base := 1 },
    { initialSector 0 2 with enemies_on_radar := 1 },
    { initialSector 0 3 with enemies_on_radar := 1 },
    { initialSector 0 4 with enemies_on_radar := 1 }]]

/-- A brain whose lists of sectors by distance to base match `farOccupiedGrid`. -/
def farOccupiedBrain : AAIBrain :=
  { quietBrain with m_sectorsInDistToBase := [[(0, 0)], [(0, 1)]] }

/-- A brain whose base consists of the two sectors `(1,1)` and `(2,1)`. -/
def twoSectorBrain : AAIBrain :=
  { quietBrain with m_sectorsInDistToBase := [[(1, 1), (2, 1)], []] }

/-- A rational function with the bounds of the exponential function on non-positive
arguments, `1 / (1 - x)`; it stands in for `exp` where an instance is computed. -/
def rationalDecay (x : ℚ) : ℚ :=
  1 / (1 - x)

/-- A land sector at distance `1` to the base with one metal spot, at the map edge. -/
def expansionSector (x y : Int) : AAISector :=
  { initialSector x y with
    metalSpots := [⟨⟨0, 0, 0⟩, false, -1, -1⟩]
    distance_to_base := 1 }

/-- The candidate for base expansion made of `expansionSector x y` for a base with the sectors
`baseSectors`, without attacks. -/
def expansionCandidate (baseSectors : List (Int × Int)) (x y : Int) :
    AAIBrain.SectorForBaseExpansion where
  sector := expansionSector x y
  distance := AAIBrain.sectorDistance baseSectors (x, y)
  totalAttacks := 0

/-! ## Theorems -/

/-- The result of `DetermineHighestThreat`, with the loop over the four mobile target types
unrolled. -/
theorem DetermineHighestThreat_unfold (v : MobileTargetTypeValues) :
    DetermineHighestThreat v =
      (let h0 : ThreatByTargetType := { Threat := 0, TargetType := ETargetType.UNKNOWN }
       let h1 := if v.surface > h0.Threat then ⟨v.surface, ETargetType.SURFACE⟩ else h0
       let h2 := if v.air > h1.Threat then ⟨v.air, ETargetType.AIR⟩ else h1
       let h3 := if v.floater > h2.Threat then ⟨v.floater, ETargetType.FLOATER⟩ else h2
       if v.submerged > h3.Threat then ⟨v.submerged, ETargetType.SUBMERGED⟩ else h3) := by
  rfl

/-- The five possible outcomes of `DetermineHighestThreat`, each with the order facts that
lead to it. -/
theorem DetermineHighestThreat_cases (v : MobileTargetTypeValues) :
    (DetermineHighestThreat v = ⟨0, ETargetType.UNKNOWN⟩
        ∧ v.surface ≤ 0 ∧ v.air ≤ 0 ∧ v.floater ≤ 0 ∧ v.submerged ≤ 0)
    ∨ (DetermineHighestThreat v = ⟨v.surface, ETargetType.SURFACE⟩
        ∧ 0 < v.surface ∧ v.air ≤ v.surface ∧ v.floater ≤ v.surface ∧ v.submerged ≤ v.surface)
    ∨ (DetermineHighestThreat v = ⟨v.air, ETargetType.AIR⟩
        ∧ 0 < v.air ∧ v.surface < v.air ∧ v.floater ≤ v.air ∧ v.submerged ≤ v.air)
    ∨ (DetermineHighestThreat v = ⟨v.floater, ETargetType.FLOATER⟩
        ∧ 0 < v.floater ∧ v.surface < v.floater ∧ v.air < v.floater ∧ v.submerged ≤ v.floater)
    ∨ (DetermineHighestThreat v = ⟨v.submerged, ETargetType.SUBMERGED⟩
        ∧ 0 < v.submerged ∧ v.surface < v.submerged ∧ v.air < v.submerged
        ∧ v.floater < v.submerged) := by
  rw [DetermineHighestThreat_unfold]
  obtain ⟨a, b, c, d⟩ := v
  dsimp only
  by_cases h1 : a > 0
  · rw [if_pos h1]
    dsimp only
    by_cases h2 : b > a
    · rw [if_pos h2]
      dsimp only
      by_cases h3 : c > b
      · rw [if_pos h3]
        dsimp only
        by_cases h4 : d > c
        · rw [if_pos h4]
          right; right; right; right
          exact ⟨rfl, by linarith, by linarith, by linarith, by linarith⟩
        · rw [if_neg h4]
          right; right; right; left
          exact ⟨rfl, by linarith, by linarith, by linarith, by linarith⟩
      · rw [if_neg h3]
        dsimp only
        by_cases h4 : d > b
        · rw [if_pos h4]
          right; right; right; right
          exact ⟨rfl, by linarith, by linarith, by linarith, by linarith⟩
        · rw [if_neg h4]
          right; right; left
          exact ⟨rfl, by linarith, by linarith, by linarith, by linarith⟩
    · rw [if_neg h2]
      dsimp only
      by_cases h3 : c > a
      · rw [if_pos h3]
        dsimp only
        by_cases h4 : d > c
        · rw [if_pos h4]
          right; right; right; right
          exact ⟨rfl, by linarith, by linarith, by linarith, by linarith⟩
        · rw [if_neg h4]
          right; right; right; left
          exact ⟨rfl, by linarith, by linarith, by linarith, by linarith⟩
      · rw [if_neg h3]
        dsimp only
        by_cases h4 : d > a
        · rw [if_pos h4]
          right; right; right; right
          exact ⟨rfl, by linarith, by linarith, by linarith, by linarith⟩
        · rw [if_neg h4]
          right; left
          exact ⟨rfl, by linarith, by linarith, by linarith, by linarith⟩
  · rw [if_neg h1]
    dsimp only
    by_cases h2 : b > 0
    · rw [if_pos h2]
      dsimp only
      by_cases h3 : c > b
      · rw [if_pos h3]
        dsimp only
        by_cases h4 : d > c
        · rw [if_pos h4]
          right; right; right; right
          exact ⟨rfl, by linarith, by linarith, by linarith, by linarith⟩
        · rw [if_neg h4]
          right; right; right; left
          exact ⟨rfl, by linarith, by linarith, by linarith, by linarith⟩
      · rw [if_neg h3]
        dsimp only
        by_cases h4 : d > b
        · rw [if_pos h4]
          right; right; right; right
          exact ⟨rfl, by linarith, by linarith, by linarith, by linarith⟩
        · rw [if_neg h4]
          right; right; left
          exact ⟨rfl, by linarith, by linarith, by linarith, by linarith⟩
    · rw [if_neg h2]
      dsimp only
      by_cases h3 : c > 0
      · rw [if_pos h3]
        dsimp only
        by_cases h4 : d > c
        · rw [if_pos h4]
          right; right; right; right
          exact ⟨rfl, by linarith, by linarith, by linarith, by linarith⟩
        · rw [if_neg h4]
          right; right; right; left
          exact ⟨rfl, by linarith, by linarith, by linarith, by linarith⟩
      · rw [if_neg h3]
        dsimp only
        by_cases h4 : d > 0
        · rw [if_pos h4]
          right; right; right; right
          exact ⟨rfl, by linarith, by linarith, by linarith, by linarith⟩
        · rw [if_neg h4]
          left
          exact ⟨rfl, by linarith, by linarith, by linarith, by linarith⟩

/-- C6: `DetermineHighestThreat` returns the highest threat.  The returned value is
`max(0, max over the mobile target types t of v[t])`.  If some `v[t]` is positive, the returned
target type `t*` is a mobile target type with `v[t*]` equal to the returned value, no `v[t]`
exceeds it, and `t*` is the first type in iteration order that attains it.  If no `v[t]` is
positive the result is threat `0` with target type `UNKNOWN`. -/
theorem DetermineHighestThreat_spec (v : MobileTargetTypeValues) :
    (DetermineHighestThreat v).Threat = (m_mobileTargetTypes.map v.get).foldr max 0
    ∧ ((∃ t ∈ m_mobileTargetTypes, 0 < v.get t) →
        (DetermineHighestThreat v).TargetType ∈ m_mobileTargetTypes
        ∧ v.get (DetermineHighestThreat v).TargetType = (DetermineHighestThreat v).Threat
        ∧ (∀ t ∈ m_mobileTargetTypes, v.get t ≤ v.get (DetermineHighestThreat v).TargetType)
        ∧ (∀ t ∈ m_mobileTargetTypes, v.get t = v.get (DetermineHighestThreat v).TargetType →
            m_mobileTargetTypes.indexOf (DetermineHighestThreat v).TargetType
              ≤ m_mobileTargetTypes.indexOf t))
    ∧ ((∀ t ∈ m_mobileTargetTypes, ¬ 0 < v.get t) →
        DetermineHighestThreat v = { Threat := 0, TargetType := ETargetType.UNKNOWN }) := by
  have hidx : m_mobileTargetTypes.indexOf ETargetType.SURFACE = 0
      ∧ m_mobileTargetTypes.indexOf ETargetType.AIR = 1
      ∧ m_mobileTargetTypes.indexOf ETargetType.FLOATER = 2
      ∧ m_mobileTargetTypes.indexOf ETargetType.SUBMERGED = 3 := by
    refine ⟨?_, ?_, ?_, ?_⟩ <;> decide
  obtain ⟨i0, i1, i2, i3⟩ := hidx
  simp only [m_mobileTargetTypes, List.map, List.foldr,
    List.mem_cons, List.mem_singleton, List.not_mem_nil, or_false, forall_eq_or_imp, forall_eq,
    exists_eq_or_imp, exists_eq_left] at *
  rcases DetermineHighestThreat_cases v with
    ⟨hr, h1, h2, h3, h4⟩ | ⟨hr, h1, h2, h3, h4⟩ | ⟨hr, h1, h2, h3, h4⟩ | ⟨hr, h1, h2, h3, h4⟩
      | ⟨hr, h1, h2, h3, h4⟩
  all_goals
    rw [hr]
    simp only [MobileTargetTypeValues.get, i0, i1, i2, i3]
    refine ⟨?_, ?_, ?_⟩
    · simp only [max_def]
      split_ifs <;> linarith
    · intro hpos
      first
        | (exfalso; rcases hpos with h | h | h | h <;> linarith)
        | (refine ⟨by simp, trivial, ⟨by linarith, by linarith, by linarith, by linarith⟩, ?_⟩
           refine ⟨?_, ?_, ?_, ?_⟩ <;> intro heq <;> first | omega | (exfalso; linarith))
    · rintro ⟨ha, hb, hc, hd⟩
      trivial

/-- Instance of C6 at the vectors `(1, 3, 3, 2)` (a tie between AIR and FLOATER) and
`(0, -1, 0, -2)` (no positive entry). -/
theorem DetermineHighestThreat_spec_witness :
    (∃ t ∈ m_mobileTargetTypes, 0 < (MobileTargetTypeValues.mk 1 3 3 2).get t)
    ∧ DetermineHighestThreat ⟨1, 3, 3, 2⟩ = ⟨3, ETargetType.AIR⟩
    ∧ m_mobileTargetTypes.indexOf (DetermineHighestThreat ⟨1, 3, 3, 2⟩).TargetType
        ≤ m_mobileTargetTypes.indexOf ETargetType.FLOATER
    ∧ (∀ t ∈ m_mobileTargetTypes, ¬ 0 < (MobileTargetTypeValues.mk 0 (-1) 0 (-2)).get t)
    ∧ DetermineHighestThreat ⟨0, -1, 0, -2⟩ = ⟨0, ETargetType.UNKNOWN⟩ := by
  have hpos : ∃ t ∈ m_mobileTargetTypes, 0 < (MobileTargetTypeValues.mk 1 3 3 2).get t :=
    ⟨ETargetType.AIR, by simp [m_mobileTargetTypes], by norm_num [MobileTargetTypeValues.get]⟩
  have hnone : ∀ t ∈ m_mobileTargetTypes, ¬ 0 < (MobileTargetTypeValues.mk 0 (-1) 0 (-2)).get t := by
    simp [m_mobileTargetTypes, MobileTargetTypeValues.get]
  have hval : DetermineHighestThreat ⟨1, 3, 3, 2⟩ = ⟨3, ETargetType.AIR⟩ := by
    rw [DetermineHighestThreat_unfold]
    norm_num
  refine ⟨hpos, hval, ?_, hnone, (DetermineHighestThreat_spec ⟨0, -1, 0, -2⟩).2.2 hnone⟩
  refine ((DetermineHighestThreat_spec ⟨1, 3, 3, 2⟩).2.1 hpos).2.2.2 ETargetType.FLOATER
    (by simp [m_mobileTargetTypes]) ?_
  rw [hval]
  rfl

/-- Each entry of the vector computed by `DetermineThreatByTargetType`, with the two loops
unrolled. -/
theorem DetermineThreatByTargetType_get (dev : List ℚ → ℚ → ℚ) (b : AAIBrain) (gamePhase : Nat)
    (t : ETargetType) (ht : t ∈ m_mobileTargetTypes) :
    (AAIBrain.DetermineThreatByTargetType dev b gamePhase).get t =
      (b.s_enemyThreatByMap.get t
        + 11 / 10 * dev (m_mobileTargetTypes.map fun u => b.GetAttacksBy u gamePhase)
            (b.GetAttacksBy t gamePhase)
        + 11 / 10 * dev (m_mobileTargetTypes.map b.m_maxSpottedCombatUnitsOfTargetType.get)
            (b.m_maxSpottedCombatUnitsOfTargetType.get t))
      / (1 / 10 + dev (m_mobileTargetTypes.map b.m_totalMobileCombatPower.get)
            (b.m_totalMobileCombatPower.get t)) := by
  simp only [m_mobileTargetTypes, List.mem_cons, List.mem_singleton, List.not_mem_nil,
    or_false] at ht
  rcases ht with h | h | h | h <;> subst h <;> rfl

/-- A vector of mobile target type values is the zero vector exactly when each of its
entries is zero. -/
theorem MobileTargetTypeValues.eq_zero_iff (v : MobileTargetTypeValues) :
    v = MobileTargetTypeValues.zero ↔ ∀ t ∈ m_mobileTargetTypes, v.get t = 0 := by
  obtain ⟨a, b, c, d⟩ := v
  simp [MobileTargetTypeValues.zero, m_mobileTargetTypes, MobileTargetTypeValues.get]

/-- The blended attacked-by rate of a well-formed brain is non-negative. -/
theorem GetAttacksBy_nonneg (b : AAIBrain) (gamePhase : Nat) (hb : b.NonNegative gamePhase)
    (t : ETargetType) (ht : t ∈ m_mobileTargetTypes) : 0 ≤ b.GetAttacksBy t gamePhase := by
  obtain ⟨_, h1, h2, _, _⟩ := hb t ht
  unfold AAIBrain.GetAttacksBy
  positivity

/-- The three summands of the threat numerator are non-negative and the denominator is at
least `0.1`, for a well-formed brain and a non-negative deviation transform. -/
theorem threat_terms_nonneg (dev : List ℚ → ℚ → ℚ) (b : AAIBrain) (gamePhase : Nat)
    (hdev : DeviationNonNegative dev) (hb : b.NonNegative gamePhase)
    (t : ETargetType) (ht : t ∈ m_mobileTargetTypes) :
    0 ≤ b.s_enemyThreatByMap.get t
    ∧ 0 ≤ dev (m_mobileTargetTypes.map fun u => b.GetAttacksBy u gamePhase)
        (b.GetAttacksBy t gamePhase)
    ∧ 0 ≤ dev (m_mobileTargetTypes.map b.m_maxSpottedCombatUnitsOfTargetType.get)
        (b.m_maxSpottedCombatUnitsOfTargetType.get t)
    ∧ 1 / 10 ≤ 1 / 10 + dev (m_mobileTargetTypes.map b.m_totalMobileCombatPower.get)
        (b.m_totalMobileCombatPower.get t) := by
  refine ⟨(hb t ht).1, ?_, ?_, ?_⟩
  · apply hdev
    · exact List.mem_map.mpr ⟨t, ht, rfl⟩
    · intro s hs
      obtain ⟨u, hu, rfl⟩ := List.mem_map.mp hs
      exact GetAttacksBy_nonneg b gamePhase hb u hu
  · apply hdev
    · exact List.mem_map.mpr ⟨t, ht, rfl⟩
    · intro s hs
      obtain ⟨u, hu, rfl⟩ := List.mem_map.mp hs
      exact (hb u hu).2.2.2.1
  · have h : 0 ≤ dev (m_mobileTargetTypes.map b.m_totalMobileCombatPower.get)
        (b.m_totalMobileCombatPower.get t) := by
      apply hdev
      · exact List.mem_map.mpr ⟨t, ht, rfl⟩
      · intro s hs
        obtain ⟨u, hu, rfl⟩ := List.mem_map.mp hs
        exact (hb u hu).2.2.2.2
    linarith

/-- Every entry of the threat vector of a well-formed brain is non-negative. -/
theorem threat_nonneg (dev : List ℚ → ℚ → ℚ) (b : AAIBrain) (gamePhase : Nat)
    (hdev : DeviationNonNegative dev) (hb : b.NonNegative gamePhase)
    (t : ETargetType) (ht : t ∈ m_mobileTargetTypes) :
    0 ≤ (AAIBrain.DetermineThreatByTargetType dev b gamePhase).get t := by
  obtain ⟨h1, h2, h3, h4⟩ := threat_terms_nonneg dev b gamePhase hdev hb t ht
  rw [DetermineThreatByTargetType_get dev b gamePhase t ht]
  apply div_nonneg
  · linarith
  · linarith

/-- The largest sample, floored at zero, is non-negative. -/
theorem foldr_max_nonneg (samples : List ℚ) : 0 ≤ samples.foldr max 0 := by
  induction samples with
  | nil => simp
  | cons x xs ih => simp only [List.foldr]; exact le_max_of_le_right ih

/-- The deviation transform modelled from the spec is non-negative on non-negative samples
when `ε` is non-negative. -/
theorem GetDeviationFromZero_nonneg (ε : ℚ) (hε : 0 ≤ ε) :
    DeviationNonNegative (StatisticalData.GetDeviationFromZero ε) := by
  intro samples value _ _
  unfold StatisticalData.GetDeviationFromZero
  apply div_nonneg (abs_nonneg _)
  have h := foldr_max_nonneg samples
  linarith

/-- C2: for a brain whose map-derived threat, attacked-by rates, peak spotted counts and own
mobile combat power are non-negative (and a deviation transform that is non-negative on
non-negative samples), every component of the vector returned by
`DetermineThreatByTargetType` is `≥ 0`, and the vector is all-zero if and only if, for every
mobile target type, the map-derived threat, the attacked-by deviation from zero and the
spotted-units deviation from zero are all zero. -/
theorem DetermineThreatByTargetType_nonneg_and_zero_iff (dev : List ℚ → ℚ → ℚ) (b : AAIBrain)
    (gamePhase : Nat) (hdev : DeviationNonNegative dev) (hb : b.NonNegative gamePhase) :
    (∀ t ∈ m_mobileTargetTypes,
        0 ≤ (AAIBrain.DetermineThreatByTargetType dev b gamePhase).get t)
    ∧ (AAIBrain.DetermineThreatByTargetType dev b gamePhase = MobileTargetTypeValues.zero ↔
        ∀ t ∈ m_mobileTargetTypes,
          b.s_enemyThreatByMap.get t = 0
          ∧ dev (m_mobileTargetTypes.map fun u => b.GetAttacksBy u gamePhase)
              (b.GetAttacksBy t gamePhase) = 0
          ∧ dev (m_mobileTargetTypes.map b.m_maxSpottedCombatUnitsOfTargetType.get)
              (b.m_maxSpottedCombatUnitsOfTargetType.get t) = 0) := by
  refine ⟨threat_nonneg dev b gamePhase hdev hb, ?_⟩
  rw [MobileTargetTypeValues.eq_zero_iff]
  refine forall_congr' fun t => forall_congr' fun ht => ?_
  obtain ⟨h1, h2, h3, h4⟩ := threat_terms_nonneg dev b gamePhase hdev hb t ht
  rw [DetermineThreatByTargetType_get dev b gamePhase t ht, div_eq_zero_iff]
  constructor
  · rintro (h | h)
    · refine ⟨by linarith, by linarith, by linarith⟩
    · exfalso; linarith
  · rintro ⟨e1, e2, e3⟩
    left
    rw [e1, e2, e3]
    norm_num

/-- Instance of C2 at `landBrain` in game phase `0`, with the deviation transform modelled
from the spec (`ε = 0.1`). -/
theorem DetermineThreatByTargetType_nonneg_and_zero_iff_witness :
    DeviationNonNegative (StatisticalData.GetDeviationFromZero (1 / 10))
    ∧ landBrain.NonNegative 0
    ∧ (∀ t ∈ m_mobileTargetTypes,
        0 ≤ (AAIBrain.DetermineThreatByTargetType
              (StatisticalData.GetDeviationFromZero (1 / 10)) landBrain 0).get t) := by
  have hdev := GetDeviationFromZero_nonneg (1 / 10) (by norm_num)
  have hb : landBrain.NonNegative 0 := by
    intro t ht
    simp only [m_mobileTargetTypes, List.mem_cons, List.mem_singleton, List.not_mem_nil,
      or_false] at ht
    rcases ht with h | h | h | h <;> subst h <;>
      norm_num [landBrain, MobileTargetTypeValues.get]
  exact ⟨hdev, hb, (DetermineThreatByTargetType_nonneg_and_zero_iff
    (StatisticalData.GetDeviationFromZero (1 / 10)) landBrain 0 hdev hb).1⟩

/-- The vector returned by `DetermineCombatPowerVsTargetType`, by the target type of the
highest threat. -/
theorem DetermineCombatPowerVsTargetType_eq (dev : List ℚ → ℚ → ℚ) (b : AAIBrain)
    (gamePhase : Nat) :
    AAIBrain.DetermineCombatPowerVsTargetType dev b gamePhase =
      match (DetermineHighestThreat
          (AAIBrain.DetermineThreatByTargetType dev b gamePhase)).TargetType with
      | ETargetType.SURFACE =>
          { surface := (AAIBrain.DetermineThreatByTargetType dev b gamePhase).surface
            air := 0, floater := 0, submerged := 0
            static := ((AAIBrain.DetermineThreatByTargetType dev b gamePhase).surface + 0)
              * (1 - b.m_estimatedPressureByEnemies) }
      | ETargetType.AIR =>
          { surface := 0
            air := (AAIBrain.DetermineThreatByTargetType dev b gamePhase).air
            floater := 0, submerged := 0
            static := (0 + 0) * (1 - b.m_estimatedPressureByEnemies) }
      | ETargetType.FLOATER =>
          { surface := 0, air := 0
            floater := (AAIBrain.DetermineThreatByTargetType dev b gamePhase).floater
            submerged := (AAIBrain.DetermineThreatByTargetType dev b gamePhase).submerged
            static := (0 + (AAIBrain.DetermineThreatByTargetType dev b gamePhase).floater)
              * (1 - b.m_estimatedPressureByEnemies) }
      | ETargetType.SUBMERGED =>
          { surface := 0, air := 0
            floater := (AAIBrain.DetermineThreatByTargetType dev b gamePhase).floater
            submerged := (AAIBrain.DetermineThreatByTargetType dev b gamePhase).submerged
            static := (0 + (AAIBrain.DetermineThreatByTargetType dev b gamePhase).floater)
              * (1 - b.m_estimatedPressureByEnemies) }
      | _ =>
          { surface := 0, air := 0, floater := 0, submerged := 0
            static := (0 + 0) * (1 - b.m_estimatedPressureByEnemies) } := by
  unfold AAIBrain.DetermineCombatPowerVsTargetType
  dsimp only
  generalize (DetermineHighestThreat
    (AAIBrain.DetermineThreatByTargetType dev b gamePhase)).TargetType = t
  cases t <;> rfl

/-- C3: `DetermineCombatPowerVsTargetType` allocates the mobile budget to one branch, chosen
by the target type `t*` of the highest threat.  If `t*` is SURFACE the result has the SURFACE
threat at SURFACE and `0` at AIR, FLOATER and SUBMERGED; if `t*` is AIR it has the AIR threat
at AIR and `0` at SURFACE, FLOATER and SUBMERGED; if `t*` is FLOATER or SUBMERGED it has the
FLOATER and SUBMERGED threats at FLOATER and SUBMERGED and `0` at SURFACE and AIR. -/
theorem DetermineCombatPowerVsTargetType_branches (dev : List ℚ → ℚ → ℚ) (b : AAIBrain)
    (gamePhase : Nat) :
    ((DetermineHighestThreat (AAIBrain.DetermineThreatByTargetType dev b gamePhase)).TargetType
        = ETargetType.SURFACE →
      (AAIBrain.DetermineCombatPowerVsTargetType dev b gamePhase).get ETargetType.SURFACE
          = (AAIBrain.DetermineThreatByTargetType dev b gamePhase).get ETargetType.SURFACE
      ∧ (AAIBrain.DetermineCombatPowerVsTargetType dev b gamePhase).get ETargetType.AIR = 0
      ∧ (AAIBrain.DetermineCombatPowerVsTargetType dev b gamePhase).get ETargetType.FLOATER = 0
      ∧ (AAIBrain.DetermineCombatPowerVsTargetType dev b gamePhase).get ETargetType.SUBMERGED
          = 0)
    ∧ ((DetermineHighestThreat (AAIBrain.DetermineThreatByTargetType dev b gamePhase)).TargetType
        = ETargetType.AIR →
      (AAIBrain.DetermineCombatPowerVsTargetType dev b gamePhase).get ETargetType.AIR
          = (AAIBrain.DetermineThreatByTargetType dev b gamePhase).get ETargetType.AIR
      ∧ (AAIBrain.DetermineCombatPowerVsTargetType dev b gamePhase).get ETargetType.SURFACE = 0
      ∧ (AAIBrain.DetermineCombatPowerVsTargetType dev b gamePhase).get ETargetType.FLOATER = 0
      ∧ (AAIBrain.DetermineCombatPowerVsTargetType dev b gamePhase).get ETargetType.SUBMERGED
          = 0)
    ∧ ((DetermineHighestThreat (AAIBrain.DetermineThreatByTargetType dev b gamePhase)).TargetType
          = ETargetType.FLOATER
        ∨ (DetermineHighestThreat
            (AAIBrain.DetermineThreatByTargetType dev b gamePhase)).TargetType
          = ETargetType.SUBMERGED →
      (AAIBrain.DetermineCombatPowerVsTargetType dev b gamePhase).get ETargetType.FLOATER
          = (AAIBrain.DetermineThreatByTargetType dev b gamePhase).get ETargetType.FLOATER
      ∧ (AAIBrain.DetermineCombatPowerVsTargetType dev b gamePhase).get ETargetType.SUBMERGED
          = (AAIBrain.DetermineThreatByTargetType dev b gamePhase).get ETargetType.SUBMERGED
      ∧ (AAIBrain.DetermineCombatPowerVsTargetType dev b gamePhase).get ETargetType.SURFACE = 0
      ∧ (AAIBrain.DetermineCombatPowerVsTargetType dev b gamePhase).get ETargetType.AIR = 0) := by
  rw [DetermineCombatPowerVsTargetType_eq]
  refine ⟨?_, ?_, ?_⟩
  · intro h
    rw [h]
    exact ⟨rfl, rfl, rfl, rfl⟩
  · intro h
    rw [h]
    exact ⟨rfl, rfl, rfl, rfl⟩
  · rintro (h | h) <;> rw [h] <;> exact ⟨rfl, rfl, rfl, rfl⟩

/-- The threat vector of `landBrain`. -/
theorem landBrain_threat :
    AAIBrain.DetermineThreatByTargetType (StatisticalData.GetDeviationFromZero (1 / 10))
      landBrain 0 = ⟨33525 / 13571, 25803 / 2542, 0, 0⟩ := by
  simp [AAIBrain.DetermineThreatByTargetType, StatisticalData.GetDeviationFromZero, landBrain,
    m_mobileTargetTypes, MobileTargetTypeValues.set, MobileTargetTypeValues.get,
    AAIBrain.addedValues, AAIBrain.GetAttacksBy, MobileTargetTypeValues.zero]
  norm_num [abs_of_nonneg]

/-- The highest threat of `landBrain` is AIR. -/
theorem landBrain_highest :
    DetermineHighestThreat
      (AAIBrain.DetermineThreatByTargetType (StatisticalData.GetDeviationFromZero (1 / 10))
        landBrain 0) = ⟨25803 / 2542, ETargetType.AIR⟩ := by
  rw [landBrain_threat, DetermineHighestThreat_unfold]
  norm_num

/-- The threat vector of a `mapBrain` is ten times its map-derived threat. -/
theorem mapBrain_threat (m : MobileTargetTypeValues) (p : ℚ) :
    AAIBrain.DetermineThreatByTargetType (StatisticalData.GetDeviationFromZero (1 / 10))
      (mapBrain m p) 0 = ⟨m.surface * 10, m.air * 10, m.floater * 10, m.submerged * 10⟩ := by
  simp [AAIBrain.DetermineThreatByTargetType, StatisticalData.GetDeviationFromZero, mapBrain,
    m_mobileTargetTypes, MobileTargetTypeValues.set, MobileTargetTypeValues.get,
    AAIBrain.addedValues, AAIBrain.GetAttacksBy, MobileTargetTypeValues.zero]

/-- The highest threat of a `mapBrain` with only surface threat is SURFACE. -/
theorem mapBrain_surface_highest (p : ℚ) :
    DetermineHighestThreat
      (AAIBrain.DetermineThreatByTargetType (StatisticalData.GetDeviationFromZero (1 / 10))
        (mapBrain ⟨1 / 2, 0, 0, 0⟩ p) 0) = ⟨5, ETargetType.SURFACE⟩ := by
  rw [mapBrain_threat, DetermineHighestThreat_unfold]
  norm_num

/-- The highest threat of a `mapBrain` on a water map with more submerged than floating threat
is SUBMERGED. -/
theorem mapBrain_submerged_highest (p : ℚ) :
    DetermineHighestThreat
      (AAIBrain.DetermineThreatByTargetType (StatisticalData.GetDeviationFromZero (1 / 10))
        (mapBrain ⟨0, 0, 1 / 4, 1 / 2⟩ p) 0) = ⟨5, ETargetType.SUBMERGED⟩ := by
  rw [mapBrain_threat, DetermineHighestThreat_unfold]
  norm_num

/-- A `mapBrain` with non-negative map-derived threat is well-formed. -/
theorem mapBrain_nonNegative (m : MobileTargetTypeValues) (p : ℚ)
    (hm : ∀ t ∈ m_mobileTargetTypes, 0 ≤ m.get t) : (mapBrain m p).NonNegative 0 := by
  intro t ht
  refine ⟨hm t ht, ?_, ?_, ?_, ?_⟩ <;>
  · simp only [m_mobileTargetTypes, List.mem_cons, List.mem_singleton, List.not_mem_nil,
      or_false] at ht
    rcases ht with h | h | h | h <;> subst h <;> simp [mapBrain, MobileTargetTypeValues.get]

/-- Instance of C3 at three brains, one for each branch: a land map without sightings
(SURFACE), `landBrain` (AIR) and a water map without sightings (SUBMERGED). -/
theorem DetermineCombatPowerVsTargetType_branches_witness :
    ((DetermineHighestThreat (AAIBrain.DetermineThreatByTargetType
          (StatisticalData.GetDeviationFromZero (1 / 10))
          (mapBrain ⟨1 / 2, 0, 0, 0⟩ (1 / 2)) 0)).TargetType = ETargetType.SURFACE
      ∧ (AAIBrain.DetermineCombatPowerVsTargetType
          (StatisticalData.GetDeviationFromZero (1 / 10))
          (mapBrain ⟨1 / 2, 0, 0, 0⟩ (1 / 2)) 0).get ETargetType.AIR = 0)
    ∧ ((DetermineHighestThreat (AAIBrain.DetermineThreatByTargetType
          (StatisticalData.GetDeviationFromZero (1 / 10)) landBrain 0)).TargetType
          = ETargetType.AIR
      ∧ (AAIBrain.DetermineCombatPowerVsTargetType
          (StatisticalData.GetDeviationFromZero (1 / 10)) landBrain 0).get ETargetType.SURFACE
          = 0)
    ∧ ((DetermineHighestThreat (AAIBrain.DetermineThreatByTargetType
          (StatisticalData.GetDeviationFromZero (1 / 10))
          (mapBrain ⟨0, 0, 1 / 4, 1 / 2⟩ (1 / 2)) 0)).TargetType = ETargetType.SUBMERGED
      ∧ (AAIBrain.DetermineCombatPowerVsTargetType
          (StatisticalData.GetDeviationFromZero (1 / 10))
          (mapBrain ⟨0, 0, 1 / 4, 1 / 2⟩ (1 / 2)) 0).get ETargetType.FLOATER
        = (AAIBrain.DetermineThreatByTargetType
          (StatisticalData.GetDeviationFromZero (1 / 10))
          (mapBrain ⟨0, 0, 1 / 4, 1 / 2⟩ (1 / 2)) 0).get ETargetType.FLOATER) := by
  have hs := congrArg ThreatByTargetType.TargetType (mapBrain_surface_highest (1 / 2))
  have ha := congrArg ThreatByTargetType.TargetType landBrain_highest
  have hw := congrArg ThreatByTargetType.TargetType (mapBrain_submerged_highest (1 / 2))
  exact ⟨⟨hs, ((DetermineCombatPowerVsTargetType_branches _ _ _).1 hs).2.1⟩,
    ⟨ha, ((DetermineCombatPowerVsTargetType_branches _ _ _).2.1 ha).2.1⟩,
    ⟨hw, ((DetermineCombatPowerVsTargetType_branches _ _ _).2.2 (Or.inr hw)).1⟩⟩

/-- C4: the vector returned by `DetermineCombatPowerVsTargetType` satisfies
`result[STATIC] = (result[SURFACE] + result[FLOATER]) * (1 - m_estimatedPressureByEnemies)`.
Hence `result[STATIC]` is `0` when the pressure is `1`, it is `0` whenever AIR is the highest
threat, and with pressure in `[0,1]` it lies between `0` and
`result[SURFACE] + result[FLOATER]` for every brain state; for a brain whose target-type
vectors are non-negative that sum is non-negative, so that
`0 ≤ result[STATIC] ≤ result[SURFACE] + result[FLOATER]`. -/
theorem DetermineCombatPowerVsTargetType_static (dev : List ℚ → ℚ → ℚ) (b : AAIBrain)
    (gamePhase : Nat) :
    (AAIBrain.DetermineCombatPowerVsTargetType dev b gamePhase).get ETargetType.STATIC
        = ((AAIBrain.DetermineCombatPowerVsTargetType dev b gamePhase).get ETargetType.SURFACE
            + (AAIBrain.DetermineCombatPowerVsTargetType dev b gamePhase).get
                ETargetType.FLOATER)
          * (1 - b.m_estimatedPressureByEnemies)
    ∧ (b.m_estimatedPressureByEnemies = 1 →
        (AAIBrain.DetermineCombatPowerVsTargetType dev b gamePhase).get ETargetType.STATIC = 0)
    ∧ ((DetermineHighestThreat
          (AAIBrain.DetermineThreatByTargetType dev b gamePhase)).TargetType = ETargetType.AIR →
        (AAIBrain.DetermineCombatPowerVsTargetType dev b gamePhase).get ETargetType.STATIC = 0)
    ∧ (0 ≤ b.m_estimatedPressureByEnemies → b.m_estimatedPressureByEnemies ≤ 1 →
        min 0 ((AAIBrain.DetermineCombatPowerVsTargetType dev b gamePhase).get
                ETargetType.SURFACE
            + (AAIBrain.DetermineCombatPowerVsTargetType dev b gamePhase).get
                ETargetType.FLOATER)
          ≤ (AAIBrain.DetermineCombatPowerVsTargetType dev b gamePhase).get ETargetType.STATIC
        ∧ (AAIBrain.DetermineCombatPowerVsTargetType dev b gamePhase).get ETargetType.STATIC
          ≤ max 0 ((AAIBrain.DetermineCombatPowerVsTargetType dev b gamePhase).get
                ETargetType.SURFACE
            + (AAIBrain.DetermineCombatPowerVsTargetType dev b gamePhase).get
                ETargetType.FLOATER))
    ∧ (DeviationNonNegative dev → b.NonNegative gamePhase →
        0 ≤ b.m_estimatedPressureByEnemies → b.m_estimatedPressureByEnemies ≤ 1 →
        0 ≤ (AAIBrain.DetermineCombatPowerVsTargetType dev b gamePhase).get ETargetType.STATIC
        ∧ (AAIBrain.DetermineCombatPowerVsTargetType dev b gamePhase).get ETargetType.STATIC
          ≤ (AAIBrain.DetermineCombatPowerVsTargetType dev b gamePhase).get
                ETargetType.SURFACE
            + (AAIBrain.DetermineCombatPowerVsTargetType dev b gamePhase).get
                ETargetType.FLOATER) := by
  have heq : (AAIBrain.DetermineCombatPowerVsTargetType dev b gamePhase).get ETargetType.STATIC
        = ((AAIBrain.DetermineCombatPowerVsTargetType dev b gamePhase).get ETargetType.SURFACE
            + (AAIBrain.DetermineCombatPowerVsTargetType dev b gamePhase).get
                ETargetType.FLOATER)
          * (1 - b.m_estimatedPressureByEnemies) := by
    rw [DetermineCombatPowerVsTargetType_eq]
    cases (DetermineHighestThreat
      (AAIBrain.DetermineThreatByTargetType dev b gamePhase)).TargetType <;> rfl
  refine ⟨heq, ?_, ?_, ?_, ?_⟩
  · intro hp
    rw [heq, hp]
    ring
  · intro hair
    rw [DetermineCombatPowerVsTargetType_eq, hair]
    simp [TargetTypeValues.get]
  · intro hp0 hp1
    rw [heq]
    rcases le_total 0 ((AAIBrain.DetermineCombatPowerVsTargetType dev b gamePhase).get
          ETargetType.SURFACE
        + (AAIBrain.DetermineCombatPowerVsTargetType dev b gamePhase).get
          ETargetType.FLOATER) with hS | hS
    · rw [min_eq_left hS, max_eq_right hS]
      constructor
      · exact mul_nonneg hS (by linarith)
      · nlinarith
    · rw [min_eq_right hS, max_eq_left hS]
      constructor
      · nlinarith
      · exact mul_nonpos_of_nonpos_of_nonneg hS (by linarith)
  · intro hdev hb hp0 hp1
    have hsum : 0 ≤ (AAIBrain.DetermineCombatPowerVsTargetType dev b gamePhase).get
          ETargetType.SURFACE
        + (AAIBrain.DetermineCombatPowerVsTargetType dev b gamePhase).get
          ETargetType.FLOATER := by
      have h1 := threat_nonneg dev b gamePhase hdev hb ETargetType.SURFACE
        (by simp [m_mobileTargetTypes])
      have h2 := threat_nonneg dev b gamePhase hdev hb ETargetType.FLOATER
        (by simp [m_mobileTargetTypes])
      simp only [MobileTargetTypeValues.get] at h1 h2
      rw [DetermineCombatPowerVsTargetType_eq]
      cases (DetermineHighestThreat
        (AAIBrain.DetermineThreatByTargetType dev b gamePhase)).TargetType <;>
        simp only [TargetTypeValues.get] <;> linarith
    rw [heq]
    constructor
    · exact mul_nonneg hsum (by linarith)
    · nlinarith

/-- Instance of C4: pressure `1` on a land map, AIR as the highest threat at `landBrain`, the
ordered bounds on a land map with pressure `1/2`, and the bounds at a state with a negative
FLOATER entry and pressure `1/2`. -/
theorem DetermineCombatPowerVsTargetType_static_witness :
    ((mapBrain ⟨1 / 2, 0, 0, 0⟩ 1).m_estimatedPressureByEnemies = 1
      ∧ (AAIBrain.DetermineCombatPowerVsTargetType
          (StatisticalData.GetDeviationFromZero (1 / 10))
          (mapBrain ⟨1 / 2, 0, 0, 0⟩ 1) 0).get ETargetType.STATIC = 0)
    ∧ ((DetermineHighestThreat (AAIBrain.DetermineThreatByTargetType
          (StatisticalData.GetDeviationFromZero (1 / 10)) landBrain 0)).TargetType
          = ETargetType.AIR
      ∧ (AAIBrain.DetermineCombatPowerVsTargetType
          (StatisticalData.GetDeviationFromZero (1 / 10)) landBrain 0).get ETargetType.STATIC
          = 0)
    ∧ (DeviationNonNegative (StatisticalData.GetDeviationFromZero (1 / 10))
      ∧ (mapBrain ⟨1 / 2, 0, 0, 0⟩ (1 / 2)).NonNegative 0
      ∧ (0 : ℚ) ≤ (mapBrain ⟨1 / 2, 0, 0, 0⟩ (1 / 2)).m_estimatedPressureByEnemies
      ∧ (mapBrain ⟨1 / 2, 0, 0, 0⟩ (1 / 2)).m_estimatedPressureByEnemies ≤ 1
      ∧ 0 ≤ (AAIBrain.DetermineCombatPowerVsTargetType
          (StatisticalData.GetDeviationFromZero (1 / 10))
          (mapBrain ⟨1 / 2, 0, 0, 0⟩ (1 / 2)) 0).get ETargetType.STATIC
      ∧ (AAIBrain.DetermineCombatPowerVsTargetType
          (StatisticalData.GetDeviationFromZero (1 / 10))
          (mapBrain ⟨1 / 2, 0, 0, 0⟩ (1 / 2)) 0).get ETargetType.STATIC
        ≤ (AAIBrain.DetermineCombatPowerVsTargetType
            (StatisticalData.GetDeviationFromZero (1 / 10))
            (mapBrain ⟨1 / 2, 0, 0, 0⟩ (1 / 2)) 0).get ETargetType.SURFACE
          + (AAIBrain.DetermineCombatPowerVsTargetType
            (StatisticalData.GetDeviationFromZero (1 / 10))
            (mapBrain ⟨1 / 2, 0, 0, 0⟩ (1 / 2)) 0).get ETargetType.FLOATER)
    ∧ ((0 : ℚ) ≤ (mapBrain ⟨0, 0, -1, 1⟩ (1 / 2)).m_estimatedPressureByEnemies
      ∧ (mapBrain ⟨0, 0, -1, 1⟩ (1 / 2)).m_estimatedPressureByEnemies ≤ 1
      ∧ min 0 ((AAIBrain.DetermineCombatPowerVsTargetType
            (StatisticalData.GetDeviationFromZero (1 / 10))
            (mapBrain ⟨0, 0, -1, 1⟩ (1 / 2)) 0).get ETargetType.SURFACE
          + (AAIBrain.DetermineCombatPowerVsTargetType
            (StatisticalData.GetDeviationFromZero (1 / 10))
            (mapBrain ⟨0, 0, -1, 1⟩ (1 / 2)) 0).get ETargetType.FLOATER)
        ≤ (AAIBrain.DetermineCombatPowerVsTargetType
            (StatisticalData.GetDeviationFromZero (1 / 10))
            (mapBrain ⟨0, 0, -1, 1⟩ (1 / 2)) 0).get ETargetType.STATIC
      ∧ (AAIBrain.DetermineCombatPowerVsTargetType
            (StatisticalData.GetDeviationFromZero (1 / 10))
            (mapBrain ⟨0, 0, -1, 1⟩ (1 / 2)) 0).get ETargetType.STATIC
        ≤ max 0 ((AAIBrain.DetermineCombatPowerVsTargetType
            (StatisticalData.GetDeviationFromZero (1 / 10))
            (mapBrain ⟨0, 0, -1, 1⟩ (1 / 2)) 0).get ETargetType.SURFACE
          + (AAIBrain.DetermineCombatPowerVsTargetType
            (StatisticalData.GetDeviationFromZero (1 / 10))
            (mapBrain ⟨0, 0, -1, 1⟩ (1 / 2)) 0).get ETargetType.FLOATER)) := by
  have hq0 : (0 : ℚ) ≤ (mapBrain ⟨0, 0, -1, 1⟩ (1 / 2)).m_estimatedPressureByEnemies := by
    norm_num [mapBrain]
  have hq1 : (mapBrain ⟨0, 0, -1, 1⟩ (1 / 2)).m_estimatedPressureByEnemies ≤ 1 := by
    norm_num [mapBrain]
  have hdev := GetDeviationFromZero_nonneg (1 / 10) (by norm_num)
  have hb : (mapBrain ⟨1 / 2, 0, 0, 0⟩ (1 / 2)).NonNegative 0 :=
    mapBrain_nonNegative _ _ (by simp [m_mobileTargetTypes, MobileTargetTypeValues.get])
  have ha := congrArg ThreatByTargetType.TargetType landBrain_highest
  have hp0 : (0 : ℚ) ≤ (mapBrain ⟨1 / 2, 0, 0, 0⟩ (1 / 2)).m_estimatedPressureByEnemies := by
    norm_num [mapBrain]
  have hp1 : (mapBrain ⟨1 / 2, 0, 0, 0⟩ (1 / 2)).m_estimatedPressureByEnemies ≤ 1 := by
    norm_num [mapBrain]
  exact ⟨⟨rfl, (DetermineCombatPowerVsTargetType_static _ _ _).2.1 rfl⟩,
    ⟨ha, (DetermineCombatPowerVsTargetType_static _ _ _).2.2.1 ha⟩,
    ⟨hdev, hb, hp0, hp1,
      (DetermineCombatPowerVsTargetType_static _ _ _).2.2.2.2 hdev hb hp0 hp1⟩,
    ⟨hq0, hq1, (DetermineCombatPowerVsTargetType_static _ _ _).2.2.2.1 hq0 hq1⟩⟩

/-- C5: if no mobile target type has a threat value strictly greater than `0`, every
component of the vector returned by `DetermineCombatPowerVsTargetType` is `0`, the STATIC
component included. -/
theorem DetermineCombatPowerVsTargetType_no_threat (dev : List ℚ → ℚ → ℚ) (b : AAIBrain)
    (gamePhase : Nat)
    (hno : ∀ t ∈ m_mobileTargetTypes,
      ¬ 0 < (AAIBrain.DetermineThreatByTargetType dev b gamePhase).get t) :
    AAIBrain.DetermineCombatPowerVsTargetType dev b gamePhase = ⟨0, 0, 0, 0, 0⟩
    ∧ ∀ t, (AAIBrain.DetermineCombatPowerVsTargetType dev b gamePhase).get t = 0 := by
  have hunknown : (DetermineHighestThreat
      (AAIBrain.DetermineThreatByTargetType dev b gamePhase)).TargetType
        = ETargetType.UNKNOWN := by
    simp only [m_mobileTargetTypes, List.mem_cons, List.mem_singleton, List.not_mem_nil,
      or_false, forall_eq_or_imp, forall_eq, MobileTargetTypeValues.get] at hno
    obtain ⟨n1, n2, n3, n4⟩ := hno
    rcases DetermineHighestThreat_cases (AAIBrain.DetermineThreatByTargetType dev b gamePhase)
      with ⟨hr, -⟩ | ⟨-, h, -⟩ | ⟨-, h, -⟩ | ⟨-, h, -⟩ | ⟨-, h, -⟩
    · rw [hr]
    · exact absurd h n1
    · exact absurd h n2
    · exact absurd h n3
    · exact absurd h n4
  have hall : AAIBrain.DetermineCombatPowerVsTargetType dev b gamePhase = ⟨0, 0, 0, 0, 0⟩ := by
    rw [DetermineCombatPowerVsTargetType_eq, hunknown]
    simp
  refine ⟨hall, fun t => ?_⟩
  rw [hall]
  cases t <;> rfl

/-- Instance of C5 at `quietBrain`, whose threat vector is all-zero. -/
theorem DetermineCombatPowerVsTargetType_no_threat_witness :
    (∀ t ∈ m_mobileTargetTypes,
      ¬ 0 < (AAIBrain.DetermineThreatByTargetType
        (StatisticalData.GetDeviationFromZero (1 / 10)) quietBrain 0).get t)
    ∧ AAIBrain.DetermineCombatPowerVsTargetType
        (StatisticalData.GetDeviationFromZero (1 / 10)) quietBrain 0 = ⟨0, 0, 0, 0, 0⟩ := by
  have hno : ∀ t ∈ m_mobileTargetTypes,
      ¬ 0 < (AAIBrain.DetermineThreatByTargetType
        (StatisticalData.GetDeviationFromZero (1 / 10)) quietBrain 0).get t := by
    have hq : AAIBrain.DetermineThreatByTargetType
        (StatisticalData.GetDeviationFromZero (1 / 10)) quietBrain 0 = ⟨0, 0, 0, 0⟩ := by
      simp [AAIBrain.DetermineThreatByTargetType, StatisticalData.GetDeviationFromZero,
        quietBrain, m_mobileTargetTypes, MobileTargetTypeValues.set,
        MobileTargetTypeValues.get, AAIBrain.addedValues, AAIBrain.GetAttacksBy,
        MobileTargetTypeValues.zero]
    rw [hq]
    simp [m_mobileTargetTypes, MobileTargetTypeValues.get]
  exact ⟨hno, (DetermineCombatPowerVsTargetType_no_threat _ _ _ hno).1⟩

/-- C7: `GetAttacksBy` returns `0.3 *` the learned cross-game attacked-by rate `+ 0.7 *` the
current-game recently-attacked-by rate, for every target type and game phase.  In particular
learned `10` and current `0` give `3`, and learned `0` and current `10` give `7`. -/
theorem GetAttacksBy_blend (b : AAIBrain) (targetType : ETargetType) (gamePhase : Nat) :
    b.GetAttacksBy targetType gamePhase
        = 3 / 10 * (b.s_attackedByRates gamePhase).get targetType
          + 7 / 10 * b.m_recentlyAttackedByRates.get targetType
    ∧ ((b.s_attackedByRates gamePhase).get targetType = 10 →
        b.m_recentlyAttackedByRates.get targetType = 0 →
        b.GetAttacksBy targetType gamePhase = 3)
    ∧ ((b.s_attackedByRates gamePhase).get targetType = 0 →
        b.m_recentlyAttackedByRates.get targetType = 10 →
        b.GetAttacksBy targetType gamePhase = 7) := by
  refine ⟨rfl, ?_, ?_⟩
  · intro hl hc
    unfold AAIBrain.GetAttacksBy
    rw [hl, hc]
    norm_num
  · intro hl hc
    unfold AAIBrain.GetAttacksBy
    rw [hl, hc]
    norm_num

/-- Instance of C7 for the target type SURFACE ("ground"): `landBrain` has learned rate `10`
and current rate `0`; `quietBrain` with a current rate of `10` has learned rate `0`. -/
theorem GetAttacksBy_blend_witness :
    ((landBrain.s_attackedByRates 0).get ETargetType.SURFACE = 10
      ∧ landBrain.m_recentlyAttackedByRates.get ETargetType.SURFACE = 0
      ∧ landBrain.GetAttacksBy ETargetType.SURFACE 0 = 3)
    ∧ ((({ quietBrain with m_recentlyAttackedByRates := ⟨10, 0, 0, 0⟩ } : AAIBrain).s_attackedByRates
          0).get ETargetType.SURFACE = 0
      ∧ ({ quietBrain with m_recentlyAttackedByRates := ⟨10, 0, 0, 0⟩ }
          : AAIBrain).m_recentlyAttackedByRates.get ETargetType.SURFACE = 10
      ∧ ({ quietBrain with m_recentlyAttackedByRates := ⟨10, 0, 0, 0⟩ } : AAIBrain).GetAttacksBy
          ETargetType.SURFACE 0 = 7) :=
  ⟨⟨rfl, rfl, (GetAttacksBy_blend landBrain ETargetType.SURFACE 0).2.1 rfl rfl⟩,
    ⟨rfl, rfl,
      (GetAttacksBy_blend { quietBrain with m_recentlyAttackedByRates := ⟨10, 0, 0, 0⟩ }
        ETargetType.SURFACE 0).2.2 rfl rfl⟩⟩

/-- The denominator of the income factor is at least `1`. -/
theorem incomeFactor_denominator (m : ℚ) : 1 ≤ 1 / 100 * m * m + 1 := by
  nlinarith [mul_self_nonneg m]

/-- C8: the income factor of the selection-criteria functions equals `1 / (0.01 * m^2 + 1)`
for the average metal income `m`.  It is `1` at `m = 0` and `0.5` at `m = 10`, lies in `(0,1]`
for every `m`, and is strictly decreasing in `m` for `m ≥ 0`.  It is the factor that enters
the cost weight of `DetermineCombatUnitSelectionCriteria` and of
`DetermineExtractorSelectionCriteria`. -/
theorem incomeFactor_spec :
    (∀ m : ℚ, AAIBrain.incomeFactor m = 1 / (1 / 100 * m ^ 2 + 1))
    ∧ AAIBrain.incomeFactor 0 = 1
    ∧ AAIBrain.incomeFactor 10 = 1 / 2
    ∧ (∀ m : ℚ, 0 < AAIBrain.incomeFactor m ∧ AAIBrain.incomeFactor m ≤ 1)
    ∧ (∀ m₁ m₂ : ℚ, 0 ≤ m₁ → m₁ < m₂ → AAIBrain.incomeFactor m₂ < AAIBrain.incomeFactor m₁)
    ∧ (∀ (b : AAIBrain) (isStartingPhase : Bool) (draws : AAIBrain.CombatUnitRandomDraws),
        (b.DetermineCombatUnitSelectionCriteria isStartingPhase draws).cost
          = 1 / 2 + 2 * AAIBrain.incomeFactor b.m_metalIncome)
    ∧ (∀ b : AAIBrain,
        b.DetermineExtractorSelectionCriteria.cost
          = 1 / 2 + 3 / 2 * AAIBrain.incomeFactor b.m_metalIncome) := by
  refine ⟨?_, ?_, ?_, ?_, ?_, ?_, ?_⟩
  · intro m
    unfold AAIBrain.incomeFactor
    ring
  · norm_num [AAIBrain.incomeFactor]
  · norm_num [AAIBrain.incomeFactor]
  · intro m
    have hd := incomeFactor_denominator m
    unfold AAIBrain.incomeFactor
    constructor
    · positivity
    · rw [div_le_one (by linarith)]
      exact hd
  · intro m₁ m₂ h0 hlt
    have hd1 := incomeFactor_denominator m₁
    unfold AAIBrain.incomeFactor
    apply one_div_lt_one_div_of_lt (by linarith)
    nlinarith
  · intro b isStartingPhase draws
    unfold AAIBrain.DetermineCombatUnitSelectionCriteria
    cases isStartingPhase <;> rfl
  · intro b
    rfl

/-- Instance of C8: the income factor at income `10` is below the one at income `0`. -/
theorem incomeFactor_spec_witness :
    (0 : ℚ) ≤ 0 ∧ (0 : ℚ) < 10 ∧ AAIBrain.incomeFactor 10 < AAIBrain.incomeFactor 0 :=
  ⟨le_refl 0, by norm_num, incomeFactor_spec.2.2.2.2.1 0 10 (le_refl 0) (by norm_num)⟩

/-- One more `Update` after `n` of them. -/
theorem Update_iterate_succ (s : AAISector) (n : Nat) :
    AAISector.Update^[n + 1] s = AAISector.Update (AAISector.Update^[n] s) :=
  Function.iterate_succ_apply' AAISector.Update n s

/-- C9: applying `AAISector::Update` `n` times with no intervening events multiplies
`m_lostUnits` and `m_lostAirUnits` each by `0.95^n` and changes no other field of the sector;
so `GetLostUnits` and `GetLostAirUnits` are multiplied by `0.95^n`. -/
theorem Update_iterate (s : AAISector) (n : Nat) :
    AAISector.Update^[n] s =
        { s with
          m_lostUnits := s.m_lostUnits * (95 / 100) ^ n
          m_lostAirUnits := s.m_lostAirUnits * (95 / 100) ^ n }
    ∧ (AAISector.Update^[n] s).GetLostUnits = s.GetLostUnits * (95 / 100) ^ n
    ∧ (AAISector.Update^[n] s).GetLostAirUnits = s.GetLostAirUnits * (95 / 100) ^ n := by
  have h : AAISector.Update^[n] s =
        { s with
          m_lostUnits := s.m_lostUnits * (95 / 100) ^ n
          m_lostAirUnits := s.m_lostAirUnits * (95 / 100) ^ n } := by
    induction n with
    | zero => simp
    | succ k ih =>
      rw [Update_iterate_succ, ih]
      simp only [AAISector.Update, pow_succ, mul_assoc]
  refine ⟨h, ?_, ?_⟩
  · rw [h]
    simp only [AAISector.GetLostUnits]
    ring
  · rw [h]
    simp only [AAISector.GetLostAirUnits]

/-- The size of a vector is not changed by `values[index] += increment`. -/
theorem addAt_length (l : List ℚ) (i : Nat) (v : ℚ) : (addAt l i v).length = l.length := by
  induction l generalizing i with
  | nil => rfl
  | cons x xs ih =>
    cases i with
    | zero => rfl
    | succ k => simp [addAt, ih]

/-- The entry at `index` after `values[index] += increment`. -/
theorem addAt_getElem?_self (l : List ℚ) (i : Nat) (v : ℚ) :
    (addAt l i v)[i]? = (l[i]?).map (fun old => old + v) := by
  induction l generalizing i with
  | nil => rfl
  | cons x xs ih =>
    cases i with
    | zero => simp [addAt]
    | succ k => simp [addAt, ih]

/-- The entries other than the one at `index` after `values[index] += increment`. -/
theorem addAt_getElem?_ne (l : List ℚ) (i j : Nat) (v : ℚ) (hne : j ≠ i) :
    (addAt l i v)[j]? = l[j]? := by
  induction l generalizing i j with
  | nil => rfl
  | cons x xs ih =>
    cases i with
    | zero =>
      cases j with
      | zero => exact absurd rfl hne
      | succ m => rfl
    | succ k =>
      cases j with
      | zero => simp [addAt]
      | succ m =>
        simp only [addAt, List.getElem?_cons_succ]
        exact ih k m (fun h => hne (by rw [h]))

/-- C10: in `UpdateThreatValues`, when the destroyed unit is a building and the attacker is a
combat unit, `attacked_by_this_game` at the attacker's combat-category index increases by
`0.3` if the sector is interior and by `1.0` otherwise, and every other `attacked_by` entry,
every `combats_this_game` entry, both lost-unit tallies and all other fields are unchanged;
when the destroyed unit is a building and the attacker is not a combat unit, the sector is
unchanged. -/
theorem UpdateThreatValues_building (buildTree : Int → UnitTypeProperties) (s : AAISector)
    (destroyedDefId attackerDefId : Int)
    (hbuilding : (buildTree destroyedDefId).isBuilding = true) :
    ((buildTree attackerDefId).isCombatUnit = true →
      (∀ old, s.attacked_by_this_game[(buildTree attackerDefId).combatCategoryArrayIndex]?
            = some old →
          (s.UpdateThreatValues buildTree destroyedDefId
              attackerDefId).attacked_by_this_game[(buildTree
                attackerDefId).combatCategoryArrayIndex]?
            = some (old + if s.interior = true then 3 / 10 else 1))
      ∧ (∀ j, j ≠ (buildTree attackerDefId).combatCategoryArrayIndex →
          (s.UpdateThreatValues buildTree destroyedDefId attackerDefId).attacked_by_this_game[j]?
            = s.attacked_by_this_game[j]?)
      ∧ (s.UpdateThreatValues buildTree destroyedDefId attackerDefId).attacked_by_this_game.length
          = s.attacked_by_this_game.length
      ∧ (s.UpdateThreatValues buildTree destroyedDefId attackerDefId).combats_this_game
          = s.combats_this_game
      ∧ (s.UpdateThreatValues buildTree destroyedDefId attackerDefId).m_lostUnits = s.m_lostUnits
      ∧ (s.UpdateThreatValues buildTree destroyedDefId attackerDefId).m_lostAirUnits
          = s.m_lostAirUnits
      ∧ s.UpdateThreatValues buildTree destroyedDefId attackerDefId
          = { s with
              attacked_by_this_game :=
                (s.UpdateThreatValues buildTree destroyedDefId
                  attackerDefId).attacked_by_this_game })
    ∧ ((buildTree attackerDefId).isCombatUnit = false →
        s.UpdateThreatValues buildTree destroyedDefId attackerDefId = s) := by
  constructor
  · intro hcombat
    have hres : s.UpdateThreatValues buildTree destroyedDefId attackerDefId =
        { s with
          attacked_by_this_game :=
            addAt s.attacked_by_this_game (buildTree attackerDefId).combatCategoryArrayIndex
              (if s.interior = true then 3 / 10 else 1) } := by
      simp only [AAISector.UpdateThreatValues, hbuilding, hcombat, if_true]
    rw [hres]
    refine ⟨?_, ?_, ?_, rfl, rfl, rfl, rfl⟩
    · intro old hold
      simp only [addAt_getElem?_self, hold, Option.map_some']
    · intro j hj
      exact addAt_getElem?_ne _ _ _ _ hj
    · exact addAt_length _ _ _
  · intro hcombat
    simp [AAISector.UpdateThreatValues, hbuilding, hcombat]

/-- Instance of C10 with `exampleBuildTree`: a building (id `1`) is destroyed by a combat
unit of category index `1` (id `2`) in an interior and in a border sector, and by a unit that
is no combat unit (id `3`). -/
theorem UpdateThreatValues_building_witness :
    (exampleBuildTree 1).isBuilding = true
    ∧ (exampleBuildTree 2).isCombatUnit = true
    ∧ (exampleBuildTree 3).isCombatUnit = false
    ∧ (({ initialSector 0 0 with interior := true } : AAISector).UpdateThreatValues
          exampleBuildTree 1 2).attacked_by_this_game[1]? = some (3 / 10)
    ∧ ((initialSector 0 0).UpdateThreatValues exampleBuildTree 1 2).attacked_by_this_game[1]?
          = some 1
    ∧ (initialSector 0 0).UpdateThreatValues exampleBuildTree 1 3 = initialSector 0 0 := by
  have hb : (exampleBuildTree 1).isBuilding = true := by decide
  have hc : (exampleBuildTree 2).isCombatUnit = true := by decide
  have hn : (exampleBuildTree 3).isCombatUnit = false := by decide
  have h1 := ((UpdateThreatValues_building exampleBuildTree
    { initialSector 0 0 with interior := true } 1 2 hb).1 hc).1 0 rfl
  have h2 := ((UpdateThreatValues_building exampleBuildTree (initialSector 0 0) 1 2 hb).1 hc).1
    0 rfl
  have h3 := (UpdateThreatValues_building exampleBuildTree (initialSector 0 0) 1 3 hb).2 hn
  refine ⟨hb, hc, hn, ?_, ?_, h3⟩
  · have hidx : (exampleBuildTree 2).combatCategoryArrayIndex = 1 := by decide
    rw [hidx] at h1
    rw [h1]
    norm_num
  · have hidx : (exampleBuildTree 2).combatCategoryArrayIndex = 1 := by decide
    rw [hidx] at h2
    rw [h2]
    norm_num [initialSector]

/-- The inner loop of `UpdatePressureByEnemy` over one column of the grid adds to each counter
the number of sectors of the column that it counts. -/
theorem countColumn (column : List AAISector) (counters : Int × Int) :
    column.foldl
        (fun counters sector =>
          if sector.IsOccupiedByEnemies then
            (counters.1 + 1,
              if sector.GetDistanceToBase < 2 then counters.2 + 1 else counters.2)
          else counters)
        counters
      = (counters.1 + (column.countP fun s => s.IsOccupiedByEnemies),
          counters.2 + (column.countP fun s =>
            s.IsOccupiedByEnemies && decide (s.GetDistanceToBase < 2))) := by
  induction column generalizing counters with
  | nil => simp
  | cons s rest ih =>
    rw [List.foldl_cons, ih]
    by_cases hocc : s.IsOccupiedByEnemies = true
    · by_cases hnear : s.GetDistanceToBase < 2
      · simp [hocc, hnear, List.countP_cons]
        constructor <;> ring
      · simp [hocc, hnear, List.countP_cons]
        ring
    · simp [hocc, List.countP_cons]

/-- The two loops of `UpdatePressureByEnemy` count the enemy-occupied sectors of the grid and
those of them with distance to base below `2`. -/
theorem countSectorsOccupiedByEnemies_eq (sectors : SectorMap) :
    AAIBrain.countSectorsOccupiedByEnemies sectors
      = (((sectors.flatten.countP fun s => s.IsOccupiedByEnemies : Nat) : Int),
          ((sectors.flatten.countP fun s =>
            s.IsOccupiedByEnemies && decide (s.GetDistanceToBase < 2) : Nat) : Int)) := by
  have hgen : ∀ (grid : SectorMap) (counters : Int × Int),
      grid.foldl
          (fun counters column =>
            column.foldl
              (fun counters sector =>
                if sector.IsOccupiedByEnemies then
                  (counters.1 + 1,
                    if sector.GetDistanceToBase < 2 then counters.2 + 1 else counters.2)
                else counters)
              counters)
          counters
        = (counters.1 + (grid.flatten.countP fun s => s.IsOccupiedByEnemies),
            counters.2 + (grid.flatten.countP fun s =>
              s.IsOccupiedByEnemies && decide (s.GetDistanceToBase < 2))) := by
    intro grid
    induction grid with
    | nil => intro counters; simp
    | cons column rest ih =>
      intro counters
      rw [List.foldl_cons, countColumn, ih]
      simp only [List.flatten_cons, List.countP_append, Nat.cast_add, add_assoc]
  unfold AAIBrain.countSectorsOccupiedByEnemies
  rw [hgen]
  simp

/-- C1: for a sector grid and base lists with non-zero denominators
(`xSectors * ySectors > 0` and at least one sector at base distance `0` or `1`),
`UpdatePressureByEnemy` stores
`min(1, 2 * (occupied / (xSectors * ySectors)) + 2 * (nearBaseOccupied / (|dist0| + |dist1|)))`
as `m_estimatedPressureByEnemies`, a value in `[0,1]`; here `occupied` is the number of
enemy-occupied sectors of the grid and `nearBaseOccupied` the number of those with distance to
base below `2`.  When every sector of the grid is enemy-occupied, and the grid has (at
least) `xSectors * ySectors` sectors or its near-base sectors are (at least) the
`|dist0| + |dist1|` listed ones, the stored value is exactly `1`. -/
theorem UpdatePressureByEnemy_spec (xSectors ySectors : Int) (b : AAIBrain)
    (sectors : SectorMap) (hgrid : 0 < xSectors * ySectors)
    (hbase : 0 < b.sectorsInDistToBaseSize 0 + b.sectorsInDistToBaseSize 1) :
    (b.UpdatePressureByEnemy xSectors ySectors sectors).m_estimatedPressureByEnemies
        = min 1
            (2 * (((sectors.flatten.countP fun s => s.IsOccupiedByEnemies : Nat) : ℚ)
                  / ((xSectors * ySectors : Int) : ℚ))
              + 2 * (((sectors.flatten.countP fun s =>
                        s.IsOccupiedByEnemies && decide (s.GetDistanceToBase < 2) : Nat) : ℚ)
                  / ((b.sectorsInDistToBaseSize 0 + b.sectorsInDistToBaseSize 1 : Nat) : ℚ)))
    ∧ 0 ≤ (b.UpdatePressureByEnemy xSectors ySectors sectors).m_estimatedPressureByEnemies
    ∧ (b.UpdatePressureByEnemy xSectors ySectors sectors).m_estimatedPressureByEnemies ≤ 1
    ∧ ((xSectors * ySectors ≤ ((sectors.flatten.length : Nat) : Int)
          ∨ b.sectorsInDistToBaseSize 0 + b.sectorsInDistToBaseSize 1
              ≤ sectors.flatten.countP fun s => decide (s.GetDistanceToBase < 2)) →
        (∀ s ∈ sectors.flatten, s.IsOccupiedByEnemies = true) →
        (b.UpdatePressureByEnemy xSectors ySectors sectors).m_estimatedPressureByEnemies = 1) := by
  have hg : (0 : ℚ) < ((xSectors * ySectors : Int) : ℚ) := by exact_mod_cast hgrid
  have hn : (0 : ℚ) < ((b.sectorsInDistToBaseSize 0 + b.sectorsInDistToBaseSize 1 : Nat) : ℚ) := by
    exact_mod_cast hbase
  have hstored :
      (b.UpdatePressureByEnemy xSectors ySectors sectors).m_estimatedPressureByEnemies
        = min 1
            (2 * (((sectors.flatten.countP fun s => s.IsOccupiedByEnemies : Nat) : ℚ)
                  / ((xSectors * ySectors : Int) : ℚ))
              + 2 * (((sectors.flatten.countP fun s =>
                        s.IsOccupiedByEnemies && decide (s.GetDistanceToBase < 2) : Nat) : ℚ)
                  / ((b.sectorsInDistToBaseSize 0 + b.sectorsInDistToBaseSize 1 : Nat) : ℚ))) := by
    simp only [AAIBrain.UpdatePressureByEnemy, countSectorsOccupiedByEnemies_eq,
      Int.cast_natCast]
    rw [min_def]
    split_ifs with h1 h2 h2 <;> first | rfl | linarith
  have hocc : (0 : ℚ) ≤ ((sectors.flatten.countP fun s => s.IsOccupiedByEnemies : Nat) : ℚ) :=
    Nat.cast_nonneg _
  have hnear : (0 : ℚ) ≤ ((sectors.flatten.countP fun s =>
      s.IsOccupiedByEnemies && decide (s.GetDistanceToBase < 2) : Nat) : ℚ) := Nat.cast_nonneg _
  have h1 := div_nonneg hocc hg.le
  have h2 := div_nonneg hnear hn.le
  refine ⟨hstored, ?_, ?_, ?_⟩
  · rw [hstored]
    exact le_min (by norm_num) (by linarith)
  · rw [hstored]
    exact min_le_left _ _
  · intro hsize hall
    rw [hstored]
    apply min_eq_left
    rcases hsize with hsize | hsize
    · have hcount : (sectors.flatten.countP fun s => s.IsOccupiedByEnemies)
          = sectors.flatten.length := by
        rw [List.countP_eq_length]
        intro s hs
        exact hall s hs
      have hle : ((xSectors * ySectors : Int) : ℚ)
          ≤ ((sectors.flatten.countP fun s => s.IsOccupiedByEnemies : Nat) : ℚ) := by
        rw [hcount]
        exact_mod_cast hsize
      have hratio := (one_le_div hg).mpr hle
      linarith
    · have hcount : (sectors.flatten.countP fun s =>
            s.IsOccupiedByEnemies && decide (s.GetDistanceToBase < 2))
          = sectors.flatten.countP fun s => decide (s.GetDistanceToBase < 2) := by
        apply List.countP_congr
        intro s hs
        simp [hall s hs]
      have hle : ((b.sectorsInDistToBaseSize 0 + b.sectorsInDistToBaseSize 1 : Nat) : ℚ)
          ≤ ((sectors.flatten.countP fun s =>
              s.IsOccupiedByEnemies && decide (s.GetDistanceToBase < 2) : Nat) : ℚ) := by
        rw [hcount]
        exact_mod_cast hsize
      have hratio := (one_le_div hn).mpr hle
      linarith

/-- Instance of C1 at the fully occupied 2x2 grid `occupiedGrid`, with one base sector and
two sectors at distance `1`: the stored pressure is `1`. -/
theorem UpdatePressureByEnemy_spec_witness :
    (0 : Int) < 2 * 2
    ∧ 0 < quietBrain.sectorsInDistToBaseSize 0 + quietBrain.sectorsInDistToBaseSize 1
    ∧ (2 * 2 : Int) ≤ ((occupiedGrid.flatten.length : Nat) : Int)
    ∧ (∀ s ∈ occupiedGrid.flatten, s.IsOccupiedByEnemies = true)
    ∧ (quietBrain.UpdatePressureByEnemy 2 2 occupiedGrid).m_estimatedPressureByEnemies = 1 := by
  have hgrid : (0 : Int) < 2 * 2 := by decide
  have hbase : 0 < quietBrain.sectorsInDistToBaseSize 0 + quietBrain.sectorsInDistToBaseSize 1 := by
    decide
  have hsize : (2 * 2 : Int) ≤ ((occupiedGrid.flatten.length : Nat) : Int) := by decide
  have hall : ∀ s ∈ occupiedGrid.flatten, s.IsOccupiedByEnemies = true := by
    simp [occupiedGrid, AAISector.IsOccupiedByEnemies, initialSector]
  exact ⟨hgrid, hbase, hsize, hall,
    (UpdatePressureByEnemy_spec 2 2 quietBrain occupiedGrid hgrid hbase).2.2.2 (Or.inl hsize)
      hall⟩

/-- The sector after `UpdateThreatValues` for a destroyed unit that is not a building. -/
theorem UpdateThreatValues_unit_eq (buildTree : Int → UnitTypeProperties) (s : AAISector)
    (destroyedDefId attackerDefId : Int)
    (hunit : (buildTree destroyedDefId).isBuilding = false) :
    s.UpdateThreatValues buildTree destroyedDefId attackerDefId =
      { s with
        combats_this_game :=
          if (buildTree attackerDefId).isCombatUnit = true then
            addAt s.combats_this_game (buildTree attackerDefId).combatCategoryArrayIndex 1
          else s.combats_this_game
        m_lostUnits :=
          if (buildTree destroyedDefId).isAir = true then s.m_lostUnits else s.m_lostUnits + 1
        m_lostAirUnits :=
          if (buildTree destroyedDefId).isAir = true then s.m_lostAirUnits + 1
          else s.m_lostAirUnits } := by
  unfold AAISector.UpdateThreatValues
  cases hc : (buildTree attackerDefId).isCombatUnit <;>
    cases ha : (buildTree destroyedDefId).isAir <;> simp [hunit, hc, ha]

/-- C11: in `UpdateThreatValues`, when the destroyed unit is not a building, exactly one
lost-unit tally increases by `1.0` (`m_lostAirUnits` if the destroyed unit's movement type is
air, otherwise `m_lostUnits`) whatever the attacker's category is; `combats_this_game` at the
attacker's combat-category index increases by `1.0` if and only if the attacker is a combat
unit, and no other entry of it changes; `attacked_by_this_game` is unchanged. -/
theorem UpdateThreatValues_unit (buildTree : Int → UnitTypeProperties) (s : AAISector)
    (destroyedDefId attackerDefId : Int)
    (hunit : (buildTree destroyedDefId).isBuilding = false) :
    ((buildTree destroyedDefId).isAir = true →
        (s.UpdateThreatValues buildTree destroyedDefId attackerDefId).m_lostAirUnits
          = s.m_lostAirUnits + 1
        ∧ (s.UpdateThreatValues buildTree destroyedDefId attackerDefId).m_lostUnits
          = s.m_lostUnits)
    ∧ ((buildTree destroyedDefId).isAir = false →
        (s.UpdateThreatValues buildTree destroyedDefId attackerDefId).m_lostUnits
          = s.m_lostUnits + 1
        ∧ (s.UpdateThreatValues buildTree destroyedDefId attackerDefId).m_lostAirUnits
          = s.m_lostAirUnits)
    ∧ (∀ old, s.combats_this_game[(buildTree attackerDefId).combatCategoryArrayIndex]?
          = some old →
        ((s.UpdateThreatValues buildTree destroyedDefId
            attackerDefId).combats_this_game[(buildTree
              attackerDefId).combatCategoryArrayIndex]? = some (old + 1)
          ↔ (buildTree attackerDefId).isCombatUnit = true))
    ∧ (∀ j, j ≠ (buildTree attackerDefId).combatCategoryArrayIndex →
        (s.UpdateThreatValues buildTree destroyedDefId attackerDefId).combats_this_game[j]?
          = s.combats_this_game[j]?)
    ∧ ((buildTree attackerDefId).isCombatUnit = false →
        (s.UpdateThreatValues buildTree destroyedDefId attackerDefId).combats_this_game
          = s.combats_this_game)
    ∧ (s.UpdateThreatValues buildTree destroyedDefId attackerDefId).attacked_by_this_game
        = s.attacked_by_this_game := by
  rw [UpdateThreatValues_unit_eq buildTree s destroyedDefId attackerDefId hunit]
  refine ⟨?_, ?_, ?_, ?_, ?_, rfl⟩
  · intro hair
    simp [hair]
  · intro hair
    simp [hair]
  · intro old hold
    cases hc : (buildTree attackerDefId).isCombatUnit
    · simp [hold]
    · simp [addAt_getElem?_self, hold]
  · intro j hj
    cases hc : (buildTree attackerDefId).isCombatUnit
    · simp
    · simp only [if_true]
      exact addAt_getElem?_ne _ _ _ _ hj
  · intro hc
    simp [hc]

/-- Instance of C11 with `exampleBuildTree`: a unit that is no building and no aircraft
(id `3`) is destroyed by a combat unit of category index `1` (id `2`). -/
theorem UpdateThreatValues_unit_witness :
    (exampleBuildTree 3).isBuilding = false
    ∧ (exampleBuildTree 3).isAir = false
    ∧ ((initialSector 0 0).UpdateThreatValues exampleBuildTree 3 2).m_lostUnits
        = (initialSector 0 0).m_lostUnits + 1
    ∧ ((initialSector 0 0).UpdateThreatValues exampleBuildTree 3 2).m_lostAirUnits
        = (initialSector 0 0).m_lostAirUnits := by
  have hb : (exampleBuildTree 3).isBuilding = false := by decide
  have ha : (exampleBuildTree 3).isAir = false := by decide
  exact ⟨hb, ha, (UpdateThreatValues_unit exampleBuildTree (initialSector 0 0) 3 2 hb).2.1 ha⟩

/-- The accumulation of `GetTotalEnemyCombatUnits` is the sum of the list. -/
theorem foldl_add_eq_sum (l : List ℚ) (init : ℚ) :
    l.foldl (fun sum value => sum + value) init = init + l.sum := by
  induction l generalizing init with
  | nil => simp
  | cons x xs ih => rw [List.foldl_cons, ih, List.sum_cons, add_assoc]

/-- The value of `IsOccupiedByEnemies` in terms of the three quantities it reads. -/
theorem IsOccupiedByEnemies_eq (s : AAISector) :
    s.IsOccupiedByEnemies =
      (decide (s.m_enemyCombatUnits.sum > 1 / 10) || decide (s.enemy_structures > 1 / 100)
        || decide (s.enemies_on_radar > 0)) := by
  simp only [AAISector.IsOccupiedByEnemies, AAISector.GetTotalEnemyCombatUnits,
    foldl_add_eq_sum, zero_add]

/-- C12: `IsOccupiedByEnemies` returns true if and only if the sum of all spotted enemy combat
unit counts exceeds `0.1`, or `enemy_structures` exceeds `0.01`, or `enemies_on_radar` is
greater than `0`. -/
theorem IsOccupiedByEnemies_iff (s : AAISector) :
    s.IsOccupiedByEnemies = true ↔
      s.m_enemyCombatUnits.sum > 1 / 10 ∨ s.enemy_structures > 1 / 100
        ∨ s.enemies_on_radar > 0 := by
  rw [IsOccupiedByEnemies_eq]
  simp only [Bool.or_eq_true, decide_eq_true_eq, or_assoc]

/-- A sector with a radar contact is still occupied by enemies right after
`ResetSpottedEnemiesData`, which clears the spotted combat units only: C13 as stated fails
at this sector. -/
theorem IsOccupiedByEnemies_after_reset_counterexample :
    (AAISector.ResetSpottedEnemiesData
      { initialSector 0 0 with enemies_on_radar := 1 }).IsOccupiedByEnemies = true := by
  simp [AAISector.IsOccupiedByEnemies, AAISector.ResetSpottedEnemiesData, initialSector]

/-- The sum of a list of zeros. -/
theorem sum_map_zero (l : List ℚ) : (l.map fun _ => (0 : ℚ)).sum = 0 := by
  induction l with
  | nil => rfl
  | cons x xs ih => simp [ih]

/-- A `QuietEvent` leaves the three quantities read by `IsOccupiedByEnemies` as they are. -/
theorem applyQuietEvent_frame (buildTree : Int → UnitTypeProperties) (s : AAISector)
    (e : QuietEvent) :
    (s.applyQuietEvent buildTree e).m_enemyCombatUnits = s.m_enemyCombatUnits
    ∧ (s.applyQuietEvent buildTree e).enemy_structures = s.enemy_structures
    ∧ (s.applyQuietEvent buildTree e).enemies_on_radar = s.enemies_on_radar := by
  cases e with
  | Update => exact ⟨rfl, rfl, rfl⟩
  | ResetLocalCombatPower => exact ⟨rfl, rfl, rfl⟩
  | UpdateThreatValues d a =>
    simp only [AAISector.applyQuietEvent]
    cases hb : (buildTree d).isBuilding
    · rw [UpdateThreatValues_unit_eq buildTree s d a hb]
      exact ⟨rfl, rfl, rfl⟩
    · unfold AAISector.UpdateThreatValues
      cases hc : (buildTree a).isCombatUnit <;> simp [hb, hc]

/-- A sequence of `QuietEvent`s leaves the three quantities read by `IsOccupiedByEnemies` as
they are. -/
theorem applyQuietEvents_frame (buildTree : Int → UnitTypeProperties) (events : List QuietEvent)
    (s : AAISector) :
    (events.foldl (AAISector.applyQuietEvent buildTree) s).m_enemyCombatUnits
        = s.m_enemyCombatUnits
    ∧ (events.foldl (AAISector.applyQuietEvent buildTree) s).enemy_structures
        = s.enemy_structures
    ∧ (events.foldl (AAISector.applyQuietEvent buildTree) s).enemies_on_radar
        = s.enemies_on_radar := by
  induction events generalizing s with
  | nil => exact ⟨rfl, rfl, rfl⟩
  | cons e rest ih =>
    rw [List.foldl_cons]
    obtain ⟨h1, h2, h3⟩ := ih (s.applyQuietEvent buildTree e)
    obtain ⟨g1, g2, g3⟩ := applyQuietEvent_frame buildTree s e
    exact ⟨h1.trans g1, h2.trans g2, h3.trans g3⟩

/-- C13 (amended): for a sector without a structure or radar signal (`enemy_structures` at
most `0.01` and `enemies_on_radar` at most `0`), `IsOccupiedByEnemies` is false immediately
after `ResetSpottedEnemiesData`, and it stays false under every sequence of `Update`,
`ResetLocalCombatPower` and `UpdateThreatValues` calls that follows. -/
theorem IsOccupiedByEnemies_after_reset (buildTree : Int → UnitTypeProperties) (s : AAISector)
    (hstructures : s.enemy_structures ≤ 1 / 100) (hradar : s.enemies_on_radar ≤ 0)
    (events : List QuietEvent) :
    s.ResetSpottedEnemiesData.IsOccupiedByEnemies = false
    ∧ (events.foldl (AAISector.applyQuietEvent buildTree)
        s.ResetSpottedEnemiesData).IsOccupiedByEnemies = false := by
  have hquiet : ∀ t : AAISector, t.m_enemyCombatUnits = s.ResetSpottedEnemiesData.m_enemyCombatUnits →
      t.enemy_structures = s.enemy_structures → t.enemies_on_radar = s.enemies_on_radar →
      t.IsOccupiedByEnemies = false := by
    intro t h1 h2 h3
    rw [Bool.eq_false_iff]
    intro hocc
    rw [IsOccupiedByEnemies_eq, h1, h2, h3] at hocc
    simp only [AAISector.ResetSpottedEnemiesData, sum_map_zero, Bool.or_eq_true,
      decide_eq_true_eq, or_assoc] at hocc
    rcases hocc with h | h | h
    · norm_num at h
    · exact absurd h (not_lt.mpr hstructures)
    · exact absurd h (not_lt.mpr hradar)
  obtain ⟨h1, h2, h3⟩ := applyQuietEvents_frame buildTree events s.ResetSpottedEnemiesData
  exact ⟨hquiet _ rfl rfl rfl, hquiet _ h1 h2 h3⟩

/-- Instance of C13 (amended): a sector with two spotted ground units and neither structures
nor radar contacts; after the reset it is lost a building and a unit and is updated. -/
theorem IsOccupiedByEnemies_after_reset_witness :
    ({ initialSector 0 0 with m_enemyCombatUnits := [2, 0, 0, 0, 0] } : AAISector).enemy_structures
        ≤ 1 / 100
    ∧ ({ initialSector 0 0 with m_enemyCombatUnits := [2, 0, 0, 0, 0] }
        : AAISector).enemies_on_radar ≤ 0
    ∧ ({ initialSector 0 0 with m_enemyCombatUnits := [2, 0, 0, 0, 0] }
        : AAISector).IsOccupiedByEnemies = true
    ∧ ([QuietEvent.UpdateThreatValues 1 2, QuietEvent.UpdateThreatValues 3 2,
          QuietEvent.ResetLocalCombatPower, QuietEvent.Update].foldl
        (AAISector.applyQuietEvent exampleBuildTree)
        (AAISector.ResetSpottedEnemiesData
          { initialSector 0 0 with m_enemyCombatUnits := [2, 0, 0, 0, 0] })).IsOccupiedByEnemies
      = false := by
  have hs : ({ initialSector 0 0 with m_enemyCombatUnits := [2, 0, 0, 0, 0] }
      : AAISector).enemy_structures ≤ 1 / 100 := by
    norm_num [initialSector]
  have hr : ({ initialSector 0 0 with m_enemyCombatUnits := [2, 0, 0, 0, 0] }
      : AAISector).enemies_on_radar ≤ 0 := by
    simp [initialSector]
  have hocc : ({ initialSector 0 0 with m_enemyCombatUnits := [2, 0, 0, 0, 0] }
      : AAISector).IsOccupiedByEnemies = true := by
    rw [IsOccupiedByEnemies_eq]
    norm_num
  exact ⟨hs, hr, hocc, (IsOccupiedByEnemies_after_reset exampleBuildTree _ hs hr _).2⟩

/-- C14: for a sector at grid cell `(x, y)` of the map, a category `c` and a weight `w`,
`GetEnemyAreaCombatPowerVs(c, w)` equals the sector's own `enemy_mobile_combat_power[c]` plus
`w` times the sum of `enemy_mobile_combat_power[c]` over those of the four cells `(x-1,y)`,
`(x+1,y)`, `(x,y-1)`, `(x,y+1)` that lie inside the grid: all four for a sector that is not on
the map border, only the existing ones otherwise.  No other cell (so no diagonal cell)
enters: two maps of the same dimensions that agree on the four adjacent cells give the same
result.  With `w = 0` the result is the sector's own value. -/
theorem GetEnemyAreaCombatPowerVs_spec (map : AAIMap) (s : AAISector) (c : Nat) (w : ℚ)
    (hx : 0 ≤ s.x ∧ s.x < map.xSectors) (hy : 0 ≤ s.y ∧ s.y < map.ySectors) :
    s.GetEnemyAreaCombatPowerVs map c w
        = s.enemy_mobile_combat_power.getD c 0
          + w * ((adjacentCellsInGrid map.xSectors map.ySectors s.x s.y).map fun cell =>
              map.enemyMobileCombatPowerAt cell.1 cell.2 c).sum
    ∧ (0 < s.x → s.x < map.xSectors - 1 → 0 < s.y → s.y < map.ySectors - 1 →
        s.GetEnemyAreaCombatPowerVs map c w
          = s.enemy_mobile_combat_power.getD c 0
            + w * (map.enemyMobileCombatPowerAt (s.x - 1) s.y c
                + map.enemyMobileCombatPowerAt (s.x + 1) s.y c
                + map.enemyMobileCombatPowerAt s.x (s.y - 1) c
                + map.enemyMobileCombatPowerAt s.x (s.y + 1) c))
    ∧ (∀ other : AAIMap, other.xSectors = map.xSectors → other.ySectors = map.ySectors →
        (∀ cell ∈ adjacentCells s.x s.y,
          other.enemyMobileCombatPowerAt cell.1 cell.2 c
            = map.enemyMobileCombatPowerAt cell.1 cell.2 c) →
        s.GetEnemyAreaCombatPowerVs other c w = s.GetEnemyAreaCombatPowerVs map c w)
    ∧ s.GetEnemyAreaCombatPowerVs map c 0 = s.enemy_mobile_combat_power.getD c 0 := by
  obtain ⟨hx0, hx1⟩ := hx
  obtain ⟨hy0, hy1⟩ := hy
  have d1 : decide (0 ≤ s.x - 1 ∧ s.x - 1 < map.xSectors ∧ 0 ≤ s.y ∧ s.y < map.ySectors)
      = decide (s.x > 0) := by
    rw [decide_eq_decide]; omega
  have d2 : decide (0 ≤ s.x + 1 ∧ s.x + 1 < map.xSectors ∧ 0 ≤ s.y ∧ s.y < map.ySectors)
      = decide (s.x < map.xSectors - 1) := by
    rw [decide_eq_decide]; omega
  have d3 : decide (0 ≤ s.x ∧ s.x < map.xSectors ∧ 0 ≤ s.y - 1 ∧ s.y - 1 < map.ySectors)
      = decide (s.y > 0) := by
    rw [decide_eq_decide]; omega
  have d4 : decide (0 ≤ s.x ∧ s.x < map.xSectors ∧ 0 ≤ s.y + 1 ∧ s.y + 1 < map.ySectors)
      = decide (s.y < map.ySectors - 1) := by
    rw [decide_eq_decide]; omega
  refine ⟨?_, ?_, ?_, ?_⟩
  · simp only [AAISector.GetEnemyAreaCombatPowerVs, adjacentCellsInGrid, adjacentCells,
      List.filter, d1, d2, d3, d4]
    by_cases h1 : s.x > 0 <;> by_cases h2 : s.x < map.xSectors - 1 <;>
      by_cases h3 : s.y > 0 <;> by_cases h4 : s.y < map.ySectors - 1 <;>
      simp [h1, h2, h3, h4] <;> ring
  · intro h1 h2 h3 h4
    simp only [AAISector.GetEnemyAreaCombatPowerVs]
    simp [h1, h2, h3, h4]
    ring
  · intro other hxs hys hcells
    simp only [adjacentCells, List.mem_cons, List.mem_singleton, List.not_mem_nil, or_false,
      forall_eq_or_imp, forall_eq] at hcells
    obtain ⟨c1, c2, c3, c4⟩ := hcells
    simp only [AAISector.GetEnemyAreaCombatPowerVs, hxs, hys, c1, c2, c3, c4]
  · simp [AAISector.GetEnemyAreaCombatPowerVs]

/-- Instance of C14 on `exampleMap`: the centre sector `(1,1)` adds half of its four
neighbours `2`, `8`, `4`, `6` to its own `5`; the corner sector `(0,0)` adds half of its two
existing neighbours `4` and `2` to its own `1`. -/
theorem GetEnemyAreaCombatPowerVs_spec_witness :
    (0 ≤ (powerSector 1 1 5).x ∧ (powerSector 1 1 5).x < exampleMap.xSectors)
    ∧ (0 ≤ (powerSector 1 1 5).y ∧ (powerSector 1 1 5).y < exampleMap.ySectors)
    ∧ (0 < (powerSector 1 1 5).x ∧ (powerSector 1 1 5).x < exampleMap.xSectors - 1)
    ∧ (0 < (powerSector 1 1 5).y ∧ (powerSector 1 1 5).y < exampleMap.ySectors - 1)
    ∧ (powerSector 1 1 5).GetEnemyAreaCombatPowerVs exampleMap 0 (1 / 2)
        = 5 + 1 / 2 * (2 + 8 + 4 + 6)
    ∧ (0 ≤ (powerSector 0 0 1).x ∧ (powerSector 0 0 1).x < exampleMap.xSectors)
    ∧ (0 ≤ (powerSector 0 0 1).y ∧ (powerSector 0 0 1).y < exampleMap.ySectors)
    ∧ (powerSector 0 0 1).GetEnemyAreaCombatPowerVs exampleMap 0 (1 / 2)
        = 1 + 1 / 2 * ([4, 2] : List ℚ).sum := by
  have hx : 0 ≤ (powerSector 1 1 5).x ∧ (powerSector 1 1 5).x < exampleMap.xSectors := by
    decide
  have hy : 0 ≤ (powerSector 1 1 5).y ∧ (powerSector 1 1 5).y < exampleMap.ySectors := by
    decide
  have hxi : 0 < (powerSector 1 1 5).x ∧ (powerSector 1 1 5).x < exampleMap.xSectors - 1 := by
    decide
  have hyi : 0 < (powerSector 1 1 5).y ∧ (powerSector 1 1 5).y < exampleMap.ySectors - 1 := by
    decide
  have hcx : 0 ≤ (powerSector 0 0 1).x ∧ (powerSector 0 0 1).x < exampleMap.xSectors := by
    decide
  have hcy : 0 ≤ (powerSector 0 0 1).y ∧ (powerSector 0 0 1).y < exampleMap.ySectors := by
    decide
  exact ⟨hx, hy, hxi, hyi,
    (GetEnemyAreaCombatPowerVs_spec exampleMap (powerSector 1 1 5) 0 (1 / 2) hx hy).2.1
      hxi.1 hxi.2 hyi.1 hyi.2,
    hcx, hcy,
    (GetEnemyAreaCombatPowerVs_spec exampleMap (powerSector 0 0 1) 0 (1 / 2) hcx hcy).1⟩

/-- Writing the entry of `m_sectorsInDistToBase[0]` back leaves it as it is. -/
theorem getD_set_getD (l : List (List (Int × Int))) :
    (l.set 0 (l.getD 0 [])).getD 0 [] = l.getD 0 [] := by
  cases l <;> rfl

/-- C15: `SetBase(true)` on a cell whose `team_sector_map` entry is already `>= 0` returns
false and leaves the sector (so `distance_to_base` and `importance_this_game`),
`team_sector_map` and the brain's free-metal-spots-in-base flag unchanged;
`AssignSectorToBase(sector, true)` then leaves the list of base sectors unchanged (for every
`UpdateNeighbouringSectors` that does not touch the list of distance `0`). -/
theorem SetBase_occupied (myTeam : Int) (MAX_SECTOR_IMPORTANCE : ℚ) (s : AAISector)
    (team_sector_map : List (List Int)) (m_freeMetalSpotsInBase : Bool) (owner : Int)
    (hcell : cellAt team_sector_map s.x s.y = some owner) (howner : 0 ≤ owner) :
    (s.SetBase myTeam MAX_SECTOR_IMPORTANCE team_sector_map m_freeMetalSpotsInBase
        true).successful = false
    ∧ (s.SetBase myTeam MAX_SECTOR_IMPORTANCE team_sector_map m_freeMetalSpotsInBase
        true).sector = s
    ∧ (s.SetBase myTeam MAX_SECTOR_IMPORTANCE team_sector_map m_freeMetalSpotsInBase
        true).sector.distance_to_base = s.distance_to_base
    ∧ (s.SetBase myTeam MAX_SECTOR_IMPORTANCE team_sector_map m_freeMetalSpotsInBase
        true).sector.importance_this_game = s.importance_this_game
    ∧ (s.SetBase myTeam MAX_SECTOR_IMPORTANCE team_sector_map m_freeMetalSpotsInBase
        true).team_sector_map = team_sector_map
    ∧ (s.SetBase myTeam MAX_SECTOR_IMPORTANCE team_sector_map m_freeMetalSpotsInBase
        true).m_freeMetalSpotsInBase = m_freeMetalSpotsInBase
    ∧ (∀ (UpdateNeighbouringSectors :
          AAIMap → List (List (Int × Int)) → AAIMap × List (List (Int × Int)))
        (b : AAIBrain) (map : AAIMap) (sector : Int × Int),
        (∀ m l, (UpdateNeighbouringSectors m l).2.getD 0 [] = l.getD 0 []) →
        cellAt map.sector sector.1 sector.2 = some s →
        map.team_sector_map = team_sector_map →
        (AAIBrain.AssignSectorToBase myTeam MAX_SECTOR_IMPORTANCE UpdateNeighbouringSectors
            b map sector true).1.m_sectorsInDistToBase.getD 0 []
          = b.m_sectorsInDistToBase.getD 0 []) := by
  have hres : s.SetBase myTeam MAX_SECTOR_IMPORTANCE team_sector_map m_freeMetalSpotsInBase
      true = { successful := false, sector := s, team_sector_map := team_sector_map,
               m_freeMetalSpotsInBase := m_freeMetalSpotsInBase } := by
    simp [AAISector.SetBase, hcell, howner]
  refine ⟨by rw [hres], by rw [hres], by rw [hres], by rw [hres], by rw [hres], by rw [hres],
    ?_⟩
  intro U b map sector hU hs hmap
  have hsucc : (s.SetBase myTeam MAX_SECTOR_IMPORTANCE map.team_sector_map
      b.m_freeMetalSpotsInBase true).successful = false := by
    simp [AAISector.SetBase, hmap, hcell, howner]
  simp only [AAIBrain.AssignSectorToBase, hs, hsucc, AAIBrain.UpdateCenterOfBase,
    Bool.false_eq_true, if_false]
  split_ifs <;> simp only [hU, getD_set_getD]

/-- Instance of C15: on `claimedMap` the centre cell `(1,1)` belongs to team `0`; team `1`
cannot add it to its base, and the base list of its brain stays `[(0,0)]`. -/
theorem SetBase_occupied_witness :
    cellAt claimedMap.team_sector_map (powerSector 1 1 5).x (powerSector 1 1 5).y = some 0
    ∧ ((powerSector 1 1 5).SetBase 1 10 claimedMap.team_sector_map false true).successful
        = false
    ∧ (∀ m l, (keepNeighbouringSectors m l).2.getD 0 [] = l.getD 0 [])
    ∧ cellAt claimedMap.sector 1 1 = some (powerSector 1 1 5)
    ∧ (AAIBrain.AssignSectorToBase 1 10 keepNeighbouringSectors quietBrain claimedMap (1, 1)
          true).1.m_sectorsInDistToBase.getD 0 []
        = [(0, 0)] := by
  have hcell : cellAt claimedMap.team_sector_map (powerSector 1 1 5).x (powerSector 1 1 5).y
      = some 0 := by rfl
  have hU : ∀ m l, (keepNeighbouringSectors m l).2.getD 0 [] = l.getD 0 [] := fun _ _ => rfl
  have hs : cellAt claimedMap.sector 1 1 = some (powerSector 1 1 5) := by rfl
  exact ⟨hcell,
    (SetBase_occupied 1 10 (powerSector 1 1 5) claimedMap.team_sector_map false 0 hcell
      (le_refl 0)).1,
    hU, hs,
    (SetBase_occupied 1 10 (powerSector 1 1 5) claimedMap.team_sector_map false 0 hcell
      (le_refl 0)).2.2.2.2.2.2 keepNeighbouringSectors quietBrain claimedMap (1, 1) hU hs rfl⟩

/-- Reading back an entry of a two-dimensional vector that has just been written. -/
theorem cellAt_setCell_self {α : Type} (grid : List (List α)) (x y : Int) (old value : α)
    (h : cellAt grid x y = some old) : cellAt (setCell grid x y value) x y = some value := by
  unfold cellAt at h
  unfold cellAt setCell
  by_cases hxy : 0 ≤ x ∧ 0 ≤ y
  · rw [if_pos hxy] at h
    rw [if_pos hxy, if_pos hxy]
    cases hcol : grid[x.toNat]? with
    | none =>
      rw [hcol] at h
      cases h
    | some column =>
      rw [hcol] at h
      have hy : y.toNat < column.length := by
        obtain ⟨hlt, -⟩ := List.getElem?_eq_some.mp h
        exact hlt
      have hx : x.toNat < grid.length := by
        obtain ⟨hlt, -⟩ := List.getElem?_eq_some.mp hcol
        exact hlt
      simp only [List.getElem?_set_self hx, Option.bind]
      exact List.getElem?_set_self hy
  · rw [if_neg hxy] at h
    cases h

/-- The state after the calls `SetBase(true)` by team `0`, `SetBase(false)` by team `1` and
`SetBase(true)` by team `1` on the same cell: both teams hold the cell as base territory
(`distance_to_base = 0`), and the shared table names team `1` only.  C16 as stated fails
for this sequence. -/
theorem SetBase_sequence_counterexample :
    ((([⟨0, true⟩, ⟨1, false⟩, ⟨1, true⟩] : List SetBaseCall).foldl (applySetBaseCall 10)
        freshClaims).sectors 0).distance_to_base = 0
    ∧ ((([⟨0, true⟩, ⟨1, false⟩, ⟨1, true⟩] : List SetBaseCall).foldl (applySetBaseCall 10)
        freshClaims).sectors 1).distance_to_base = 0
    ∧ cellAt (([⟨0, true⟩, ⟨1, false⟩, ⟨1, true⟩] : List SetBaseCall).foldl
        (applySetBaseCall 10) freshClaims).team_sector_map 1 1 = some 1 := by
  refine ⟨by rfl, by rfl, by rfl⟩

/-- Function `SetBase` never moves the sector to another cell. -/
theorem SetBase_sector_cell (myTeam : Int) (MAX_SECTOR_IMPORTANCE : ℚ) (s : AAISector)
    (team_sector_map : List (List Int)) (flag base : Bool) :
    (s.SetBase myTeam MAX_SECTOR_IMPORTANCE team_sector_map flag base).sector.x = s.x
    ∧ (s.SetBase myTeam MAX_SECTOR_IMPORTANCE team_sector_map flag base).sector.y = s.y := by
  unfold AAISector.SetBase
  split_ifs <;> exact ⟨rfl, rfl⟩

/-- The sector and the shared table after a rejected `SetBase(true)`. -/
theorem SetBase_true_occupied (myTeam : Int) (MAX_SECTOR_IMPORTANCE : ℚ) (s : AAISector)
    (team_sector_map : List (List Int)) (flag : Bool) (owner : Int)
    (hcell : cellAt team_sector_map s.x s.y = some owner) (howner : 0 ≤ owner) :
    (s.SetBase myTeam MAX_SECTOR_IMPORTANCE team_sector_map flag true).sector = s
    ∧ (s.SetBase myTeam MAX_SECTOR_IMPORTANCE team_sector_map flag true).team_sector_map
        = team_sector_map := by
  simp [AAISector.SetBase, hcell, howner]

/-- The sector and the shared table after an accepted `SetBase(true)`. -/
theorem SetBase_true_free (myTeam : Int) (MAX_SECTOR_IMPORTANCE : ℚ) (s : AAISector)
    (team_sector_map : List (List Int)) (flag : Bool) (owner : Int)
    (hcell : cellAt team_sector_map s.x s.y = some owner) (howner : ¬ 0 ≤ owner) :
    (s.SetBase myTeam MAX_SECTOR_IMPORTANCE team_sector_map flag true).sector.distance_to_base
        = 0
    ∧ (s.SetBase myTeam MAX_SECTOR_IMPORTANCE team_sector_map flag true).team_sector_map
        = setCell team_sector_map s.x s.y myTeam := by
  simp [AAISector.SetBase, hcell, howner]

/-- The sector and the shared table after `SetBase(false)`. -/
theorem SetBase_false (myTeam : Int) (MAX_SECTOR_IMPORTANCE : ℚ) (s : AAISector)
    (team_sector_map : List (List Int)) (flag : Bool) :
    (s.SetBase myTeam MAX_SECTOR_IMPORTANCE team_sector_map flag false).sector.distance_to_base
        = 1
    ∧ (s.SetBase myTeam MAX_SECTOR_IMPORTANCE team_sector_map flag false).team_sector_map
        = setCell team_sector_map s.x s.y (-1) := by
  simp [AAISector.SetBase]

/-- One `SetBase` call keeps all sectors on the cell and the cell inside the shared table. -/
theorem applySetBaseCall_forCell (MAX_SECTOR_IMPORTANCE : ℚ) (w : CellClaims) (x y : Int)
    (call : SetBaseCall) (hcell : w.forCell x y) :
    (applySetBaseCall MAX_SECTOR_IMPORTANCE w call).forCell x y := by
  obtain ⟨hxy, owner, howner⟩ := hcell
  obtain ⟨hx, hy⟩ := hxy call.team
  rw [← hx, ← hy] at howner
  constructor
  · intro team
    simp only [applySetBaseCall]
    by_cases ht : team = call.team
    · rw [if_pos ht]
      obtain ⟨h1, h2⟩ := SetBase_sector_cell (call.team : Int) MAX_SECTOR_IMPORTANCE
        (w.sectors call.team) w.team_sector_map false call.base
      rw [h1, h2]
      exact ⟨hx, hy⟩
    · rw [if_neg ht]
      exact hxy team
  · simp only [applySetBaseCall]
    rw [← hx, ← hy]
    cases hbase : call.base with
    | true =>
      by_cases hocc : 0 ≤ owner
      · rw [(SetBase_true_occupied _ _ _ _ _ owner howner hocc).2]
        exact ⟨owner, howner⟩
      · rw [(SetBase_true_free _ _ _ _ _ owner howner hocc).2]
        exact ⟨_, cellAt_setCell_self _ _ _ _ _ howner⟩
    | false =>
      rw [(SetBase_false _ _ _ _ _).2]
      exact ⟨_, cellAt_setCell_self _ _ _ _ _ howner⟩

/-- One `SetBase` call keeps the shared table consistent with the holders, provided a
`SetBase(false)` call is made by a team that holds the cell. -/
theorem applySetBaseCall_ownerConsistent (MAX_SECTOR_IMPORTANCE : ℚ) (w : CellClaims)
    (x y : Int) (call : SetBaseCall) (hcell : w.forCell x y) (hinv : w.ownerConsistent x y)
    (hholder : call.base = false → (w.sectors call.team).distance_to_base = 0) :
    (applySetBaseCall MAX_SECTOR_IMPORTANCE w call).ownerConsistent x y := by
  obtain ⟨hxy, owner, howner⟩ := hcell
  obtain ⟨hx, hy⟩ := hxy call.team
  have howner0 := howner
  rw [← hx, ← hy] at howner
  intro team hteam
  simp only [applySetBaseCall] at hteam ⊢
  cases hbase : call.base with
  | true =>
    rw [hbase] at hteam
    by_cases hocc : 0 ≤ owner
    · obtain ⟨e1, e2⟩ := SetBase_true_occupied (call.team : Int) MAX_SECTOR_IMPORTANCE
        (w.sectors call.team) w.team_sector_map false owner howner hocc
      rw [e2]
      by_cases ht : team = call.team
      · rw [if_pos ht, e1] at hteam
        rw [ht]
        exact hinv call.team hteam
      · rw [if_neg ht] at hteam
        exact hinv team hteam
    · obtain ⟨e1, e2⟩ := SetBase_true_free (call.team : Int) MAX_SECTOR_IMPORTANCE
        (w.sectors call.team) w.team_sector_map false owner howner hocc
      rw [e2]
      by_cases ht : team = call.team
      · rw [ht, ← hx, ← hy]
        exact cellAt_setCell_self _ _ _ _ _ howner
      · rw [if_neg ht] at hteam
        have h := hinv team hteam
        rw [howner0] at h
        have hown : owner = (team : Int) := Option.some.inj h
        exact absurd (hown ▸ Int.natCast_nonneg team) hocc
  | false =>
    rw [hbase] at hteam
    have hheld := hholder hbase
    obtain ⟨e1, e2⟩ := SetBase_false (call.team : Int) MAX_SECTOR_IMPORTANCE
      (w.sectors call.team) w.team_sector_map false
    by_cases ht : team = call.team
    · rw [if_pos ht, e1] at hteam
      exact absurd hteam (by decide)
    · rw [if_neg ht] at hteam
      have h1 := hinv team hteam
      have h2 := hinv call.team hheld
      rw [h1] at h2
      have heq : (team : Int) = (call.team : Int) := Option.some.inj h2
      exact absurd (Int.ofNat.inj heq) ht

/-- A sequence of `SetBase` calls in which every `SetBase(false)` is made by a holder keeps
the shared table consistent with the holders. -/
theorem foldl_applySetBaseCall_ownerConsistent (MAX_SECTOR_IMPORTANCE : ℚ) (x y : Int)
    (calls : List SetBaseCall) (w : CellClaims) (hcell : w.forCell x y)
    (hinv : w.ownerConsistent x y) (hcalls : removalsByHolder MAX_SECTOR_IMPORTANCE w calls) :
    (calls.foldl (applySetBaseCall MAX_SECTOR_IMPORTANCE) w).ownerConsistent x y := by
  induction calls generalizing w with
  | nil => exact hinv
  | cons call rest ih =>
    obtain ⟨hholder, hrest⟩ := hcalls
    rw [List.foldl_cons]
    exact ih _ (applySetBaseCall_forCell MAX_SECTOR_IMPORTANCE w x y call hcell)
      (applySetBaseCall_ownerConsistent MAX_SECTOR_IMPORTANCE w x y call hcell hinv hholder)
      hrest

/-- C16 (amended): across every sequence of `SetBase(true)` calls made by any teams and
`SetBase(false)` calls made by a team that holds the cell at the time of the call (its sector
has `distance_to_base = 0`), on the same grid cell `(x, y)` and starting from a consistent
state, one team at most holds the cell as base territory at a time: whenever a team's sector
for the cell has `distance_to_base = 0`, the shared `team_sector_map[x][y]` equals that team's
id, so no two teams have `distance_to_base = 0` for the same cell. -/
theorem SetBase_sequence_one_holder (MAX_SECTOR_IMPORTANCE : ℚ) (x y : Int)
    (calls : List SetBaseCall) (w : CellClaims) (hcell : w.forCell x y)
    (hinv : w.ownerConsistent x y) (hcalls : removalsByHolder MAX_SECTOR_IMPORTANCE w calls) :
    (∀ team,
        ((calls.foldl (applySetBaseCall MAX_SECTOR_IMPORTANCE) w).sectors team).distance_to_base
          = 0 →
        cellAt (calls.foldl (applySetBaseCall MAX_SECTOR_IMPORTANCE) w).team_sector_map x y
          = some (team : Int))
    ∧ (∀ team other,
        ((calls.foldl (applySetBaseCall MAX_SECTOR_IMPORTANCE) w).sectors team).distance_to_base
          = 0 →
        ((calls.foldl (applySetBaseCall MAX_SECTOR_IMPORTANCE) w).sectors other).distance_to_base
          = 0 →
        team = other) := by
  have h := foldl_applySetBaseCall_ownerConsistent MAX_SECTOR_IMPORTANCE x y calls w hcell hinv
    hcalls
  refine ⟨h, ?_⟩
  intro team other h1 h2
  have e1 := h team h1
  have e2 := h other h2
  rw [e1] at e2
  exact Int.ofNat.inj (Option.some.inj e2)

/-- Instance of C16 (amended) on the centre cell of `exampleMap`: team `0` takes the cell,
team `1` is rejected, team `0` gives the cell up and team `1` takes it; at the end team `1`
holds it and team `0` does not. -/
theorem SetBase_sequence_one_holder_witness :
    freshClaims.forCell 1 1
    ∧ freshClaims.ownerConsistent 1 1
    ∧ removalsByHolder 10 freshClaims [⟨0, true⟩, ⟨1, true⟩, ⟨0, false⟩, ⟨1, true⟩]
    ∧ ((([⟨0, true⟩, ⟨1, true⟩, ⟨0, false⟩, ⟨1, true⟩] : List SetBaseCall).foldl
          (applySetBaseCall 10) freshClaims).sectors 1).distance_to_base = 0
    ∧ cellAt (([⟨0, true⟩, ⟨1, true⟩, ⟨0, false⟩, ⟨1, true⟩] : List SetBaseCall).foldl
          (applySetBaseCall 10) freshClaims).team_sector_map 1 1 = some ((1 : Nat) : Int) := by
  have hcell : freshClaims.forCell 1 1 := ⟨fun _ => ⟨rfl, rfl⟩, -1, by rfl⟩
  have hinv : freshClaims.ownerConsistent 1 1 := by
    intro team hteam
    have hfresh : (initialSector 1 1).distance_to_base ≠ 0 := by decide
    exact absurd hteam hfresh
  have hcalls : removalsByHolder 10 freshClaims
      [⟨0, true⟩, ⟨1, true⟩, ⟨0, false⟩, ⟨1, true⟩] := by
    refine ⟨fun h => absurd h (by decide), fun h => absurd h (by decide), fun _ => by rfl,
      fun h => absurd h (by decide), trivial⟩
  have hheld : ((([⟨0, true⟩, ⟨1, true⟩, ⟨0, false⟩, ⟨1, true⟩] : List SetBaseCall).foldl
      (applySetBaseCall 10) freshClaims).sectors 1).distance_to_base = 0 := by rfl
  exact ⟨hcell, hinv, hcalls, hheld,
    (SetBase_sequence_one_holder 10 1 1 _ freshClaims hcell hinv hcalls).1 1 hheld⟩

/-- The spot found by the loop of `GetFreeMetalSpot` is unoccupied and every spot before it
in the list is occupied. -/
theorem firstFreeMetalSpot_some (spots : List AAIMetalSpot) (spot : AAIMetalSpot)
    (h : AAISector.firstFreeMetalSpot spots = some spot) :
    spot.occupied = false
    ∧ ∃ before after, spots = before ++ spot :: after ∧ ∀ p ∈ before, p.occupied = true := by
  induction spots with
  | nil => cases h
  | cons first rest ih =>
    unfold AAISector.firstFreeMetalSpot at h
    cases hocc : first.occupied with
    | false =>
      simp only [hocc, Bool.not_false, if_true, Option.some.injEq] at h
      subst h
      exact ⟨hocc, [], rest, rfl, by simp⟩
    | true =>
      simp only [hocc, Bool.not_true, Bool.false_eq_true, if_false] at h
      obtain ⟨hfree, before, after, hsplit, hbefore⟩ := ih h
      refine ⟨hfree, first :: before, after, by rw [hsplit]; rfl, ?_⟩
      intro p hp
      rcases List.mem_cons.mp hp with hp | hp
      · rw [hp]; exact hocc
      · exact hbefore p hp

/-- The loop of `GetFreeMetalSpot` finds nothing exactly when every spot is occupied. -/
theorem firstFreeMetalSpot_none (spots : List AAIMetalSpot) :
    AAISector.firstFreeMetalSpot spots = none ↔ ∀ spot ∈ spots, spot.occupied = true := by
  induction spots with
  | nil => simp [AAISector.firstFreeMetalSpot]
  | cons first rest ih =>
    unfold AAISector.firstFreeMetalSpot
    cases hocc : first.occupied with
    | false => simp [hocc]
    | true => simp [hocc, ih]

/-- C17: `GetFreeMetalSpot` returns the first metal spot in list order whose occupied flag is
false, and returns null if and only if every metal spot of the sector is occupied (also when
the sector has no metal spots); for a sector with two spots of which one is occupied it
returns the unoccupied one. -/
theorem GetFreeMetalSpot_spec (s : AAISector) :
    (∀ spot, s.GetFreeMetalSpot = some spot →
      spot.occupied = false
      ∧ ∃ before after, s.metalSpots = before ++ spot :: after
          ∧ ∀ p ∈ before, p.occupied = true)
    ∧ (s.GetFreeMetalSpot = none ↔ ∀ spot ∈ s.metalSpots, spot.occupied = true)
    ∧ (s.metalSpots = [] → s.GetFreeMetalSpot = none)
    ∧ (∀ first second, s.metalSpots = [first, second] → first.occupied = true →
        second.occupied = false → s.GetFreeMetalSpot = some second)
    ∧ (∀ first second, s.metalSpots = [first, second] → first.occupied = false →
        second.occupied = true → s.GetFreeMetalSpot = some first) := by
  refine ⟨fun spot h => firstFreeMetalSpot_some s.metalSpots spot h,
    firstFreeMetalSpot_none s.metalSpots, ?_, ?_, ?_⟩
  · intro h
    simp [AAISector.GetFreeMetalSpot, h, AAISector.firstFreeMetalSpot]
  · intro first second h h1 h2
    simp [AAISector.GetFreeMetalSpot, h, AAISector.firstFreeMetalSpot, h1, h2]
  · intro first second h h1 _
    simp [AAISector.GetFreeMetalSpot, h, AAISector.firstFreeMetalSpot, h1]

/-- Instance of C17 at `metalSector`, whose first spot is occupied and whose second spot is
free: the second spot is returned. -/
theorem GetFreeMetalSpot_spec_witness :
    metalSector.metalSpots = [⟨⟨10, 0, 10⟩, true, 7, 3⟩, ⟨⟨20, 0, 20⟩, false, -1, -1⟩]
    ∧ metalSector.GetFreeMetalSpot = some ⟨⟨20, 0, 20⟩, false, -1, -1⟩ :=
  ⟨rfl, (GetFreeMetalSpot_spec metalSector).2.2.2.1 _ _ rfl rfl rfl⟩

/-- C18 at the failing input `building = 0`: `FindBuildsite`, `GetCenterBuildsite` and
`GetRadarArtyBuildsite` have no guard; they hand the id to the build table and return what
the map search answers, here the non-zero position `(1, 0, 0)`.  `GetHighestBuildsite` and
`GetRandomBuildsite` return the zero vector for the same id, as every one of them does for
every `building < 1`. -/
theorem buildsite_queries_invalid_id :
    (∀ (UnitDef : Type) (q : BuildsiteQueries UnitDef) (map : AAIMap) (s : AAISector)
        (building : Int) (range : ℚ) (water : Bool),
      s.FindBuildsite q map building water
          = q.GetBuildSiteInRect (q.GetUnitDef building) (s.DetermineBuildsiteRectangle map)
              water
      ∧ s.GetCenterBuildsite q map building water
          = q.GetCenterBuildsite (q.GetUnitDef building) (s.DetermineBuildsiteRectangle map)
              water
      ∧ s.GetRadarArtyBuildsite q map building range water
          = q.GetRadarArtyBuildsite (q.GetUnitDef building)
              (s.DetermineBuildsiteRectangle map) range water)
    ∧ (powerSector 1 1 5).FindBuildsite exampleQueries exampleMap 0 false = ⟨1, 0, 0⟩
    ∧ (powerSector 1 1 5).FindBuildsite exampleQueries exampleMap 0 false ≠ ZeroVector
    ∧ (powerSector 1 1 5).GetCenterBuildsite exampleQueries exampleMap 0 false ≠ ZeroVector
    ∧ (powerSector 1 1 5).GetRadarArtyBuildsite exampleQueries exampleMap 0 100 false
        ≠ ZeroVector
    ∧ (powerSector 1 1 5).GetHighestBuildsite exampleQueries exampleMap 0 = ZeroVector
    ∧ (powerSector 1 1 5).GetRandomBuildsite exampleQueries exampleMap 0 5 false
        = ZeroVector := by
  refine ⟨fun _ _ _ _ _ _ _ => ⟨rfl, rfl, rfl⟩, ?_, ?_, ?_, ?_, ?_, ?_⟩
  · simp [AAISector.FindBuildsite, exampleQueries]
  · simp [AAISector.FindBuildsite, exampleQueries, ZeroVector]
  · simp [AAISector.GetCenterBuildsite, exampleQueries, ZeroVector]
  · simp [AAISector.GetRadarArtyBuildsite, exampleQueries, ZeroVector]
  · simp [AAISector.GetHighestBuildsite, ZeroVector]
  · simp [AAISector.GetRandomBuildsite, ZeroVector]

/-- C19: for a brain with non-negative metal income, metal surplus and combat power (and a
deviation transform that is non-negative on non-negative samples), no threat or urgency
function of the brain divides by zero.  Each function is the quotient shown, and its
denominator is `≥ 0.1` in `DetermineThreatByTargetType`, `≥ 1` in the income factor, `≥ 5` in
`Affordable`, `≥ 1` in `GetEnergyUrgency` (`GetAveragePowerSurplus` is always `≥ 1`), `≥ 0.5`
in `GetMetalUrgency` and `≥ 1` in both storage urgencies; consequently `GetMetalUrgency`
never exceeds `8`. -/
theorem urgency_denominators (dev : List ℚ → ℚ → ℚ) (b : AAIBrain) (gamePhase : Nat)
    (env : BrainEnvironment) (hdev : DeviationNonNegative dev)
    (hb : b.NonNegative gamePhase) (hincome : 0 ≤ env.GetMetalIncome)
    (hsurplus : 0 ≤ b.m_metalSurplus) :
    (∀ t ∈ m_mobileTargetTypes,
        (AAIBrain.DetermineThreatByTargetType dev b gamePhase).get t
          = (b.s_enemyThreatByMap.get t
              + 11 / 10 * dev (m_mobileTargetTypes.map fun u => b.GetAttacksBy u gamePhase)
                  (b.GetAttacksBy t gamePhase)
              + 11 / 10 * dev (m_mobileTargetTypes.map b.m_maxSpottedCombatUnitsOfTargetType.get)
                  (b.m_maxSpottedCombatUnitsOfTargetType.get t))
            / (1 / 10 + dev (m_mobileTargetTypes.map b.m_totalMobileCombatPower.get)
                  (b.m_totalMobileCombatPower.get t))
        ∧ 1 / 10 ≤ 1 / 10 + dev (m_mobileTargetTypes.map b.m_totalMobileCombatPower.get)
                  (b.m_totalMobileCombatPower.get t))
    ∧ (AAIBrain.incomeFactor b.m_metalIncome
          = 1 / (1 / 100 * b.m_metalIncome * b.m_metalIncome + 1)
        ∧ 1 ≤ 1 / 100 * b.m_metalIncome * b.m_metalIncome + 1)
    ∧ (AAIBrain.Affordable env = 25 / (env.GetMetalIncome + 5) ∧ 5 ≤ env.GetMetalIncome + 5)
    ∧ 1 ≤ b.GetAveragePowerSurplus env
    ∧ (b.GetEnergyUrgency env = 0
        ∨ b.GetEnergyUrgency env
            = (4 / 100 * b.m_energyIncome + 5) / b.GetAveragePowerSurplus env)
    ∧ ((b.GetMetalUrgency env = 8
          ∨ b.GetMetalUrgency env = 4 / (2 * b.m_metalSurplus + 1 / 2))
        ∧ 1 / 2 ≤ 2 * b.m_metalSurplus + 1 / 2)
    ∧ b.GetMetalUrgency env ≤ 8
    ∧ ((b.GetEnergyStorageUrgency env = 0
          ∨ b.GetEnergyStorageUrgency env
              = 3 / 10 * b.m_energyAvailable / max env.GetEnergyStorage 1)
        ∧ 1 ≤ max env.GetEnergyStorage 1)
    ∧ ((b.GetMetalStorageUrgency env = 0
          ∨ b.GetMetalStorageUrgency env = b.m_metalAvailable / max env.GetMetalStorage 1)
        ∧ 1 ≤ max env.GetMetalStorage 1) := by
  have hden : (1 : ℚ) / 2 ≤ 2 * b.m_metalSurplus + 1 / 2 := by linarith
  refine ⟨?_, ⟨rfl, incomeFactor_denominator _⟩, ⟨rfl, by linarith⟩, le_max_left _ _, ?_,
    ⟨?_, hden⟩, ?_, ⟨?_, le_max_right _ _⟩, ⟨?_, le_max_right _ _⟩⟩
  · intro t ht
    exact ⟨DetermineThreatByTargetType_get dev b gamePhase t ht,
      (threat_terms_nonneg dev b gamePhase hdev hb t ht).2.2.2⟩
  · unfold AAIBrain.GetEnergyUrgency
    dsimp only
    split_ifs
    · left; rfl
    · right; rfl
  · unfold AAIBrain.GetMetalUrgency
    split_ifs
    · right; rfl
    · left; rfl
  · unfold AAIBrain.GetMetalUrgency
    split_ifs
    · rw [div_le_iff₀ (by linarith)]
      linarith
    · exact le_refl 8
  · unfold AAIBrain.GetEnergyStorageUrgency
    dsimp only
    split_ifs
    · right; rfl
    · left; rfl
  · unfold AAIBrain.GetMetalStorageUrgency
    dsimp only
    split_ifs
    · right; rfl
    · left; rfl

/-- Instance of C19 at `landBrain` with `exampleEnvironment`: the hypotheses hold and the metal
urgency is `4 / (2 * 2 + 0.5)`, below `8`. -/
theorem urgency_denominators_witness :
    DeviationNonNegative (StatisticalData.GetDeviationFromZero (1 / 10))
    ∧ landBrain.NonNegative 0
    ∧ 0 ≤ exampleEnvironment.GetMetalIncome
    ∧ 0 ≤ landBrain.m_metalSurplus
    ∧ 1 ≤ landBrain.GetAveragePowerSurplus exampleEnvironment
    ∧ landBrain.GetMetalUrgency exampleEnvironment ≤ 8 := by
  have hdev := GetDeviationFromZero_nonneg (1 / 10) (by norm_num)
  have hb : landBrain.NonNegative 0 := by
    intro t ht
    simp only [m_mobileTargetTypes, List.mem_cons, List.mem_singleton, List.not_mem_nil,
      or_false] at ht
    rcases ht with h | h | h | h <;> subst h <;>
      norm_num [landBrain, MobileTargetTypeValues.get]
  have hincome : 0 ≤ exampleEnvironment.GetMetalIncome := by
    norm_num [exampleEnvironment]
  have hsurplus : 0 ≤ landBrain.m_metalSurplus := by
    norm_num [landBrain]
  have h := urgency_denominators (StatisticalData.GetDeviationFromZero (1 / 10)) landBrain 0
    exampleEnvironment hdev hb hincome hsurplus
  exact ⟨hdev, hb, hincome, hsurplus, h.2.2.2.1, h.2.2.2.2.2.2.1⟩

/-- C20: group removal from an attack is idempotent.  Calling `RemoveGroup(g)` twice leaves
the same attack, so the same combat and anti-air membership sets, as calling it once; calling
`RemoveGroup(g)` for a group that is in neither set leaves the attack, so both membership
sets, unchanged.  The function is total: it cannot fail. -/
theorem RemoveGroup_idempotent (a : AAIAttack) (group : Nat) :
    (a.RemoveGroup group).RemoveGroup group = a.RemoveGroup group
    ∧ ((a.RemoveGroup group).RemoveGroup group).m_combatUnitGroups
        = (a.RemoveGroup group).m_combatUnitGroups
    ∧ ((a.RemoveGroup group).RemoveGroup group).m_antiAirUnitGroups
        = (a.RemoveGroup group).m_antiAirUnitGroups
    ∧ (group ∉ a.m_combatUnitGroups → group ∉ a.m_antiAirUnitGroups →
        a.RemoveGroup group = a
        ∧ (a.RemoveGroup group).m_combatUnitGroups = a.m_combatUnitGroups
        ∧ (a.RemoveGroup group).m_antiAirUnitGroups = a.m_antiAirUnitGroups)
    ∧ group ∉ (a.RemoveGroup group).m_combatUnitGroups
    ∧ group ∉ (a.RemoveGroup group).m_antiAirUnitGroups := by
  have htwice : (a.RemoveGroup group).RemoveGroup group = a.RemoveGroup group := by
    simp only [AAIAttack.RemoveGroup, Finset.erase_idem]
  refine ⟨htwice, by rw [htwice], by rw [htwice], ?_, ?_, ?_⟩
  · intro h1 h2
    have hsame : a.RemoveGroup group = a := by
      simp only [AAIAttack.RemoveGroup, Finset.erase_eq_of_not_mem h1,
        Finset.erase_eq_of_not_mem h2]
    exact ⟨hsame, by rw [hsame], by rw [hsame]⟩
  · simp [AAIAttack.RemoveGroup]
  · simp [AAIAttack.RemoveGroup]

/-- Instance of C20 at `exampleAttack`: group `5` was never added, so removing it changes
nothing; removing the combat group `2` twice leaves the groups `1` and `3`. -/
theorem RemoveGroup_idempotent_witness :
    5 ∉ exampleAttack.m_combatUnitGroups
    ∧ 5 ∉ exampleAttack.m_antiAirUnitGroups
    ∧ exampleAttack.RemoveGroup 5 = exampleAttack
    ∧ ((exampleAttack.RemoveGroup 2).RemoveGroup 2).m_combatUnitGroups = {1, 3} := by
  have h1 : 5 ∉ exampleAttack.m_combatUnitGroups := by decide
  have h2 : 5 ∉ exampleAttack.m_antiAirUnitGroups := by decide
  refine ⟨h1, h2, ((RemoveGroup_idempotent exampleAttack 5).2.2.2.1 h1 h2).1, ?_⟩
  rw [(RemoveGroup_idempotent exampleAttack 2).2.1]
  decide

/-- A bitmask and a mask below `32` meet in the five lowest bits of the bitmask. -/
theorem land_low_bits (m k : Nat) (hk : k &&& 31 = k) : m &&& k = (m % 32) &&& k := by
  have h31 : m &&& 31 = m % 32 := Nat.and_pow_two_sub_one_eq_mod m 5
  rw [← h31, Nat.and_assoc, Nat.and_comm 31 k, hk]

/-- C21: an `AAIMovementType` set to an elementary movement type `m` reports
`cannotMoveToOtherContinents() = true` exactly when `m` is GROUND, SEA_FLOATER or
SEA_SUBMERGED, and false for AMPHIBIOUS, HOVER, AIR, the three static types and UNKNOWN; and
for every bitmask value, `isSeaUnit()` implies both `canMoveOnSea()` and
`cannotMoveToOtherContinents()`. -/
theorem cannotMoveToOtherContinents_spec :
    (∀ (start : AAIMovementType) (m : EMovementType),
      (start.setMovementType m).cannotMoveToOtherContinents = true ↔
        m = EMovementType.MOVEMENT_TYPE_GROUND ∨ m = EMovementType.MOVEMENT_TYPE_SEA_FLOATER
          ∨ m = EMovementType.MOVEMENT_TYPE_SEA_SUBMERGED)
    ∧ (∀ m : AAIMovementType, m.isSeaUnit = true →
        m.canMoveOnSea = true ∧ m.cannotMoveToOtherContinents = true) := by
  constructor
  · intro start m
    cases m <;> simp [AAIMovementType.setMovementType, AAIMovementType.cannotMoveToOtherContinents,
      EMovementType.toUInt32] <;> decide
  · intro m hsea
    obtain ⟨bits⟩ := m
    simp only [AAIMovementType.isSeaUnit, AAIMovementType.canMoveOnSea,
      AAIMovementType.cannotMoveToOtherContinents, EMovementType.toUInt32, bne_iff_ne, ne_eq]
      at hsea ⊢
    rw [land_low_bits bits _ (by decide)] at hsea ⊢
    rw [land_low_bits bits (1 + 8 + 16) (by decide)]
    have hlt : bits % 32 < 32 := Nat.mod_lt _ (by decide)
    revert hsea
    generalize bits % 32 = r at hlt
    revert r
    decide

/-- Instance of C21 at the bitmask `HOVER | SEA_FLOATER | SEA_SUBMERGED`. -/
theorem cannotMoveToOtherContinents_spec_witness :
    (AAIMovementType.mk 28).isSeaUnit = true
    ∧ (AAIMovementType.mk 28).canMoveOnSea = true
    ∧ (AAIMovementType.mk 28).cannotMoveToOtherContinents = true :=
  ⟨by decide, cannotMoveToOtherContinents_spec.2 ⟨28⟩ (by decide)⟩

/-- The value of `IsCommanderAllowedForConstructionInSector` for an enemy-occupied sector. -/
theorem IsCommanderAllowed_occupied (b : AAIBrain) (sector : AAISector)
    (hocc : sector.IsOccupiedByEnemies = true) :
    b.IsCommanderAllowedForConstructionInSector sector = false := by
  simp [AAIBrain.IsCommanderAllowedForConstructionInSector, hocc]

/-- The base sector `(0,0)` (distance to base `0`) with one enemy on radar. -/
theorem radarBaseSector_occupied :
    ({ initialSector 0 0 with enemies_on_radar := 1, distance_to_base := 0 }
        : AAISector).IsOccupiedByEnemies = true := by
  simp [AAISector.IsOccupiedByEnemies, initialSector]

/-- C23 fails for the code at enemy-occupied base sectors.  For every brain and every sector,
`IsCommanderAllowedForConstructionInSector` returns false when the sector is occupied by
enemies, whatever its distance to the base; for a sector that is not enemy-occupied it returns
true at distance to base `0`, at distance `1` it returns true exactly when the base has fewer
than `3` sectors, and for distance greater than `1` it returns false.  At the failing input,
the base sector `(0,0)` of `quietBrain` with one enemy on radar, the distance to base is `0`
and the commander is not allowed. -/
theorem IsCommanderAllowed_spec :
    (∀ (b : AAIBrain) (sector : AAISector),
      (sector.IsOccupiedByEnemies = true →
        b.IsCommanderAllowedForConstructionInSector sector = false)
      ∧ (sector.GetDistanceToBase = 0 → sector.IsOccupiedByEnemies = false →
        b.IsCommanderAllowedForConstructionInSector sector = true)
      ∧ (sector.GetDistanceToBase = 1 →
          (b.IsCommanderAllowedForConstructionInSector sector = true ↔
            b.sectorsInDistToBaseSize 0 < 3 ∧ sector.IsOccupiedByEnemies = false))
      ∧ (sector.GetDistanceToBase > 1 →
          b.IsCommanderAllowedForConstructionInSector sector = false))
    ∧ ({ initialSector 0 0 with enemies_on_radar := 1, distance_to_base := 0 }
        : AAISector).GetDistanceToBase = 0
    ∧ ({ initialSector 0 0 with enemies_on_radar := 1, distance_to_base := 0 }
        : AAISector).IsOccupiedByEnemies = true
    ∧ quietBrain.IsCommanderAllowedForConstructionInSector
        { initialSector 0 0 with enemies_on_radar := 1, distance_to_base := 0 } = false := by
  refine ⟨fun b sector => ⟨IsCommanderAllowed_occupied b sector, ?_, ?_, ?_⟩, rfl,
    radarBaseSector_occupied, IsCommanderAllowed_occupied _ _ radarBaseSector_occupied⟩
  · intro hd hocc
    simp [AAIBrain.IsCommanderAllowedForConstructionInSector, hocc, hd]
  · intro hd
    cases hocc : sector.IsOccupiedByEnemies <;>
      simp [AAIBrain.IsCommanderAllowedForConstructionInSector, hocc, hd]
  · intro hd
    have h0 : ¬ sector.GetDistanceToBase ≤ 0 := by omega
    have h1 : ¬ sector.GetDistanceToBase ≤ 1 := by omega
    cases hocc : sector.IsOccupiedByEnemies <;>
      simp [AAIBrain.IsCommanderAllowedForConstructionInSector, hocc, h0, h1]

/-- Instance of C23 in the base of `quietBrain` (one sector): the commander is not allowed in
the base sector with an enemy on radar; it is allowed in a quiet base sector, and not in a
quiet sector at distance `2`. -/
theorem IsCommanderAllowed_spec_witness :
    ({ initialSector 0 0 with enemies_on_radar := 1, distance_to_base := 0 }
        : AAISector).IsOccupiedByEnemies = true
    ∧ quietBrain.IsCommanderAllowedForConstructionInSector
        { initialSector 0 0 with enemies_on_radar := 1, distance_to_base := 0 } = false
    ∧ ({ initialSector 0 0 with distance_to_base := 0 } : AAISector).GetDistanceToBase = 0
    ∧ ({ initialSector 0 0 with distance_to_base := 0 } : AAISector).IsOccupiedByEnemies
        = false
    ∧ quietBrain.IsCommanderAllowedForConstructionInSector
        { initialSector 0 0 with distance_to_base := 0 } = true
    ∧ ({ initialSector 1 1 with distance_to_base := 2 } : AAISector).GetDistanceToBase > 1
    ∧ quietBrain.IsCommanderAllowedForConstructionInSector
        { initialSector 1 1 with distance_to_base := 2 } = false := by
  have hocc : ({ initialSector 0 0 with distance_to_base := 0 }
      : AAISector).IsOccupiedByEnemies = false := by
    simp [AAISector.IsOccupiedByEnemies, initialSector, AAISector.GetTotalEnemyCombatUnits]
  have hfar : ({ initialSector 1 1 with distance_to_base := 2 } : AAISector).GetDistanceToBase
      > 1 := by decide
  exact ⟨radarBaseSector_occupied,
    (IsCommanderAllowed_spec.1 quietBrain _).1 radarBaseSector_occupied, rfl, hocc,
    (IsCommanderAllowed_spec.1 quietBrain _).2.1 rfl hocc, hfar,
    (IsCommanderAllowed_spec.1 quietBrain _).2.2.2 hfar⟩

/-- C24 at the failing input `attackedSector` (one attack by aircraft, five by ships):
`GetTotalAttacksInThisGame` adds the entries of ground, hover and sea, for every array index
of the categories, and returns `5`, while the attacks by ground, hover and air are `1`. -/
theorem GetTotalAttacksInThisGame_sums_sea :
    (∀ (GetArrayIndex : ECombatUnitCategory → Nat) (s : AAISector),
      s.GetTotalAttacksInThisGame GetArrayIndex
        = s.attacked_by_this_game.getD (GetArrayIndex ECombatUnitCategory.GROUND_COMBAT) 0
          + s.attacked_by_this_game.getD (GetArrayIndex ECombatUnitCategory.HOVER_COMBAT) 0
          + s.attacked_by_this_game.getD (GetArrayIndex ECombatUnitCategory.SEA_COMBAT) 0)
    ∧ attackedSector.GetTotalAttacksInThisGame combatCategoryArrayIndex = 5
    ∧ attackedSector.attacked_by_this_game.getD
          (combatCategoryArrayIndex ECombatUnitCategory.GROUND_COMBAT) 0
        + attackedSector.attacked_by_this_game.getD
          (combatCategoryArrayIndex ECombatUnitCategory.HOVER_COMBAT) 0
        + attackedSector.attacked_by_this_game.getD
          (combatCategoryArrayIndex ECombatUnitCategory.AIR_COMBAT) 0 = 1 := by
  refine ⟨fun _ _ => rfl, ?_, ?_⟩
  · norm_num [AAISector.GetTotalAttacksInThisGame, attackedSector, combatCategoryArrayIndex]
  · norm_num [attackedSector, combatCategoryArrayIndex]

/-- C27 at the failing input `farOccupiedGrid` with `farOccupiedBrain`: the lists of the
brain hold exactly the sectors at distance `0` and `1`, none of them enemy-occupied, yet the
loop counts three sectors as near base, all three with distance to base `-1`; the count
exceeds `|dist0| + |dist1| = 2` and the near-base fraction is `3/2`. -/
theorem UpdatePressureByEnemy_counts_far_sectors :
    (AAIBrain.countSectorsOccupiedByEnemies farOccupiedGrid).2 = 3
    ∧ farOccupiedBrain.sectorsInDistToBaseSize 0 + farOccupiedBrain.sectorsInDistToBaseSize 1
        = 2
    ∧ (farOccupiedGrid.flatten.filter fun s =>
          s.IsOccupiedByEnemies && decide (s.GetDistanceToBase < 2)).map
        (fun s => s.GetDistanceToBase) = [-1, -1, -1]
    ∧ (farOccupiedGrid.flatten.filter fun s => decide (s.GetDistanceToBase = 0)).map
        (fun s => (s.x, s.y)) = farOccupiedBrain.m_sectorsInDistToBase.getD 0 []
    ∧ (farOccupiedGrid.flatten.filter fun s => decide (s.GetDistanceToBase = 1)).map
        (fun s => (s.x, s.y)) = farOccupiedBrain.m_sectorsInDistToBase.getD 1 []
    ∧ (((AAIBrain.countSectorsOccupiedByEnemies farOccupiedGrid).2 : ℚ)
        / ((farOccupiedBrain.sectorsInDistToBaseSize 0
            + farOccupiedBrain.sectorsInDistToBaseSize 1 : Nat) : ℚ)) = 3 / 2 := by
  have hcount : (AAIBrain.countSectorsOccupiedByEnemies farOccupiedGrid).2 = 3 := by
    rw [countSectorsOccupiedByEnemies_eq]
    simp [farOccupiedGrid, List.countP_cons, AAISector.IsOccupiedByEnemies,
      AAISector.GetTotalEnemyCombatUnits, AAISector.GetDistanceToBase, initialSector]
  have hsize : farOccupiedBrain.sectorsInDistToBaseSize 0
      + farOccupiedBrain.sectorsInDistToBaseSize 1 = 2 := by decide
  refine ⟨hcount, hsize, ?_, ?_, ?_, ?_⟩
  · norm_num [farOccupiedGrid, List.filter, AAISector.IsOccupiedByEnemies,
      AAISector.GetTotalEnemyCombatUnits, AAISector.GetDistanceToBase, initialSector]
  · norm_num [farOccupiedGrid, farOccupiedBrain, List.filter, AAISector.GetDistanceToBase,
      initialSector]
  · norm_num [farOccupiedGrid, farOccupiedBrain, List.filter, AAISector.GetDistanceToBase,
      initialSector]
  · rw [hcount, hsize]
    norm_num

/-- C28 at the failing input `i = unitList.size()`, for a `unitList` of three entries:
`IsValidUnitDefID(3)` is true although `3` is no index into the list, and the lookup
`unitList[3]` of `GetUnitDef` reads outside the list.  The same holds for a list of any
size. -/
theorem IsValidUnitDefID_accepts_size :
    IsValidUnitDefID 3 3 = true
    ∧ ¬ ((3 : Int) < ((3 : Nat) : Int))
    ∧ GetUnitDef [10, 20, 30] 3 = none
    ∧ (∀ (UnitDef : Type) (unitList : List UnitDef),
        IsValidUnitDefID unitList.length (unitList.length : Int) = true
        ∧ GetUnitDef unitList (unitList.length : Int) = none) := by
  refine ⟨by decide, by decide, by decide, ?_⟩
  intro UnitDef unitList
  constructor
  · simp [IsValidUnitDefID]
  · simp [GetUnitDef]

/-- The accumulation of the x indices in `UpdateCenterOfBase` is their sum. -/
theorem foldl_fst_eq_sum (l : List (Int × Int)) (init : Int) :
    l.foldl (fun sum index => sum + index.1) init = init + (l.map Prod.fst).sum := by
  induction l generalizing init with
  | nil => simp
  | cons x xs ih => rw [List.foldl_cons, ih, List.map_cons, List.sum_cons, Int.add_assoc]

/-- The accumulation of the y indices in `UpdateCenterOfBase` is their sum. -/
theorem foldl_snd_eq_sum (l : List (Int × Int)) (init : Int) :
    l.foldl (fun sum index => sum + index.2) init = init + (l.map Prod.snd).sum := by
  induction l generalizing init with
  | nil => simp
  | cons x xs ih => rw [List.foldl_cons, ih, List.map_cons, List.sum_cons, Int.add_assoc]

/-- The sum of a list of integers between `lo` and `hi`. -/
theorem sum_between (vals : List Int) (lo hi : Int) (h : ∀ v ∈ vals, lo ≤ v ∧ v ≤ hi) :
    (vals.length : Int) * lo ≤ vals.sum ∧ vals.sum ≤ (vals.length : Int) * hi := by
  induction vals with
  | nil => simp
  | cons v rest ih =>
    obtain ⟨h1, h2⟩ := ih fun w hw => h w (List.mem_cons_of_mem v hw)
    obtain ⟨g1, g2⟩ := h v (List.mem_cons_self v rest)
    simp only [List.length_cons, List.sum_cons, Nat.cast_add, Nat.cast_one]
    constructor <;> linarith

/-- One coordinate of the centre of the base: the truncating divisions are the floor
divisions of the formula, and the result lies in the band of the indices. -/
theorem center_coordinate (vals : List Int) (size : Int) (hne : vals ≠ []) (hsize : 1 ≤ size)
    (hnonneg : ∀ v ∈ vals, 0 ≤ v) :
    Int.tdiv (vals.sum * size) vals.length + Int.tdiv size 2
        = vals.sum * size / (vals.length : Int) + size / 2
    ∧ ∀ lo hi, (∀ v ∈ vals, lo ≤ v ∧ v ≤ hi) →
        lo * size ≤ vals.sum * size / (vals.length : Int) + size / 2
        ∧ vals.sum * size / (vals.length : Int) + size / 2 < (hi + 1) * size := by
  have hlen : (0 : Int) < vals.length := by
    have : 0 < vals.length := List.length_pos.mpr hne
    exact_mod_cast this
  have hsum : 0 ≤ vals.sum := by
    have h := (sum_between vals 0 vals.sum (fun v hv => ⟨hnonneg v hv, ?_⟩)).1
    · simpa using h
    · exact List.single_le_sum (fun w hw => hnonneg w hw) v hv
  constructor
  · rw [Int.tdiv_eq_ediv (Int.mul_nonneg hsum (by omega)) (by omega),
      Int.tdiv_eq_ediv (by omega) (by omega)]
  · intro lo hi hband
    obtain ⟨h1, h2⟩ := sum_between vals lo hi hband
    have hq1 : lo * size ≤ vals.sum * size / (vals.length : Int) := by
      apply Int.le_ediv_of_mul_le hlen
      nlinarith
    have hq2 : vals.sum * size / (vals.length : Int) ≤ hi * size := by
      apply Int.ediv_le_of_le_mul hlen
      nlinarith
    have hhalf0 : 0 ≤ size / 2 := by omega
    have hhalf1 : size / 2 < size := by omega
    constructor
    · linarith
    · linarith

/-- C30: after `UpdateCenterOfBase` with a non-empty list of `n` base sectors (with
non-negative indices) and sector sizes `≥ 1`,
`m_centerOfBase.x = (sum of the sectors' index.x * xSectorSizeMap) div n + xSectorSizeMap div 2`
(and likewise for `y`), and the centre lies within the bounding box of the base sectors:
for all bounds `lo ≤ index.x ≤ hi` of the base sectors,
`lo * xSectorSizeMap ≤ m_centerOfBase.x < (hi + 1) * xSectorSizeMap` (likewise for `y`); for a
single base sector it is the centre of that sector, and with an empty list the centre is
`(0,0)`. -/
theorem UpdateCenterOfBase_spec (xSectorSizeMap ySectorSizeMap : Int) (b : AAIBrain) :
    (b.m_sectorsInDistToBase.getD 0 [] = [] →
      (b.UpdateCenterOfBase xSectorSizeMap ySectorSizeMap).m_centerOfBase = (0, 0))
    ∧ (b.m_sectorsInDistToBase.getD 0 [] ≠ [] → 1 ≤ xSectorSizeMap → 1 ≤ ySectorSizeMap →
        (∀ index ∈ b.m_sectorsInDistToBase.getD 0 [], 0 ≤ index.1 ∧ 0 ≤ index.2) →
        (b.UpdateCenterOfBase xSectorSizeMap ySectorSizeMap).m_centerOfBase.1
            = ((b.m_sectorsInDistToBase.getD 0 []).map Prod.fst).sum * xSectorSizeMap
                / ((b.m_sectorsInDistToBase.getD 0 []).length : Int)
              + xSectorSizeMap / 2
        ∧ (b.UpdateCenterOfBase xSectorSizeMap ySectorSizeMap).m_centerOfBase.2
            = ((b.m_sectorsInDistToBase.getD 0 []).map Prod.snd).sum * ySectorSizeMap
                / ((b.m_sectorsInDistToBase.getD 0 []).length : Int)
              + ySectorSizeMap / 2
        ∧ (∀ lo hi, (∀ index ∈ b.m_sectorsInDistToBase.getD 0 [], lo ≤ index.1 ∧ index.1 ≤ hi) →
            lo * xSectorSizeMap
                ≤ (b.UpdateCenterOfBase xSectorSizeMap ySectorSizeMap).m_centerOfBase.1
            ∧ (b.UpdateCenterOfBase xSectorSizeMap ySectorSizeMap).m_centerOfBase.1
                < (hi + 1) * xSectorSizeMap)
        ∧ (∀ lo hi, (∀ index ∈ b.m_sectorsInDistToBase.getD 0 [], lo ≤ index.2 ∧ index.2 ≤ hi) →
            lo * ySectorSizeMap
                ≤ (b.UpdateCenterOfBase xSectorSizeMap ySectorSizeMap).m_centerOfBase.2
            ∧ (b.UpdateCenterOfBase xSectorSizeMap ySectorSizeMap).m_centerOfBase.2
                < (hi + 1) * ySectorSizeMap)
        ∧ (∀ index, b.m_sectorsInDistToBase.getD 0 [] = [index] →
            (b.UpdateCenterOfBase xSectorSizeMap ySectorSizeMap).m_centerOfBase
              = (index.1 * xSectorSizeMap + xSectorSizeMap / 2,
                  index.2 * ySectorSizeMap + ySectorSizeMap / 2))) := by
  constructor
  · intro hempty
    simp only [AAIBrain.UpdateCenterOfBase, hempty, List.length_nil, gt_iff_lt,
      lt_self_iff_false, if_false]
  · intro hne hx hy hnonneg
    have hpos : (b.m_sectorsInDistToBase.getD 0 []).length > 0 := List.length_pos.mpr hne
    have hcenter : (b.UpdateCenterOfBase xSectorSizeMap ySectorSizeMap).m_centerOfBase
        = (Int.tdiv (((b.m_sectorsInDistToBase.getD 0 []).map Prod.fst).sum * xSectorSizeMap)
              (b.m_sectorsInDistToBase.getD 0 []).length + Int.tdiv xSectorSizeMap 2,
           Int.tdiv (((b.m_sectorsInDistToBase.getD 0 []).map Prod.snd).sum * ySectorSizeMap)
              (b.m_sectorsInDistToBase.getD 0 []).length + Int.tdiv ySectorSizeMap 2) := by
      simp only [AAIBrain.UpdateCenterOfBase, if_pos hpos, foldl_fst_eq_sum, foldl_snd_eq_sum,
        Int.zero_add]
    have hnex : (b.m_sectorsInDistToBase.getD 0 []).map Prod.fst ≠ [] := by
      simpa using hne
    have hney : (b.m_sectorsInDistToBase.getD 0 []).map Prod.snd ≠ [] := by
      simpa using hne
    obtain ⟨ex, bx⟩ := center_coordinate ((b.m_sectorsInDistToBase.getD 0 []).map Prod.fst)
      xSectorSizeMap hnex hx (by
        intro v hv
        obtain ⟨index, hindex, rfl⟩ := List.mem_map.mp hv
        exact (hnonneg index hindex).1)
    obtain ⟨ey, bY⟩ := center_coordinate ((b.m_sectorsInDistToBase.getD 0 []).map Prod.snd)
      ySectorSizeMap hney hy (by
        intro v hv
        obtain ⟨index, hindex, rfl⟩ := List.mem_map.mp hv
        exact (hnonneg index hindex).2)
    simp only [List.length_map] at ex ey bx bY
    rw [hcenter]
    refine ⟨ex, ey, ?_, ?_, ?_⟩
    · intro lo hi hband
      rw [show ∀ p q : Int, (p, q).1 = p from fun _ _ => rfl, ex]
      apply bx lo hi
      intro v hv
      obtain ⟨index, hindex, rfl⟩ := List.mem_map.mp hv
      exact hband index hindex
    · intro lo hi hband
      rw [show ∀ p q : Int, (p, q).2 = q from fun _ _ => rfl, ey]
      apply bY lo hi
      intro v hv
      obtain ⟨index, hindex, rfl⟩ := List.mem_map.mp hv
      exact hband index hindex
    · intro index hone
      rw [ex, ey, hone]
      simp

/-- Instance of C30 at `twoSectorBrain` with sectors of 16x16 map cells: the centre is
`(3 * 16 div 2 + 8, 2 * 16 div 2 + 8) = (32, 24)`, inside the cells `16 ≤ x < 48`. -/
theorem UpdateCenterOfBase_spec_witness :
    twoSectorBrain.m_sectorsInDistToBase.getD 0 [] ≠ []
    ∧ (1 : Int) ≤ 16
    ∧ (∀ index ∈ twoSectorBrain.m_sectorsInDistToBase.getD 0 [], 0 ≤ index.1 ∧ 0 ≤ index.2)
    ∧ (∀ index ∈ twoSectorBrain.m_sectorsInDistToBase.getD 0 [], 1 ≤ index.1 ∧ index.1 ≤ 2)
    ∧ (twoSectorBrain.UpdateCenterOfBase 16 16).m_centerOfBase.1 = 32
    ∧ (twoSectorBrain.UpdateCenterOfBase 16 16).m_centerOfBase.2 = 24
    ∧ 1 * 16 ≤ (twoSectorBrain.UpdateCenterOfBase 16 16).m_centerOfBase.1
    ∧ (twoSectorBrain.UpdateCenterOfBase 16 16).m_centerOfBase.1 < (2 + 1) * 16 := by
  have hne : twoSectorBrain.m_sectorsInDistToBase.getD 0 [] ≠ [] := by decide
  have hsize : (1 : Int) ≤ 16 := by decide
  have hnonneg : ∀ index ∈ twoSectorBrain.m_sectorsInDistToBase.getD 0 [],
      0 ≤ index.1 ∧ 0 ≤ index.2 := by decide
  have hband : ∀ index ∈ twoSectorBrain.m_sectorsInDistToBase.getD 0 [],
      1 ≤ index.1 ∧ index.1 ≤ 2 := by decide
  have h := (UpdateCenterOfBase_spec 16 16 twoSectorBrain).2 hne hsize hsize hnonneg
  exact ⟨hne, hsize, hnonneg, hband, h.1.trans (by decide), h.2.1.trans (by decide),
    (h.2.2.1 1 2 hband).1, (h.2.2.1 1 2 hband).2⟩

/-- The income factor lies in `(0, 1]`. -/
theorem incomeFactor_bounds (m : ℚ) :
    0 < AAIBrain.incomeFactor m ∧ AAIBrain.incomeFactor m ≤ 1 := by
  have hd := incomeFactor_denominator m
  unfold AAIBrain.incomeFactor
  constructor
  · positivity
  · rw [div_le_one (by linarith)]
    exact hd

/-- The remainder of a random draw modulo `6` or `5`, as a rational. -/
theorem draw_mod_bounds (draw : Nat) :
    (0 : ℚ) ≤ ((draw % 6 : Nat) : ℚ) ∧ ((draw % 6 : Nat) : ℚ) ≤ 5
    ∧ (0 : ℚ) ≤ ((draw % 5 : Nat) : ℚ) ∧ ((draw % 5 : Nat) : ℚ) ≤ 4 := by
  have h6 : draw % 6 ≤ 5 := by omega
  have h5 : draw % 5 ≤ 4 := by omega
  refine ⟨Nat.cast_nonneg _, by exact_mod_cast h6, Nat.cast_nonneg _, by exact_mod_cast h5⟩

/-- C25: for every average metal income and every enemy pressure in `[0,1]`,
`DetermineCombatUnitSelectionCriteria` returns cost in `[0.5, 2.5]`, power in `[1.0, 2.5]` and
efficiency in `[0.25, 1.5]`; in the starting game phase speed is `0.35` and range is `0.25`
whatever the random draws are, and otherwise speed and range each lie in `[0.1, 1.5]`. -/
theorem DetermineCombatUnitSelectionCriteria_bounds (b : AAIBrain) (isStartingPhase : Bool)
    (draws : AAIBrain.CombatUnitRandomDraws)
    (hp0 : 0 ≤ b.m_estimatedPressureByEnemies) (hp1 : b.m_estimatedPressureByEnemies ≤ 1) :
    (1 / 2 ≤ (b.DetermineCombatUnitSelectionCriteria isStartingPhase draws).cost
      ∧ (b.DetermineCombatUnitSelectionCriteria isStartingPhase draws).cost ≤ 5 / 2)
    ∧ (1 ≤ (b.DetermineCombatUnitSelectionCriteria isStartingPhase draws).power
      ∧ (b.DetermineCombatUnitSelectionCriteria isStartingPhase draws).power ≤ 5 / 2)
    ∧ (1 / 4 ≤ (b.DetermineCombatUnitSelectionCriteria isStartingPhase draws).efficiency
      ∧ (b.DetermineCombatUnitSelectionCriteria isStartingPhase draws).efficiency ≤ 3 / 2)
    ∧ (isStartingPhase = true →
        (b.DetermineCombatUnitSelectionCriteria isStartingPhase draws).speed = 35 / 100
        ∧ (b.DetermineCombatUnitSelectionCriteria isStartingPhase draws).range = 1 / 4)
    ∧ (isStartingPhase = false →
        (1 / 10 ≤ (b.DetermineCombatUnitSelectionCriteria isStartingPhase draws).speed
          ∧ (b.DetermineCombatUnitSelectionCriteria isStartingPhase draws).speed ≤ 3 / 2)
        ∧ (1 / 10 ≤ (b.DetermineCombatUnitSelectionCriteria isStartingPhase draws).range
          ∧ (b.DetermineCombatUnitSelectionCriteria isStartingPhase draws).range ≤ 3 / 2)) := by
  obtain ⟨hf0, hf1⟩ := incomeFactor_bounds b.m_metalIncome
  obtain ⟨s60, s61, s50, s51⟩ := draw_mod_bounds draws.speedDraw
  obtain ⟨r60, r61, r50, r51⟩ := draw_mod_bounds draws.rangeDraw
  refine ⟨?_, ?_, ?_, ?_, ?_⟩
  · cases isStartingPhase <;>
      simp only [AAIBrain.DetermineCombatUnitSelectionCriteria, Bool.false_eq_true, if_false,
        if_true] <;>
      constructor <;> linarith
  · cases isStartingPhase <;>
      simp only [AAIBrain.DetermineCombatUnitSelectionCriteria, Bool.false_eq_true, if_false,
        if_true] <;>
      constructor <;> linarith
  · cases isStartingPhase <;>
      simp only [AAIBrain.DetermineCombatUnitSelectionCriteria, Bool.false_eq_true, if_false,
        if_true] <;>
      constructor <;> linarith
  · intro h
    subst h
    exact ⟨rfl, rfl⟩
  · intro h
    subst h
    simp only [AAIBrain.DetermineCombatUnitSelectionCriteria, Bool.false_eq_true, if_false]
    refine ⟨⟨?_, ?_⟩, ⟨?_, ?_⟩⟩
    · split_ifs <;> linarith
    · split_ifs <;> linarith
    · split_ifs <;> linarith
    · split_ifs <;> linarith

/-- Instance of C25 at `landBrain` (pressure `1/2`) outside the starting phase with a fast
unit draw of `17`: the speed is `0.5 + 0.2 * 5`. -/
theorem DetermineCombatUnitSelectionCriteria_bounds_witness :
    (0 : ℚ) ≤ landBrain.m_estimatedPressureByEnemies
    ∧ landBrain.m_estimatedPressureByEnemies ≤ 1
    ∧ (landBrain.DetermineCombatUnitSelectionCriteria false ⟨true, 17, false, 9⟩).speed ≤ 3 / 2
    ∧ (landBrain.DetermineCombatUnitSelectionCriteria true ⟨true, 17, false, 9⟩).speed
        = 35 / 100 := by
  have hp0 : (0 : ℚ) ≤ landBrain.m_estimatedPressureByEnemies := by norm_num [landBrain]
  have hp1 : landBrain.m_estimatedPressureByEnemies ≤ 1 := by norm_num [landBrain]
  exact ⟨hp0, hp1,
    ((DetermineCombatUnitSelectionCriteria_bounds landBrain false ⟨true, 17, false, 9⟩ hp0
      hp1).2.2.2.2 rfl).1.2,
    ((DetermineCombatUnitSelectionCriteria_bounds landBrain true ⟨true, 17, false, 9⟩ hp0
      hp1).2.2.2.1 rfl).1⟩

/-- The stand-in `rationalDecay` has the bounds of the exponential function on non-positive
arguments. -/
theorem rationalDecay_bounds (x : ℚ) (hx : x ≤ 0) :
    0 < rationalDecay x ∧ rationalDecay x ≤ 1 := by
  unfold rationalDecay
  have h : (0 : ℚ) < 1 - x := by linarith
  constructor
  · positivity
  · rw [div_le_one h]
    linarith

/-- C26: for every sector with non-negative friendly static defence power and static defence
count, every average metal income and every enemy pressure in `[0,1]`,
`DetermineStaticDefenceSelectionCriteria` returns cost in `[0.5, 4.0]`, combat power in
`[1.5, 3.0]`, buildtime in `[0.25, 2.0]` and range in `[0.1, 1.5]`; terrain is
`0.1 + 1.25 * range`, plus `1.0` exactly when the distance of the sector to the base exceeds
`1`; a range above `0.5` only occurs when the sector holds more than one static defence.  The
function `exp` is any function with values in `(0, 1]` on non-positive arguments. -/
theorem DetermineStaticDefenceSelectionCriteria_bounds (exp : ℚ → ℚ)
    ( HIGH_RANGE_UNITS_RATIO : ℚ) (b : AAIBrain) (sector : AAISector)
    (friendlyStaticDefencePower : ℚ) (numberOfStaticDefences : Int) (targetType : ETargetType)
    (randomDraw rangeDraw : Nat)
    (hexp : ∀ x : ℚ, x ≤ 0 → 0 < exp x ∧ exp x ≤ 1)
    (hpower : 0 ≤ friendlyStaticDefencePower) (hcount : 0 ≤ numberOfStaticDefences)
    (hp0 : 0 ≤ b.m_estimatedPressureByEnemies) (hp1 : b.m_estimatedPressureByEnemies ≤ 1) :
    (1 / 2 ≤ (AAIBrain.DetermineStaticDefenceSelectionCriteria exp HIGH_RANGE_UNITS_RATIO b sector
        friendlyStaticDefencePower numberOfStaticDefences targetType randomDraw rangeDraw).cost
      ∧ (AAIBrain.DetermineStaticDefenceSelectionCriteria exp HIGH_RANGE_UNITS_RATIO b sector
        friendlyStaticDefencePower numberOfStaticDefences targetType randomDraw rangeDraw).cost
        ≤ 4)
    ∧ (3 / 2 ≤ (AAIBrain.DetermineStaticDefenceSelectionCriteria exp HIGH_RANGE_UNITS_RATIO b sector
        friendlyStaticDefencePower numberOfStaticDefences targetType randomDraw
        rangeDraw).combatPower
      ∧ (AAIBrain.DetermineStaticDefenceSelectionCriteria exp HIGH_RANGE_UNITS_RATIO b sector
        friendlyStaticDefencePower numberOfStaticDefences targetType randomDraw
        rangeDraw).combatPower ≤ 3)
    ∧ (1 / 4 ≤ (AAIBrain.DetermineStaticDefenceSelectionCriteria exp HIGH_RANGE_UNITS_RATIO b sector
        friendlyStaticDefencePower numberOfStaticDefences targetType randomDraw
        rangeDraw).buildtime
      ∧ (AAIBrain.DetermineStaticDefenceSelectionCriteria exp HIGH_RANGE_UNITS_RATIO b sector
        friendlyStaticDefencePower numberOfStaticDefences targetType randomDraw
        rangeDraw).buildtime ≤ 2)
    ∧ (1 / 10 ≤ (AAIBrain.DetermineStaticDefenceSelectionCriteria exp HIGH_RANGE_UNITS_RATIO b sector
        friendlyStaticDefencePower numberOfStaticDefences targetType randomDraw rangeDraw).range
      ∧ (AAIBrain.DetermineStaticDefenceSelectionCriteria exp HIGH_RANGE_UNITS_RATIO b sector
        friendlyStaticDefencePower numberOfStaticDefences targetType randomDraw rangeDraw).range
        ≤ 3 / 2)
    ∧ (AAIBrain.DetermineStaticDefenceSelectionCriteria exp HIGH_RANGE_UNITS_RATIO b sector
        friendlyStaticDefencePower numberOfStaticDefences targetType randomDraw
        rangeDraw).terrain
      = 1 / 10 + 5 / 4 * (AAIBrain.DetermineStaticDefenceSelectionCriteria exp HIGH_RANGE_UNITS_RATIO b
          sector friendlyStaticDefencePower numberOfStaticDefences targetType randomDraw
          rangeDraw).range
        + (if sector.GetDistanceToBase > 1 then 1 else 0)
    ∧ (1 / 2 < (AAIBrain.DetermineStaticDefenceSelectionCriteria exp HIGH_RANGE_UNITS_RATIO b sector
        friendlyStaticDefencePower numberOfStaticDefences targetType randomDraw rangeDraw).range
      → numberOfStaticDefences > 1) := by
  obtain ⟨hf0, hf1⟩ := incomeFactor_bounds b.m_metalIncome
  obtain ⟨r60, r61, r50, r51⟩ := draw_mod_bounds rangeDraw
  have hcountQ : (0 : ℚ) ≤ (numberOfStaticDefences : ℚ) := by exact_mod_cast hcount
  obtain ⟨hd0, hd1⟩ := hexp (-friendlyStaticDefencePower / 6) (by linarith)
  obtain ⟨hn0, hn1⟩ := hexp (-(numberOfStaticDefences : ℚ) / 3) (by linarith)
  simp only [AAIBrain.DetermineStaticDefenceSelectionCriteria]
  refine ⟨⟨by linarith, by linarith⟩, ⟨by linarith, by linarith⟩, ⟨by linarith, by linarith⟩,
    ⟨?_, ?_⟩, ?_, ?_⟩
  · split_ifs <;> linarith
  · split_ifs <;> linarith
  · by_cases hdist : sector.GetDistanceToBase > 1
    · rw [if_pos hdist, if_pos hdist]
    · rw [if_neg hdist, if_neg hdist, add_zero]
  · intro hrange
    by_cases hhigh : IsRandomNumberBelow randomDraw HIGH_RANGE_UNITS_RATIO = true
        ∧ numberOfStaticDefences > 1
    · exact hhigh.2
    · rw [if_neg hhigh] at hrange
      linarith

/-- Instance of C26 with `rationalDecay` for `exp`: a sector of `landBrain` with static
defence power `6` and `3` static defences, high range ratio `1/2`, random draw `10`
(value `0.1`) and range draw `17`. -/
theorem DetermineStaticDefenceSelectionCriteria_bounds_witness :
    (∀ x : ℚ, x ≤ 0 → 0 < rationalDecay x ∧ rationalDecay x ≤ 1)
    ∧ (0 : ℚ) ≤ 6 ∧ (0 : Int) ≤ 3
    ∧ (0 : ℚ) ≤ landBrain.m_estimatedPressureByEnemies
    ∧ landBrain.m_estimatedPressureByEnemies ≤ 1
    ∧ (AAIBrain.DetermineStaticDefenceSelectionCriteria rationalDecay (1 / 2) landBrain
        (initialSector 1 1) 6 3 ETargetType.SURFACE 10 17).cost ≤ 4
    ∧ (AAIBrain.DetermineStaticDefenceSelectionCriteria rationalDecay (1 / 2) landBrain
        (initialSector 1 1) 6 3 ETargetType.SURFACE 10 17).range = 3 / 2 := by
  have hp0 : (0 : ℚ) ≤ landBrain.m_estimatedPressureByEnemies := by norm_num [landBrain]
  have hp1 : landBrain.m_estimatedPressureByEnemies ≤ 1 := by norm_num [landBrain]
  refine ⟨rationalDecay_bounds, by norm_num, by norm_num, hp0, hp1,
    (DetermineStaticDefenceSelectionCriteria_bounds rationalDecay (1 / 2) landBrain
      (initialSector 1 1) 6 3 ETargetType.SURFACE 10 17 rationalDecay_bounds (by norm_num)
      (by norm_num) hp0 hp1).1.2, ?_⟩
  norm_num [AAIBrain.DetermineStaticDefenceSelectionCriteria, IsRandomNumberBelow]

/-- The four values of `DetermineMovementTypeForCombatUnitConstruction`: the bitmasks of
`{AIR}`, `{HOVER, SEA_FLOATER, SEA_SUBMERGED}`, `{HOVER, AMPHIBIOUS}` and
`{HOVER, AMPHIBIOUS, GROUND}`. -/
theorem DetermineMovementType_values ( AIRCRAFT_RATIO numberOfBombTargets : ℚ)
    (enemyBuildingsOnLand enemyBuildingsOnSea : Int) (s_waterTilesRatio : ℚ)
    (isStartingPhase : Bool) (airDraw waterDraw groundDraw : Nat) :
    (AAIBrain.DetermineMovementTypeForCombatUnitConstruction AIRCRAFT_RATIO numberOfBombTargets
      enemyBuildingsOnLand enemyBuildingsOnSea s_waterTilesRatio isStartingPhase airDraw
      waterDraw groundDraw)
      = ⟨32⟩ ∧ isStartingPhase = false
    ∨ (AAIBrain.DetermineMovementTypeForCombatUnitConstruction AIRCRAFT_RATIO
      numberOfBombTargets enemyBuildingsOnLand enemyBuildingsOnSea s_waterTilesRatio
      isStartingPhase airDraw waterDraw groundDraw) = ⟨28⟩
    ∨ (AAIBrain.DetermineMovementTypeForCombatUnitConstruction AIRCRAFT_RATIO
      numberOfBombTargets enemyBuildingsOnLand enemyBuildingsOnSea s_waterTilesRatio
      isStartingPhase airDraw waterDraw groundDraw) = ⟨6⟩
    ∨ (AAIBrain.DetermineMovementTypeForCombatUnitConstruction AIRCRAFT_RATIO
      numberOfBombTargets enemyBuildingsOnLand enemyBuildingsOnSea s_waterTilesRatio
      isStartingPhase airDraw waterDraw groundDraw) = ⟨7⟩ := by
  unfold AAIBrain.DetermineMovementTypeForCombatUnitConstruction
  dsimp only
  by_cases hair : (IsRandomNumberBelow airDraw ( AIRCRAFT_RATIO * (3 / 4 * (1 + numberOfBombTargets)))
      && !isStartingPhase) = true
  · rw [if_pos hair]
    left
    refine ⟨rfl, ?_⟩
    cases isStartingPhase
    · rfl
    · simp at hair
  · rw [if_neg hair]
    right
    split_ifs <;>
      first
      | exact Or.inl rfl
      | exact Or.inr (Or.inl rfl)
      | exact Or.inr (Or.inr rfl)

/-- C29: for every outcome of the random draws,
`DetermineMovementTypeForCombatUnitConstruction` returns exactly one of the four movement type
sets `{AIR}`, `{HOVER, SEA_FLOATER, SEA_SUBMERGED}`, `{HOVER, AMPHIBIOUS}` and
`{HOVER, AMPHIBIOUS, GROUND}`; a result that is a sea unit never contains GROUND, every result
that is not AIR contains HOVER, and in the starting game phase the result is never AIR. -/
theorem DetermineMovementTypeForCombatUnitConstruction_spec
    ( AIRCRAFT_RATIO numberOfBombTargets : ℚ) (enemyBuildingsOnLand enemyBuildingsOnSea : Int)
    (s_waterTilesRatio : ℚ) (isStartingPhase : Bool) (airDraw waterDraw groundDraw : Nat) :
    ((AAIBrain.DetermineMovementTypeForCombatUnitConstruction AIRCRAFT_RATIO numberOfBombTargets
        enemyBuildingsOnLand enemyBuildingsOnSea s_waterTilesRatio isStartingPhase airDraw
        waterDraw groundDraw)
      ∈ [AAIMovementType.unknown.setMovementType EMovementType.MOVEMENT_TYPE_AIR,
          ((AAIMovementType.unknown.AddMovementType EMovementType.MOVEMENT_TYPE_HOVER
            ).AddMovementType EMovementType.MOVEMENT_TYPE_SEA_FLOATER
            ).AddMovementType EMovementType.MOVEMENT_TYPE_SEA_SUBMERGED,
          (AAIMovementType.unknown.AddMovementType EMovementType.MOVEMENT_TYPE_HOVER
            ).AddMovementType EMovementType.MOVEMENT_TYPE_AMPHIBIOUS,
          ((AAIMovementType.unknown.AddMovementType EMovementType.MOVEMENT_TYPE_HOVER
            ).AddMovementType EMovementType.MOVEMENT_TYPE_AMPHIBIOUS
            ).AddMovementType EMovementType.MOVEMENT_TYPE_GROUND])
    ∧ ¬ ((AAIBrain.DetermineMovementTypeForCombatUnitConstruction AIRCRAFT_RATIO
          numberOfBombTargets enemyBuildingsOnLand enemyBuildingsOnSea s_waterTilesRatio
          isStartingPhase airDraw waterDraw groundDraw).isSeaUnit = true
        ∧ (AAIBrain.DetermineMovementTypeForCombatUnitConstruction AIRCRAFT_RATIO
          numberOfBombTargets enemyBuildingsOnLand enemyBuildingsOnSea s_waterTilesRatio
          isStartingPhase airDraw waterDraw groundDraw).isIncludedIn
            EMovementType.MOVEMENT_TYPE_GROUND.toUInt32 = true)
    ∧ ((AAIBrain.DetermineMovementTypeForCombatUnitConstruction AIRCRAFT_RATIO
          numberOfBombTargets enemyBuildingsOnLand enemyBuildingsOnSea s_waterTilesRatio
          isStartingPhase airDraw waterDraw groundDraw).isAir = false →
        (AAIBrain.DetermineMovementTypeForCombatUnitConstruction AIRCRAFT_RATIO
          numberOfBombTargets enemyBuildingsOnLand enemyBuildingsOnSea s_waterTilesRatio
          isStartingPhase airDraw waterDraw groundDraw).isIncludedIn
            EMovementType.MOVEMENT_TYPE_HOVER.toUInt32 = true)
    ∧ (isStartingPhase = true →
        (AAIBrain.DetermineMovementTypeForCombatUnitConstruction AIRCRAFT_RATIO
          numberOfBombTargets enemyBuildingsOnLand enemyBuildingsOnSea s_waterTilesRatio
          isStartingPhase airDraw waterDraw groundDraw).isAir = false) := by
  rcases DetermineMovementType_values AIRCRAFT_RATIO numberOfBombTargets enemyBuildingsOnLand
    enemyBuildingsOnSea s_waterTilesRatio isStartingPhase airDraw waterDraw groundDraw with
    ⟨h, hphase⟩ | h | h | h
  · rw [h]
    refine ⟨by decide, by decide, by decide, ?_⟩
    intro hstart
    rw [hphase] at hstart
    cases hstart
  · rw [h]
    exact ⟨by decide, by decide, by decide, fun _ => by decide⟩
  · rw [h]
    exact ⟨by decide, by decide, by decide, fun _ => by decide⟩
  · rw [h]
    exact ⟨by decide, by decide, by decide, fun _ => by decide⟩

/-- Instance of C29 in the starting phase on a map without water and with all spotted enemy
buildings on land: the air draw `0` is below the air craft ratio, and the result is
`{HOVER, AMPHIBIOUS, GROUND}`. -/
theorem DetermineMovementTypeForCombatUnitConstruction_spec_witness :
    AAIBrain.DetermineMovementTypeForCombatUnitConstruction (1 / 4) 1 3 0 0 true 0 50 50 = ⟨7⟩
    ∧ (AAIBrain.DetermineMovementTypeForCombatUnitConstruction (1 / 4) 1 3 0 0 true 0 50
        50).isAir = false := by
  refine ⟨?_, (DetermineMovementTypeForCombatUnitConstruction_spec (1 / 4) 1 3 0 0 true 0 50
    50).2.2.2 rfl⟩
  simp [AAIBrain.DetermineMovementTypeForCombatUnitConstruction, IsRandomNumberBelow,
    AAIMovementType.unknown, AAIMovementType.AddMovementType, EMovementType.toUInt32]
  norm_num

/-- C22 fails for the code: the rating of a candidate in `ExpandBase` does not depend on
its distance to the base sectors, for every candidate and every statistics function.  For the
base `(0,0), (1,0)` the candidates `(2,0)` (summed squared distance `5`) and `(0,1)` (summed
squared distance `3`) agree in metal spots, attacks, edge distance and terrain; both are rated
`4`, and the candidate `(2,0)`, which is first in the list, is selected. -/
theorem ExpandBase_rating_ignores_distance :
    (∀ (GetDeviationFromMax : List ℚ → ℚ → ℚ) (ConnectedToOcean : AAISector → Bool)
        (sectorTypeIsLand sectorTypeIsWater preferSafeSector : Bool)
        (sectorDistances sectorAttacks : List ℚ)
        (candidate : AAIBrain.SectorForBaseExpansion) (distance : ℚ),
      AAIBrain.expansionRating GetDeviationFromMax ConnectedToOcean sectorTypeIsLand
          sectorTypeIsWater preferSafeSector sectorDistances sectorAttacks
          { candidate with distance := distance }
        = AAIBrain.expansionRating GetDeviationFromMax ConnectedToOcean sectorTypeIsLand
          sectorTypeIsWater preferSafeSector sectorDistances sectorAttacks candidate)
    ∧ (expansionCandidate [(0, 0), (1, 0)] 0 1).distance = 3
    ∧ (expansionCandidate [(0, 0), (1, 0)] 2 0).distance = 5
    ∧ (∀ (GetDeviationFromMax : List ℚ → ℚ → ℚ) (ConnectedToOcean : AAISector → Bool),
      AAIBrain.expansionRating GetDeviationFromMax ConnectedToOcean true false false [5, 3]
          [0, 0] (expansionCandidate [(0, 0), (1, 0)] 0 1) = 4
      ∧ AAIBrain.expansionRating GetDeviationFromMax ConnectedToOcean true false false [5, 3]
          [0, 0] (expansionCandidate [(0, 0), (1, 0)] 2 0) = 4
      ∧ ((AAIBrain.selectSectorForBaseExpansion GetDeviationFromMax ConnectedToOcean true false
          false [expansionCandidate [(0, 0), (1, 0)] 2 0,
            expansionCandidate [(0, 0), (1, 0)] 0 1]).1.map fun sector => (sector.x, sector.y))
        = some (2, 0)) := by
  refine ⟨fun _ _ _ _ _ _ _ _ _ => rfl, ?_, ?_, ?_⟩
  · norm_num [expansionCandidate, AAIBrain.sectorDistance]
  · norm_num [expansionCandidate, AAIBrain.sectorDistance]
  · intro GetDeviationFromMax ConnectedToOcean
    have h1 : AAIBrain.expansionRating GetDeviationFromMax ConnectedToOcean true false false
        [5, 3] [0, 0] (expansionCandidate [(0, 0), (1, 0)] 0 1) = 4 := by
      norm_num [AAIBrain.expansionRating, expansionCandidate, expansionSector, initialSector]
    have h2 : AAIBrain.expansionRating GetDeviationFromMax ConnectedToOcean true false false
        [5, 3] [0, 0] (expansionCandidate [(0, 0), (1, 0)] 2 0) = 4 := by
      norm_num [AAIBrain.expansionRating, expansionCandidate, expansionSector, initialSector]
    have hd1 : (expansionCandidate [(0, 0), (1, 0)] 0 1).distance = 3 := by
      norm_num [expansionCandidate, AAIBrain.sectorDistance]
    have hd2 : (expansionCandidate [(0, 0), (1, 0)] 2 0).distance = 5 := by
      norm_num [expansionCandidate, AAIBrain.sectorDistance]
    have ha1 : (expansionCandidate [(0, 0), (1, 0)] 0 1).totalAttacks = 0 := rfl
    have ha2 : (expansionCandidate [(0, 0), (1, 0)] 2 0).totalAttacks = 0 := rfl
    refine ⟨h1, h2, ?_⟩
    simp only [AAIBrain.selectSectorForBaseExpansion, List.map_cons, List.map_nil,
      List.foldl_cons, List.foldl_nil, hd1, hd2, ha1, ha2, h1, h2]
    norm_num
    exact ⟨rfl, rfl⟩

end AAI
